import Mathlib

/-!
Verification development for terraform-provider-junos.

Shallow embedding of the set/read string code of a few resources of the
provider (generate route, firewall policer, policy-options community, BGP
neighbor, security address book, IPsec VPN, physical interface state upgrade,
the data source of the physical interfaces present) and of the calls they make
on the device session and the global mutex, and theorems about them.

Go strings are modelled as lists of characters (`Str`); the functions of the
Go standard library that the code calls (`strings.Split`, `strings.Contains`,
`strings.TrimPrefix`, `strconv.Itoa`, ...) are given small executable models
under their Go names.
-/

namespace Junos

/-! ## Go strings -/

/-- Go `string`, as the list of its characters. -/
abbrev Str := List Char

/-- Go `strings.HasPrefix(s, pre)`. -/
def HasPrefix (s pre : Str) : Bool := pre.isPrefixOf s

/-- Go `strings.TrimPrefix(s, pre)`: `s` without the leading `pre`, or `s` itself. -/
def TrimPrefix (s pre : Str) : Str :=
  if HasPrefix s pre then s.drop pre.length else s

/-- Go `strings.Contains(s, sub)`. -/
def Contains : Str → Str → Bool
  | [], sub => sub.isEmpty
  | c :: cs, sub => sub.isPrefixOf (c :: cs) || Contains cs sub

/-- Leftmost, non-overlapping cut of a string at the occurrences of `sep`:
`skip` counts the characters of an occurrence of `sep` still to be dropped.
The head of the result is the field being read. -/
def splitGo (sep : Str) : Nat → Str → List Str
  | _, [] => [[]]
  | skip + 1, _ :: cs => splitGo sep skip cs
  | 0, c :: cs =>
    if sep.isPrefixOf (c :: cs) then [] :: splitGo sep (sep.length - 1) cs
    else (splitGo sep 0 cs).modifyHead (List.cons c)

/-- Go `strings.Split(s, sep)`; with an empty separator Go cuts after each character. -/
def Split (s sep : Str) : List Str :=
  if sep.isEmpty then s.map (fun c => [c]) else splitGo sep 0 s

/-- Go `strings.Trim(s, cutset)` for a one-character cutset. -/
def Trim (s : Str) (c : Char) : Str :=
  ((s.dropWhile (· == c)).reverse.dropWhile (· == c)).reverse

/-- Go `strings.Join(xs, sep)`. -/
def Join (xs : List Str) (sep : Str) : Str := sep.intercalate xs

/-- Function `CutPrefixInString` of the library `go-utils/basicalter`: when `s`
has the prefix, the string is replaced by its remainder (`some`), otherwise it
is left alone (`none`). -/
def CutPrefixInString (s pre : Str) : Option Str :=
  if HasPrefix s pre then some (TrimPrefix s pre) else none

/-! ## Decimal conversion -/

deriving instance DecidableEq for Except

/-- Decimal digits of `n`, most significant first, with `fuel` bounding the
number of digits (the loop of Go `strconv.formatBits`, base 10). -/
def natDigits : Nat → Nat → Str
  | 0, _ => []
  | fuel + 1, n =>
    if n < 10 then [Char.ofNat (48 + n)]
    else natDigits fuel (n / 10) ++ [Char.ofNat (48 + n % 10)]

/-- Decimal representation of a natural number (`0` is `"0"`). -/
def natToStr (n : Nat) : Str := natDigits (n + 1) n

/-- Value of a decimal digit character. -/
def digitVal (c : Char) : Option Nat :=
  if 48 ≤ c.toNat ∧ c.toNat ≤ 57 then some (c.toNat - 48) else none

/-- Reads a run of decimal digits, most significant first, onto the accumulator. -/
def parseDigits : Str → Nat → Option Nat
  | [], acc => some acc
  | c :: cs, acc =>
    match digitVal c with
    | some d => parseDigits cs (10 * acc + d)
    | none => none

/-- Range of Go `int64` (and of `int` on 64-bit platforms). -/
def inInt64 (i : Int) : Prop := -(2 : Int) ^ 63 ≤ i ∧ i < (2 : Int) ^ 63

instance (i : Int) : Decidable (inInt64 i) := by unfold inInt64; infer_instance

/-- Go `strconv.FormatInt(i, 10)` / `strconv.Itoa(i)`. -/
def Itoa (i : Int) : Str :=
  if i < 0 then Char.ofNat 45 :: natToStr i.natAbs else natToStr i.natAbs

/-- Go `strconv.ParseInt(s, 10, 64)` / `strconv.Atoi(s)`: optional sign, at
least one digit, only digits, and a value in the 64-bit range. -/
def Atoi (s : Str) : Except String Int :=
  let (neg, ds) :=
    match s with
    | c :: cs => if c = Char.ofNat 45 then (true, cs) else if c = Char.ofNat 43 then (false, cs) else (false, s)
    | [] => (false, [])
  if ds.isEmpty then .error "invalid syntax"
  else
    match parseDigits ds 0 with
    | none => .error "invalid syntax"
    | some n =>
      let v : Int := if neg then -(n : Int) else (n : Int)
      if inInt64 v then .ok v else .error "value out of range"

/-! ## Constants of package `junos`

`junos/constants.go` gives `idSeparator`, `emptyWord`, `setLineStart`, `defaultWord`
and `discardW`; the newer package `internal/junos` exports them as `IDSeparator`,
`EmptyW`, `SetLS`, `DefaultW` and `DiscardW`. -/

/-- Constant `emptyWord` / `EmptyW`: what the session returns for a hierarchy without configuration. -/
def EmptyW : Str := "empty".toList

/-- Constant `setLineStart` / `SetLS`. -/
def SetLS : Str := "set ".toList

/-- Constant `idSeparator` / `IDSeparator`. -/
def IDSeparator : Str := "_-_".toList

/-- Constant `defaultWord` / `DefaultW`. -/
def DefaultW : Str := "default".toList

/-- Constant `discardW` / `DiscardW`. -/
def DiscardW : Str := "discard".toList

/-- Modelled from the spec: constant `XMLStartTagConfigOut` of `internal/junos`,
whose declaration is not under src/; the value is the literal that
`junos/resource_policyoptions_community.go` tests at the same place of the same loop. -/
def XMLStartTagConfigOut : Str := "<configuration-output>".toList

/-- Modelled from the spec: constant `XMLEndTagConfigOut` of `internal/junos`,
whose declaration is not under src/; the value is the literal that
`junos/resource_policyoptions_community.go` tests at the same place of the same loop. -/
def XMLEndTagConfigOut : Str := "</configuration-output>".toList

/-- Modelled from the spec: constant `SetRoutingInstances` of `internal/junos`,
whose declaration is not under src/: the start of a set line under a routing instance. -/
def SetRoutingInstances : Str := "set routing-instances ".toList

/-- Line feed, the separator of the lines of a device reply. -/
def LF : Str := [Char.ofNat 10]

/-! ## Values of the Terraform plugin framework -/

/-- A `types.String` / `types.Bool` / `types.Int64` of terraform-plugin-framework:
null (the Go zero value), unknown, or a known value. -/
inductive TFValue (α : Type) where
  | null : TFValue α
  | unknown : TFValue α
  | known : α → TFValue α
  deriving DecidableEq, Repr

namespace TFValue

/-- Method `IsNull`. -/
def IsNull {α : Type} : TFValue α → Bool
  | null => true
  | _ => false

/-- Method `IsUnknown`. -/
def IsUnknown {α : Type} : TFValue α → Bool
  | unknown => true
  | _ => false

/-- Method `ValueString`: the known value, else the empty string. -/
def ValueString : TFValue Str → Str
  | known v => v
  | _ => []

/-- Method `ValueBool`: the known value, else `false`. -/
def ValueBool : TFValue Bool → Bool
  | known v => v
  | _ => false

/-- Method `ValueInt64`: the known value, else `0`. -/
def ValueInt64 : TFValue Int → Int
  | known v => v
  | _ => 0

end TFValue

/-- Modelled from the spec: the summaries of package `internal/tfdiag`, which is
not under src/, that the `ValidateConfig` methods use; only their names are known. -/
inductive ErrSummary where
  | ConflictConfigErrSummary
  | MissingConfigErrSummary
  deriving DecidableEq, Repr

/-- An error diagnostic added with `Diagnostics.AddAttributeError(path, summary, detail)`. -/
structure AttributeError where
  path : String
  summary : ErrSummary
  detail : String
  deriving DecidableEq, Repr

/-- Result of `junSess.Command`: the reply of the device or an error. -/
abbrev CommandResult := Except String Str

/-- Reply of the device to `show configuration <hierarchy> | display set relative`
when the lines `configSet`, all written under the hierarchy of `setPrefix`, are
its configuration there: each line with the hierarchy prefix replaced by `set `,
one per line. -/
def displaySetRelative (setPrefix : Str) (configSet : List Str) : Str :=
  Join (configSet.map (fun l => SetLS ++ l.drop setPrefix.length)) LF

/-- The `for _, item := range strings.Split(showConfig, "\n")` loop that every
`read` function of the provider runs over the lines of a reply: a line holding
the start tag is skipped, the end tag stops the loop, otherwise the `switch` of
the resource (`step`) runs on the line without its leading `set `, and an error
of the `switch` returns at once. The result is the state reached and the error. -/
def forEachConfigLine {σ : Type} (step : Str → σ → σ × Option String) :
    List Str → σ → σ × Option String
  | [], st => (st, none)
  | item :: rest, st =>
    if Contains item XMLStartTagConfigOut then forEachConfigLine step rest st
    else if Contains item XMLEndTagConfigOut then (st, none)
    else
      match step (TrimPrefix item SetLS) st with
      | (st1, some e) => (st1, some e)
      | (st1, none) => forEachConfigLine step rest st1

/-- A value that can sit in a line of a reply without changing how the reply is
cut into lines: no line feed and neither of the two tags. -/
def cleanValue (v : Str) : Bool :=
  !v.contains (Char.ofNat 10) && !Contains v XMLStartTagConfigOut &&
    !Contains v XMLEndTagConfigOut

/-- A boolean attribute that is null or true. -/
def TFValue.nullOrTrue : TFValue Bool → Bool
  | .null => true
  | .known true => true
  | _ => false

/-- A string attribute that is null, or known, non-empty and clean. -/
def TFValue.nullOrCleanText : TFValue Str → Bool
  | .null => true
  | .known v => !v.isEmpty && cleanValue v
  | .unknown => false

/-- An integer attribute that is null, or known and in the range of `int64`. -/
def TFValue.nullOrInt64 : TFValue Int → Bool
  | .null => true
  | .known v => decide (inInt64 v)
  | .unknown => false

/-! ## `internal/providerfwk/resource_firewall_policer.go` -/

/-- Modelled from the spec: function `ConvI64toa` of `internal/utils`, which is
not under src/: the decimal text of an `int64`. -/
def ConvI64toa (i : Int) : Str := Itoa i

/-- Modelled from the spec: function `ConvAtoi64Value` of `internal/tfdata`, which
is not under src/: parses a decimal `int64` into a known `types.Int64`; with the
error comes the null value. -/
def ConvAtoi64Value (s : Str) : Except String (TFValue Int) :=
  match Atoi s with
  | .ok v => .ok (.known v)
  | .error e => .error e

structure firewallPolicerBlockIfExceeding where
  BurstSizeLimit : TFValue Str := .null
  BandwidthPercent : TFValue Int := .null
  BandwidthLimit : TFValue Str := .null
  deriving DecidableEq, Repr

structure firewallPolicerBlockThen where
  Discard : TFValue Bool := .null
  OutOfProfile : TFValue Bool := .null
  ForwardingClass : TFValue Str := .null
  LossPriority : TFValue Str := .null
  deriving DecidableEq, Repr

structure firewallPolicerData where
  FilterSpecific : TFValue Bool := .null
  ID : TFValue Str := .null
  Name : TFValue Str := .null
  IfExceeding : Option firewallPolicerBlockIfExceeding := none
  Then : Option firewallPolicerBlockThen := none
  deriving DecidableEq, Repr

/-- Method `firewallPolicerBlockThen.isEmpty`. -/
def firewallPolicerBlockThen.isEmpty (block : firewallPolicerBlockThen) : Bool :=
  if !block.Discard.IsNull then false
  else if !block.OutOfProfile.IsNull then false
  else if !block.ForwardingClass.IsNull then false
  else if !block.LossPriority.IsNull then false
  else true

/-- Checks of `firewallPolicer.ValidateConfig` on the `if_exceeding` block. -/
def firewallPolicer.validateIfExceeding (config : firewallPolicerData) : List AttributeError :=
  match config.IfExceeding with
  | some ie =>
    if !ie.BandwidthLimit.IsNull && !ie.BandwidthPercent.IsNull then
      [⟨"if_exceeding.bandwidth_percent", .ConflictConfigErrSummary,
        "bandwidth_percent and bandwidth_limit cannot be configured together in if_exceeding block"⟩]
    else []
  | none => []

/-- Checks of `firewallPolicer.ValidateConfig` on the `then` block. -/
def firewallPolicer.validateThen (config : firewallPolicerData) : List AttributeError :=
  match config.Then with
  | some th =>
    (if th.isEmpty then
      [⟨"then.*", .MissingConfigErrSummary, "then block is empty"⟩] else []) ++
    (if !th.Discard.IsNull then
      (if !th.ForwardingClass.IsNull then
        [⟨"then.forwarding_class", .ConflictConfigErrSummary,
          "discard and forwarding_class cannot be configured together in then block"⟩] else []) ++
      (if !th.LossPriority.IsNull then
        [⟨"then.loss_priority", .ConflictConfigErrSummary,
          "discard and loss_priority cannot be configured together in then block"⟩] else []) ++
      (if !th.OutOfProfile.IsNull then
        [⟨"then.out_of_profile", .ConflictConfigErrSummary,
          "discard and out_of_profile cannot be configured together in then block"⟩] else [])
    else [])
  | none => [⟨"then", .MissingConfigErrSummary, "then block must be specified"⟩]

/-- Method `firewallPolicer.ValidateConfig` on a decoded config: the error
diagnostics it adds, in order. -/
def firewallPolicer.ValidateConfig (config : firewallPolicerData) : List AttributeError :=
  firewallPolicer.validateIfExceeding config ++ firewallPolicer.validateThen config

/-- Method `firewallPolicerData.fillID`. -/
def firewallPolicerData.fillID (rscData : firewallPolicerData) : firewallPolicerData :=
  { rscData with ID := .known rscData.Name.ValueString }

/-- Method `firewallPolicerData.nullID`. -/
def firewallPolicerData.nullID (rscData : firewallPolicerData) : Bool := rscData.ID.IsNull

/-- The `setPrefix` of `firewallPolicerData.set`. -/
def firewallPolicerData.setPrefix (rscData : firewallPolicerData) : Str :=
  "set firewall policer \"".toList ++ rscData.Name.ValueString ++ "\" ".toList

/-- The lines that `firewallPolicerData.set` appends for a non-nil `IfExceeding`. -/
def firewallPolicerBlockIfExceeding.configSet (setPrefix : Str)
    (block : firewallPolicerBlockIfExceeding) : List Str :=
  [setPrefix ++ "if-exceeding burst-size-limit ".toList ++ block.BurstSizeLimit.ValueString] ++
  (if !block.BandwidthPercent.IsNull then
    [setPrefix ++ "if-exceeding bandwidth-percent ".toList ++
      ConvI64toa block.BandwidthPercent.ValueInt64] else []) ++
  (if block.BandwidthLimit.ValueString ≠ [] then
    [setPrefix ++ "if-exceeding bandwidth-limit ".toList ++ block.BandwidthLimit.ValueString]
   else [])

/-- The lines that `firewallPolicerData.set` appends for a non-nil `Then`. -/
def firewallPolicerBlockThen.configSet (setPrefix : Str) (block : firewallPolicerBlockThen) :
    List Str :=
  (if block.Discard.ValueBool then [setPrefix ++ "then discard".toList] else []) ++
  (if block.ForwardingClass.ValueString ≠ [] then
    [setPrefix ++ "then forwarding-class ".toList ++ block.ForwardingClass.ValueString]
   else []) ++
  (if block.LossPriority.ValueString ≠ [] then
    [setPrefix ++ "then loss-priority ".toList ++ block.LossPriority.ValueString] else []) ++
  (if block.OutOfProfile.ValueBool then [setPrefix ++ "then out-of-profile".toList] else [])

/-- The `configSet` that `firewallPolicerData.set` builds once `setPrefix` is computed. -/
def firewallPolicerData.configSet (setPrefix : Str) (rscData : firewallPolicerData) : List Str :=
  (if rscData.FilterSpecific.ValueBool then [setPrefix ++ "filter-specific".toList] else []) ++
  (match rscData.IfExceeding with
   | some block => block.configSet setPrefix
   | none => []) ++
  (match rscData.Then with
   | some block => block.configSet setPrefix
   | none => [])

/-- Method `firewallPolicerData.set`: the `configSet` lines handed to `junSess.ConfigSet`. -/
def firewallPolicerData.set (rscData : firewallPolicerData) : List Str :=
  rscData.configSet rscData.setPrefix

/-- The `if-exceeding` case of the switch of `firewallPolicerData.read`; `itemTrim`
is the line after `if-exceeding `. -/
def firewallPolicerData.readIfExceeding (itemTrim : Str) (rscData : firewallPolicerData) :
    firewallPolicerData × Option String :=
  let ie : firewallPolicerBlockIfExceeding := rscData.IfExceeding.getD {}
  match CutPrefixInString itemTrim "burst-size-limit ".toList with
  | some v => ({ rscData with IfExceeding := some { ie with BurstSizeLimit := .known v } }, none)
  | none =>
    match CutPrefixInString itemTrim "bandwidth-percent ".toList with
    | some v =>
      match ConvAtoi64Value v with
      | .ok n => ({ rscData with IfExceeding := some { ie with BandwidthPercent := n } }, none)
      | .error e => ({ rscData with IfExceeding := some { ie with BandwidthPercent := .null } }, some e)
    | none =>
      match CutPrefixInString itemTrim "bandwidth-limit ".toList with
      | some v => ({ rscData with IfExceeding := some { ie with BandwidthLimit := .known v } }, none)
      | none => ({ rscData with IfExceeding := some ie }, none)

/-- The `then` case of the switch of `firewallPolicerData.read`; `itemTrim` is the
line after `then `. -/
def firewallPolicerData.readThen (itemTrim : Str) (rscData : firewallPolicerData) :
    firewallPolicerData :=
  let th : firewallPolicerBlockThen := rscData.Then.getD {}
  if itemTrim = "discard".toList then
    { rscData with Then := some { th with Discard := .known true } }
  else
    match CutPrefixInString itemTrim "forwarding-class ".toList with
    | some v => { rscData with Then := some { th with ForwardingClass := .known v } }
    | none =>
      match CutPrefixInString itemTrim "loss-priority ".toList with
      | some v => { rscData with Then := some { th with LossPriority := .known v } }
      | none =>
        if itemTrim = "out-of-profile".toList then
          { rscData with Then := some { th with OutOfProfile := .known true } }
        else { rscData with Then := some th }

/-- The switch of `firewallPolicerData.read` on one line, `itemTrim` being the
line without its leading `set `. The second component is the error returned, if any. -/
def firewallPolicerData.readItem (itemTrim : Str) (rscData : firewallPolicerData) :
    firewallPolicerData × Option String :=
  if itemTrim = "filter-specific".toList then
    ({ rscData with FilterSpecific := .known true }, none)
  else
    match CutPrefixInString itemTrim "if-exceeding ".toList with
    | some rest => firewallPolicerData.readIfExceeding rest rscData
    | none =>
      match CutPrefixInString itemTrim "then ".toList with
      | some rest => (firewallPolicerData.readThen rest rscData, none)
      | none => (rscData, none)

/-- Method `firewallPolicerData.read`, given what `junSess.Command` answered for
`show configuration firewall policer "<name>" | display set relative`: the data
after the call and the error returned, if any. -/
def firewallPolicerData.read (rscData : firewallPolicerData) (name : Str)
    (answer : CommandResult) : firewallPolicerData × Option String :=
  match answer with
  | .error e => (rscData, some e)
  | .ok showConfig =>
    if showConfig ≠ EmptyW then
      forEachConfigLine firewallPolicerData.readItem (Split showConfig LF)
        ({ rscData with Name := .known name }).fillID
    else (rscData, none)

/-! ## `internal/providerfwk/resource_bgp_neighbor.go` -/

/-- Struct `bgpNeighborData`, with its attributes in the order of the source.
The blocks bfd_liveness_detection, bgp_error_tolerance, bgp_multipath,
family_evpn, family_inet, family_inet6 and graceful_restart, whose types and
methods are not under src/, are left out: the data modelled has them nil or
empty. -/
structure bgpNeighborData where
  AcceptRemoteNexthop : TFValue Bool := .null
  AdvertiseExternal : TFValue Bool := .null
  AdvertiseExternalConditional : TFValue Bool := .null
  AdvertiseInactive : TFValue Bool := .null
  AdvertisePeerAS : TFValue Bool := .null
  NoAdvertisePeerAS : TFValue Bool := .null
  ASOverride : TFValue Bool := .null
  Damping : TFValue Bool := .null
  KeepAll : TFValue Bool := .null
  KeepNone : TFValue Bool := .null
  LocalASAlias : TFValue Bool := .null
  LocalASNoPrependGlobalAS : TFValue Bool := .null
  LocalASPrivate : TFValue Bool := .null
  LogUpdown : TFValue Bool := .null
  MetricOutIgp : TFValue Bool := .null
  MetricOutIgpDelayMedUpdate : TFValue Bool := .null
  MetricOutMinimumIgp : TFValue Bool := .null
  MtuDiscovery : TFValue Bool := .null
  Multihop : TFValue Bool := .null
  NoClientReflect : TFValue Bool := .null
  Passive : TFValue Bool := .null
  RemovePrivate : TFValue Bool := .null
  TCPAggressiveTransmission : TFValue Bool := .null
  AuthenticationAlgorithm : TFValue Str := .null
  AuthenticationKey : TFValue Str := .null
  AuthenticationKeyChain : TFValue Str := .null
  Cluster : TFValue Str := .null
  Description : TFValue Str := .null
  Export : List (TFValue Str) := []
  Group : TFValue Str := .null
  HoldTime : TFValue Int := .null
  ID : TFValue Str := .null
  Import : List (TFValue Str) := []
  IP : TFValue Str := .null
  LocalAddress : TFValue Str := .null
  LocalAS : TFValue Str := .null
  LocalASLoops : TFValue Int := .null
  LocalInterface : TFValue Str := .null
  LocalPreference : TFValue Int := .null
  MetricOut : TFValue Int := .null
  MetricOutIgpOffset : TFValue Int := .null
  MetricOutMinimumIgpOffset : TFValue Int := .null
  OutDelay : TFValue Int := .null
  PeerAS : TFValue Str := .null
  Preference : TFValue Int := .null
  RoutingInstance : TFValue Str := .null
  deriving DecidableEq, Repr

/-- Method `bgpNeighborData.fillID`. -/
def bgpNeighborData.fillID (rscData : bgpNeighborData) : bgpNeighborData :=
  if rscData.RoutingInstance.ValueString ≠ [] then
    { rscData with ID := .known (rscData.IP.ValueString ++ IDSeparator ++
        rscData.RoutingInstance.ValueString ++ IDSeparator ++ rscData.Group.ValueString) }
  else
    { rscData with ID := .known (rscData.IP.ValueString ++ IDSeparator ++
        DefaultW ++ IDSeparator ++ rscData.Group.ValueString) }

/-- Fields of `bgpNeighborConfig` read by the first checks of
`bgpNeighbor.ValidateConfig`, up to the checks on the metric attributes. -/
structure bgpNeighborConfig where
  AdvertisePeerAS : TFValue Bool := .null
  NoAdvertisePeerAS : TFValue Bool := .null
  KeepAll : TFValue Bool := .null
  KeepNone : TFValue Bool := .null
  AuthenticationAlgorithm : TFValue Str := .null
  AuthenticationKey : TFValue Str := .null
  AuthenticationKeyChain : TFValue Str := .null
  LocalASAlias : TFValue Bool := .null
  LocalASPrivate : TFValue Bool := .null
  LocalASNoPrependGlobalAS : TFValue Bool := .null
  MetricOut : TFValue Int := .null
  MetricOutIgp : TFValue Bool := .null
  MetricOutIgpDelayMedUpdate : TFValue Bool := .null
  MetricOutIgpOffset : TFValue Int := .null
  MetricOutMinimumIgp : TFValue Bool := .null
  MetricOutMinimumIgpOffset : TFValue Int := .null
  deriving DecidableEq, Repr

/-- An `AddAttributeError` with summary `tfdiag.ConflictConfigErrSummary`, added when `cond` holds. -/
def conflictIf (cond : Bool) (path detail : String) : List AttributeError :=
  if cond then [⟨path, .ConflictConfigErrSummary, detail⟩] else []

/-- The checks of `bgpNeighbor.ValidateConfig` that come before those on the
metric attributes (advertise_peer_as, keep_all, authentication_key, local_as_*). -/
def bgpNeighbor.validateConfigHead (config : bgpNeighborConfig) : List AttributeError :=
  conflictIf (!config.AdvertisePeerAS.IsNull && !config.NoAdvertisePeerAS.IsNull)
    "advertise_peer_as" "advertise_peer_as and no_advertise_peer_as can't be true in same time " ++
  conflictIf (!config.KeepAll.IsNull && !config.KeepNone.IsNull)
    "keep_all" "keep_all and keep_none can't be true in same time " ++
  (if !config.AuthenticationKey.IsNull then
    conflictIf (!config.AuthenticationAlgorithm.IsNull) "authentication_algorithm"
      "authentication_algorithm and authentication_key cannot be configured together" ++
    conflictIf (!config.AuthenticationKeyChain.IsNull) "authentication_key_chain"
      "authentication_key_chain and authentication_key cannot be configured together"
   else []) ++
  (if !config.LocalASAlias.IsNull then
    conflictIf (!config.LocalASPrivate.IsNull) "local_as_alias"
      "local_as_alias and local_as_private cannot be configured together" ++
    conflictIf (!config.LocalASNoPrependGlobalAS.IsNull) "local_as_alias"
      "local_as_alias and local_as_no_prepend_global_as cannot be configured together"
   else []) ++
  (if !config.LocalASPrivate.IsNull then
    conflictIf (!config.LocalASNoPrependGlobalAS.IsNull) "local_as_private"
      "local_as_private and local_as_no_prepend_global_as cannot be configured together"
   else [])

/-- The checks of `bgpNeighbor.ValidateConfig` on the metric attributes. -/
def bgpNeighbor.validateConfigMetric (config : bgpNeighborConfig) : List AttributeError :=
  (if !config.MetricOut.IsNull then
    conflictIf (!config.MetricOutIgp.IsNull) "metric_out_igp"
      "metric_out and metric_out_igp cannot be configured together" ++
    conflictIf (!config.MetricOutIgpDelayMedUpdate.IsNull) "metric_out_igp_delay_med_update"
      "metric_out and metric_out_igp_delay_med_update cannot be configured together" ++
    conflictIf (!config.MetricOutIgpOffset.IsNull) "metric_out_igp_offset"
      "metric_out and metric_out_igp_offset cannot be configured together" ++
    conflictIf (!config.MetricOutMinimumIgp.IsNull) "metric_out_minimum_igp"
      "metric_out and metric_out_minimum_igp cannot be configured together" ++
    conflictIf (!config.MetricOutMinimumIgpOffset.IsNull) "metric_out_minimum_igp_offset"
      "metric_out and metric_out_minimum_igp_offset cannot be configured together"
   else []) ++
  (if !config.MetricOutIgp.IsNull then
    conflictIf (!config.MetricOutMinimumIgp.IsNull) "metric_out_minimum_igp"
      "metric_out_igp and metric_out_minimum_igp cannot be configured together" ++
    conflictIf (!config.MetricOutMinimumIgpOffset.IsNull) "metric_out_minimum_igp_offset"
      "metric_out_igp and metric_out_minimum_igp_offset cannot be configured together"
   else []) ++
  (if !config.MetricOutIgpDelayMedUpdate.IsNull then
    conflictIf (!config.MetricOutMinimumIgp.IsNull) "metric_out_minimum_igp"
      "metric_out_igp_delay_med_update and metric_out_minimum_igp cannot be configured together" ++
    conflictIf (!config.MetricOutMinimumIgpOffset.IsNull) "metric_out_minimum_igp_offset"
      "metric_out_igp_delay_med_update and metric_out_minimum_igp_offset cannot be configured together"
   else []) ++
  (if !config.MetricOutIgpOffset.IsNull then
    conflictIf (!config.MetricOutMinimumIgp.IsNull) "metric_out_minimum_igp"
      "metric_out_igp_offset and metric_out_minimum_igp cannot be configured together" ++
    conflictIf (!config.MetricOutMinimumIgpOffset.IsNull) "metric_out_minimum_igp_offset"
      "metric_out_igp_offset and metric_out_minimum_igp_offset cannot be configured together"
   else [])

/-- Method `bgpNeighbor.ValidateConfig` on a decoded config, from its start to
the end of the checks on the metric attributes: the error diagnostics added, in
order. The checks that follow in the source are on the blocks
bfd_liveness_detection, bgp_error_tolerance, bgp_multipath, family_* and
graceful_restart and add errors under the paths of those blocks only. -/
def bgpNeighbor.ValidateConfig (config : bgpNeighborConfig) : List AttributeError :=
  bgpNeighbor.validateConfigHead config ++ bgpNeighbor.validateConfigMetric config

/-- Paths of the six metric attributes of `junos_bgp_neighbor`. -/
def metricAttributes : List String :=
  ["metric_out", "metric_out_igp", "metric_out_igp_delay_med_update", "metric_out_igp_offset",
   "metric_out_minimum_igp", "metric_out_minimum_igp_offset"]

/-! ## `internal/providerfwk/upgradestate_interface_physical.go` -/

/-- Modelled from the spec: struct `interfacePhysicalBlockESI`, declared outside
src/, with the attributes of block `esi` in the prior schema. -/
structure interfacePhysicalBlockESI where
  Mode : TFValue Str := .null
  AutoDeriveLacp : TFValue Bool := .null
  DFElectionType : TFValue Str := .null
  Identifier : TFValue Str := .null
  SourceBMAC : TFValue Str := .null
  deriving DecidableEq, Repr

/-- Modelled from the spec: struct `interfacePhysicalBlockEtherOpts`, declared
outside src/, with the attributes of blocks `ether_opts` and `gigether_opts` in
the prior schema. -/
structure interfacePhysicalBlockEtherOpts where
  Ae8023ad : TFValue Str := .null
  AutoNegotiation : TFValue Bool := .null
  NoAutoNegotiation : TFValue Bool := .null
  FlowControl : TFValue Bool := .null
  NoFlowControl : TFValue Bool := .null
  Loopback : TFValue Bool := .null
  NoLoopback : TFValue Bool := .null
  RedundantParent : TFValue Str := .null
  deriving DecidableEq, Repr

/-- Modelled from the spec: struct
`interfacePhysicalBlockParentEtherOptsBlockBFDLivenessDetection`, declared outside
src/, with the attributes of block `bfd_liveness_detection` in the prior schema. -/
structure interfacePhysicalBlockParentEtherOptsBlockBFDLivenessDetection where
  LocalAddress : TFValue Str := .null
  AuthenticationAlgorithm : TFValue Str := .null
  AuthenticationKeyChain : TFValue Str := .null
  AuthenticationLooseCheck : TFValue Bool := .null
  DetectionTimeThreshold : TFValue Int := .null
  HolddownInterval : TFValue Int := .null
  MinimumInterval : TFValue Int := .null
  MinimumReceiveInterval : TFValue Int := .null
  Multiplier : TFValue Int := .null
  Neighbor : TFValue Str := .null
  NoAdaptation : TFValue Bool := .null
  TransmitIntervalMinimumInterval : TFValue Int := .null
  TransmitIntervalThreshold : TFValue Int := .null
  Version : TFValue Str := .null
  deriving DecidableEq, Repr

/-- Modelled from the spec: struct `interfacePhysicalBlockParentEtherOptsBlockLacp`,
declared outside src/, with the attributes of block `lacp` in the prior schema. -/
structure interfacePhysicalBlockParentEtherOptsBlockLacp where
  Mode : TFValue Str := .null
  AdminKey : TFValue Int := .null
  Periodic : TFValue Str := .null
  SyncReset : TFValue Str := .null
  SystemID : TFValue Str := .null
  SystemPriority : TFValue Int := .null
  deriving DecidableEq, Repr

/-- The anonymous struct of `modelV0.ParentEtherOpts`. -/
structure modelV0ParentEtherOpts where
  FlowControl : TFValue Bool := .null
  NoFlowControl : TFValue Bool := .null
  Loopback : TFValue Bool := .null
  NoLoopback : TFValue Bool := .null
  SourceFiltering : TFValue Bool := .null
  LinkSpeed : TFValue Str := .null
  MinimumBandwidth : TFValue Str := .null
  MinimumLinks : TFValue Int := .null
  RedundancyGroup : TFValue Int := .null
  SourceAddressFilter : List (TFValue Str) := []
  BFDLivenessDetection : List interfacePhysicalBlockParentEtherOptsBlockBFDLivenessDetection := []
  Lacp : List interfacePhysicalBlockParentEtherOptsBlockLacp := []
  deriving DecidableEq, Repr

/-- Struct `modelV0` of `upgradeInterfacePhysicalV0toV1`. -/
structure modelV0 where
  NoDisableOnDestroy : TFValue Bool := .null
  Disable : TFValue Bool := .null
  Trunk : TFValue Bool := .null
  VlanTagging : TFValue Bool := .null
  ID : TFValue Str := .null
  Name : TFValue Str := .null
  Description : TFValue Str := .null
  Mtu : TFValue Int := .null
  VlanMembers : List (TFValue Str) := []
  VlanNative : TFValue Int := .null
  ESI : List interfacePhysicalBlockESI := []
  EtherOpts : List interfacePhysicalBlockEtherOpts := []
  GigetherOpts : List interfacePhysicalBlockEtherOpts := []
  ParentEtherOpts : List modelV0ParentEtherOpts := []
  deriving DecidableEq, Repr

/-- Modelled from the spec: struct `interfacePhysicalBlockParentEtherOpts`,
declared outside src/, with the fields that the upgrade writes. -/
structure interfacePhysicalBlockParentEtherOpts where
  FlowControl : TFValue Bool := .null
  NoFlowControl : TFValue Bool := .null
  Loopback : TFValue Bool := .null
  NoLoopback : TFValue Bool := .null
  LinkSpeed : TFValue Str := .null
  MinimumBandwidth : TFValue Str := .null
  MinimumLinks : TFValue Int := .null
  RedundancyGroup : TFValue Int := .null
  SourceAddressFilter : List (TFValue Str) := []
  SourceFiltering : TFValue Bool := .null
  BFDLivenessDetection : Option interfacePhysicalBlockParentEtherOptsBlockBFDLivenessDetection := none
  Lacp : Option interfacePhysicalBlockParentEtherOptsBlockLacp := none
  deriving DecidableEq, Repr

/-- Modelled from the spec: struct `interfacePhysicalData` (schema version 1),
declared outside src/, with the fields that the upgrade writes; a pointer to a
block is an `Option`. -/
structure interfacePhysicalData where
  ID : TFValue Str := .null
  Name : TFValue Str := .null
  NoDisableOnDestroy : TFValue Bool := .null
  Description : TFValue Str := .null
  Disable : TFValue Bool := .null
  Mtu : TFValue Int := .null
  Trunk : TFValue Bool := .null
  VlanMembers : List (TFValue Str) := []
  VlanNative : TFValue Int := .null
  VlanTagging : TFValue Bool := .null
  ESI : Option interfacePhysicalBlockESI := none
  EtherOpts : Option interfacePhysicalBlockEtherOpts := none
  GigetherOpts : Option interfacePhysicalBlockEtherOpts := none
  ParentEtherOpts : Option interfacePhysicalBlockParentEtherOpts := none
  deriving DecidableEq, Repr

/-- The Go idiom `if len(xs) > 0 { p = &xs[0] }` on a nil pointer `p`. -/
def addrOfFirst {α : Type} (xs : List α) : Option α :=
  if 0 < xs.length then xs.get? 0 else none

/-- Function `upgradeInterfacePhysicalV0toV1` on a decoded prior state: the
`dataV1` handed to `resp.State.Set`. -/
def upgradeInterfacePhysicalV0toV1 (dataV0 : modelV0) : interfacePhysicalData :=
  { ID := dataV0.ID
    Name := dataV0.Name
    NoDisableOnDestroy :=
      if !dataV0.NoDisableOnDestroy.IsNull && !dataV0.NoDisableOnDestroy.ValueBool then .null
      else dataV0.NoDisableOnDestroy
    Description := dataV0.Description
    Disable := dataV0.Disable
    Mtu := dataV0.Mtu
    Trunk := dataV0.Trunk
    VlanMembers := dataV0.VlanMembers
    VlanNative := dataV0.VlanNative
    VlanTagging := dataV0.VlanTagging
    ESI := addrOfFirst dataV0.ESI
    EtherOpts := addrOfFirst dataV0.EtherOpts
    GigetherOpts := addrOfFirst dataV0.GigetherOpts
    ParentEtherOpts :=
      match addrOfFirst dataV0.ParentEtherOpts with
      | some p =>
        some
          { FlowControl := p.FlowControl
            NoFlowControl := p.NoFlowControl
            Loopback := p.Loopback
            NoLoopback := p.NoLoopback
            LinkSpeed := p.LinkSpeed
            MinimumBandwidth := p.MinimumBandwidth
            MinimumLinks := p.MinimumLinks
            RedundancyGroup := p.RedundancyGroup
            SourceAddressFilter := p.SourceAddressFilter
            SourceFiltering := p.SourceFiltering
            BFDLivenessDetection := addrOfFirst p.BFDLivenessDetection
            Lacp := addrOfFirst p.Lacp }
      | none => none }

/-! ## `internal/providersdk/func_common.go` -/

/-- Type `formatName` (a Go `int`) with its three constants. -/
abbrev formatName := Nat

def formatDefault : formatName := 0

def formatAddressName : formatName := 1

def formatDefAndDots : formatName := 2

/-- Whether the rune lies in the closed range `lo..hi`. -/
def runeIn (r lo hi : Char) : Bool := decide (lo ≤ r) && decide (r ≤ hi)

/-- Closure `f1` of `validateNameObjectJunos`: the rune is not allowed by `formatDefault`. -/
def validateNameObjectJunos.f1 (r : Char) : Bool :=
  !runeIn r 'a' 'z' && !runeIn r 'A' 'Z' && !runeIn r '0' '9' && r != '-' && r != '_'

/-- Closure `f2` of `validateNameObjectJunos`: the rune is not allowed by `formatAddressName`. -/
def validateNameObjectJunos.f2 (r : Char) : Bool :=
  !runeIn r 'a' 'z' && !runeIn r 'A' 'Z' && !runeIn r '0' '9' &&
    r != '-' && r != '_' && r != ':' && r != '.' && r != '/'

/-- Closure `f3` of `validateNameObjectJunos`: the rune is not allowed by `formatDefAndDots`. -/
def validateNameObjectJunos.f3 (r : Char) : Bool :=
  !runeIn r 'a' 'z' && !runeIn r 'A' 'Z' && !runeIn r '0' '9' &&
    r != '-' && r != '_' && r != '.'

/-- Function `validateNameObjectJunos(exclude, length, format)` applied to the
value `v`: the summaries of the error diagnostics, in order.
`strings.Count(v, "")` is the number of runes plus one,
`strings.IndexFunc(v, f) != -1` says that some rune satisfies `f`, and `%q`
prints the excluded names between double quotes. -/
def validateNameObjectJunos (exclude : List Str) (length : Nat) (format : formatName)
    (v : Str) : List Str :=
  (if v.length + 1 > length then [v ++ " invalid name (too long)".toList] else []) ++
  (if format = formatDefault then
    (if v.any validateNameObjectJunos.f1 then [v ++ " invalid name (bad character)".toList] else [])
   else if format = formatAddressName then
    (if v.any validateNameObjectJunos.f2 then [v ++ " invalid name (bad character)".toList] else [])
   else if format = formatDefAndDots then
    (if v.any validateNameObjectJunos.f3 then [v ++ " invalid name (bad character)".toList] else [])
   else
    ["internal error: validateNameObjectJunos function called with a bad argument".toList]) ++
  (if v ∈ exclude then
    ["expected value to not be one of [".toList ++
      Join (exclude.map (fun e => "\"".toList ++ e ++ "\"".toList)) " ".toList ++
      "], got ".toList ++ v] else [])

/-! ## `internal/providersdk/resource_generate_route.go` -/

/-- The attributes of resource `junos_generate_route`, as `d.Get` returns them
(an attribute that is not set has the zero value of its type). -/
structure generateRouteResourceData where
  destination : Str := []
  routing_instance : Str := DefaultW
  active : Bool := false
  as_path_aggregator_address : Str := []
  as_path_aggregator_as_number : Str := []
  as_path_atomic_aggregate : Bool := false
  as_path_origin : Str := []
  as_path_path : Str := []
  brief : Bool := false
  community : List Str := []
  discard : Bool := false
  full : Bool := false
  metric : Int := 0
  next_table : Str := []
  passive : Bool := false
  policy : List Str := []
  preference : Int := 0
  deriving DecidableEq, Repr

/-- Struct `generateRouteOptions`. -/
structure generateRouteOptions where
  active : Bool := false
  asPathAtomicAggregate : Bool := false
  brief : Bool := false
  discard : Bool := false
  full : Bool := false
  passive : Bool := false
  metric : Int := 0
  preference : Int := 0
  asPathAggregatorAddress : Str := []
  asPathAggregatorAsNumber : Str := []
  asPathOrigin : Str := []
  asPathPath : Str := []
  destination : Str := []
  nextTable : Str := []
  routingInstance : Str := []
  community : List Str := []
  policy : List Str := []
  deriving DecidableEq, Repr

/-- The identifier that `resourceGenerateRouteCreate` gives to `d.SetId`. -/
def generateRouteID (d : generateRouteResourceData) : Str :=
  d.destination ++ IDSeparator ++ d.routing_instance

/-- The two fields `idSplit[0]`, `idSplit[1]` that `resourceGenerateRouteImport`
reads from the identifier, or the error for fewer than two fields. -/
def generateRouteImportFields (id : Str) : Except String (Str × Str) :=
  match Split id IDSeparator with
  | f0 :: f1 :: _ => .ok (f0, f1)
  | _ => .error "missing element(s) in id with separator _-_"

/-- The `setPrefix` of `setGenerateRoute`. -/
def generateRouteSetPrefix (d : generateRouteResourceData) : Str :=
  if d.routing_instance = DefaultW then
    if !Contains d.destination ":".toList then
      "set routing-options generate route ".toList ++ d.destination ++ " ".toList
    else
      "set routing-options rib inet6.0 generate route ".toList ++ d.destination ++ " ".toList
  else
    if !Contains d.destination ":".toList then
      SetRoutingInstances ++ d.routing_instance ++
        " routing-options generate route ".toList ++ d.destination ++ " ".toList
    else
      SetRoutingInstances ++ d.routing_instance ++
        " routing-options rib ".toList ++ d.routing_instance ++ ".inet6.0 ".toList ++
        "generate route ".toList ++ d.destination ++ " ".toList

/-- The `configSet` that `setGenerateRoute` builds once `setPrefix` is computed. -/
def generateRouteConfigSet (setPrefix : Str) (d : generateRouteResourceData) : List Str :=
  (if d.active then [setPrefix ++ "active".toList] else []) ++
  (if d.as_path_aggregator_address ≠ [] ∧ d.as_path_aggregator_as_number ≠ [] then
    [setPrefix ++ "as-path aggregator ".toList ++ d.as_path_aggregator_as_number ++ " ".toList ++
      d.as_path_aggregator_address] else []) ++
  (if d.as_path_atomic_aggregate then [setPrefix ++ "as-path atomic-aggregate".toList] else []) ++
  (if d.as_path_origin ≠ [] then [setPrefix ++ "as-path origin ".toList ++ d.as_path_origin]
   else []) ++
  (if d.as_path_path ≠ [] then
    [setPrefix ++ "as-path path \"".toList ++ d.as_path_path ++ "\"".toList] else []) ++
  (if d.brief then [setPrefix ++ "brief".toList] else []) ++
  d.community.map (fun v => setPrefix ++ "community ".toList ++ v) ++
  (if d.discard then [setPrefix ++ "discard".toList] else []) ++
  (if d.full then [setPrefix ++ "full".toList] else []) ++
  (if d.metric > 0 then [setPrefix ++ "metric ".toList ++ Itoa d.metric] else []) ++
  (if d.next_table ≠ [] then [setPrefix ++ "next-table ".toList ++ d.next_table] else []) ++
  (if d.passive then [setPrefix ++ "passive".toList] else []) ++
  d.policy.map (fun v => setPrefix ++ "policy ".toList ++ v) ++
  (if d.preference > 0 then [setPrefix ++ "preference ".toList ++ Itoa d.preference] else [])

/-- Function `setGenerateRoute`: the `configSet` lines handed to `junSess.ConfigSet`. -/
def setGenerateRoute (d : generateRouteResourceData) : List Str :=
  generateRouteConfigSet (generateRouteSetPrefix d) d

/-- The switch of `readGenerateRoute` on one line, `itemTrim` being the line
without its leading `set `. The second component is the error returned, if any. -/
def readGenerateRouteItem (itemTrim : Str) (confRead : generateRouteOptions) :
    generateRouteOptions × Option String :=
  if itemTrim = "active".toList then ({ confRead with active := true }, none)
  else match CutPrefixInString itemTrim "as-path aggregator ".toList with
  | some v =>
    match Split v " ".toList with
    | f0 :: f1 :: _ =>
      ({ confRead with asPathAggregatorAsNumber := f0, asPathAggregatorAddress := f1 }, none)
    | _ => (confRead, some "can't read values for as-path aggregator (not enough fields)")
  | none =>
  if itemTrim = "as-path atomic-aggregate".toList then
    ({ confRead with asPathAtomicAggregate := true }, none)
  else match CutPrefixInString itemTrim "as-path origin ".toList with
  | some v => ({ confRead with asPathOrigin := v }, none)
  | none =>
  match CutPrefixInString itemTrim "as-path path ".toList with
  | some v => ({ confRead with asPathPath := Trim v (Char.ofNat 34) }, none)
  | none =>
  if itemTrim = "brief".toList then ({ confRead with brief := true }, none)
  else match CutPrefixInString itemTrim "community ".toList with
  | some v => ({ confRead with community := confRead.community ++ [v] }, none)
  | none =>
  if itemTrim = DiscardW then ({ confRead with discard := true }, none)
  else if itemTrim = "full".toList then ({ confRead with full := true }, none)
  else match CutPrefixInString itemTrim "metric ".toList with
  | some v =>
    match Atoi v with
    | .ok n => ({ confRead with metric := n }, none)
    | .error e => ({ confRead with metric := 0 }, some e)
  | none =>
  match CutPrefixInString itemTrim "next-table ".toList with
  | some v => ({ confRead with nextTable := v }, none)
  | none =>
  if itemTrim = "passive".toList then ({ confRead with passive := true }, none)
  else match CutPrefixInString itemTrim "policy ".toList with
  | some v => ({ confRead with policy := confRead.policy ++ [v] }, none)
  | none =>
  match CutPrefixInString itemTrim "preference ".toList with
  | some v =>
    match Atoi v with
    | .ok n => ({ confRead with preference := n }, none)
    | .error e => ({ confRead with preference := 0 }, some e)
  | none => (confRead, none)

/-- Function `readGenerateRoute`, given what `junSess.Command` answered for the
`show configuration ... generate route <destination> | display set relative`
of the routing instance: the options read and the error returned, if any. -/
def readGenerateRoute (destination routingInstance : Str) (answer : CommandResult) :
    generateRouteOptions × Option String :=
  match answer with
  | .error e => ({}, some e)
  | .ok showConfig =>
    if showConfig ≠ EmptyW then
      forEachConfigLine readGenerateRouteItem (Split showConfig LF)
        { destination := destination, routingInstance := routingInstance }
    else ({}, none)

/-- Function `fillGenerateRouteData`: the attributes written to the resource data. -/
def fillGenerateRouteData (o : generateRouteOptions) : generateRouteResourceData :=
  { destination := o.destination
    routing_instance := o.routingInstance
    active := o.active
    as_path_aggregator_address := o.asPathAggregatorAddress
    as_path_aggregator_as_number := o.asPathAggregatorAsNumber
    as_path_atomic_aggregate := o.asPathAtomicAggregate
    as_path_origin := o.asPathOrigin
    as_path_path := o.asPathPath
    brief := o.brief
    community := o.community
    discard := o.discard
    full := o.full
    metric := o.metric
    next_table := o.nextTable
    passive := o.passive
    policy := o.policy
    preference := o.preference }

/-! ## `junos/resource_policyoptions_community.go` -/

/-- The attributes of resource `junos_policyoptions_community`, as `d.Get` returns them. -/
structure policyoptionsCommunityResourceData where
  name : Str := []
  members : List Str := []
  invert_match : Bool := false
  deriving DecidableEq, Repr

/-- Struct `communityOptions`. -/
structure communityOptions where
  invertMatch : Bool := false
  name : Str := []
  members : List Str := []
  deriving DecidableEq, Repr

/-- The `setPrefix` of `setPolicyoptionsCommunity`. -/
def policyoptionsCommunitySetPrefix (d : policyoptionsCommunityResourceData) : Str :=
  "set policy-options community ".toList ++ d.name ++ " ".toList

/-- The `configSet` that `setPolicyoptionsCommunity` builds once `setPrefix` is computed. -/
def policyoptionsCommunityConfigSet (setPrefix : Str) (d : policyoptionsCommunityResourceData) :
    List Str :=
  d.members.map (fun v => setPrefix ++ "members ".toList ++ v) ++
  (if d.invert_match then [setPrefix ++ "invert-match".toList] else [])

/-- Function `setPolicyoptionsCommunity`: the `configSet` lines handed to `sess.configSet`. -/
def setPolicyoptionsCommunity (d : policyoptionsCommunityResourceData) : List Str :=
  policyoptionsCommunityConfigSet (policyoptionsCommunitySetPrefix d) d

/-- The switch of `readPolicyoptionsCommunity` on one line, `itemTrim` being the
line without its leading `set `; it returns no error. -/
def readPolicyoptionsCommunityItem (itemTrim : Str) (confRead : communityOptions) :
    communityOptions × Option String :=
  if HasPrefix itemTrim "members ".toList then
    ({ confRead with members := confRead.members ++ [TrimPrefix itemTrim "members ".toList] },
      none)
  else if HasPrefix itemTrim "invert-match".toList then
    ({ confRead with invertMatch := true }, none)
  else (confRead, none)

/-- Function `readPolicyoptionsCommunity`, given what `sess.command` answered for
`show configuration policy-options community <name> | display set relative`. -/
def readPolicyoptionsCommunity (community : Str) (answer : CommandResult) :
    Except String communityOptions :=
  match answer with
  | .error e => .error e
  | .ok communityConfig =>
    if communityConfig ≠ EmptyW then
      .ok (forEachConfigLine readPolicyoptionsCommunityItem (Split communityConfig LF)
        { name := community }).1
    else .ok { name := [] }

/-- Function `fillPolicyoptionsCommunityData`: the attributes written to the resource data. -/
def fillPolicyoptionsCommunityData (o : communityOptions) : policyoptionsCommunityResourceData :=
  { name := o.name, members := o.members, invert_match := o.invertMatch }

/-! ## `internal/providerfwk/resource_security_ipsec_vpn.go` -/

/-- Struct `securityIpsecVpnVpnMonitor`. -/
structure securityIpsecVpnVpnMonitor where
  Optimized : TFValue Bool := .null
  SourceInterfaceAuto : TFValue Bool := .null
  DestinationIP : TFValue Str := .null
  SourceInterface : TFValue Str := .null
  deriving DecidableEq, Repr

/-- Struct `securityIpsecVpnData`: its scalar attributes and the block
`vpn_monitor` (a Go pointer, `none` for nil). The blocks ike, manual,
multi_sa_forwarding_class, traffic_selector and udp_encapsulate, which `Create`
and `Update` do not touch before calling `set`, are left out. -/
structure securityIpsecVpnData where
  CopyOuterDscp : TFValue Bool := .null
  ID : TFValue Str := .null
  Name : TFValue Str := .null
  BindInterface : TFValue Str := .null
  DfBit : TFValue Str := .null
  EstablishTunnels : TFValue Str := .null
  VpnMonitor : Option securityIpsecVpnVpnMonitor := none
  deriving DecidableEq, Repr

/-- Method `securityIpsecVpn.Create`, from the decoded plan to the call of
`plan.set` (the same in fake and normal mode): the plan that `set` receives, or
the summary of the error diagnostic added before returning. -/
def securityIpsecVpn.Create (plan : securityIpsecVpnData) : Except String securityIpsecVpnData :=
  if plan.Name.ValueString = [] then .error "Empty Name"
  else
    match plan.VpnMonitor with
    | some vpnMonitor =>
      if vpnMonitor.SourceInterface.IsUnknown then
        if vpnMonitor.SourceInterfaceAuto.ValueBool then
          if plan.BindInterface.IsNull then
            .ok { plan with VpnMonitor := some { vpnMonitor with SourceInterface := .null } }
          else
            .ok { plan with VpnMonitor := some { vpnMonitor with
                    SourceInterface := .known plan.BindInterface.ValueString } }
        else
          .ok { plan with VpnMonitor := some { vpnMonitor with SourceInterface := .null } }
      else .ok plan
    | none => .ok plan

/-- Method `securityIpsecVpn.Update`, from the decoded plan to the call of
`plan.set`: the plan that `set` receives. -/
def securityIpsecVpn.Update (plan : securityIpsecVpnData) : securityIpsecVpnData :=
  match plan.VpnMonitor with
  | some vpnMonitor =>
    if vpnMonitor.SourceInterface.IsUnknown then
      if vpnMonitor.SourceInterfaceAuto.ValueBool then
        if plan.BindInterface.IsNull then
          { plan with VpnMonitor := some { vpnMonitor with SourceInterface := .null } }
        else
          { plan with VpnMonitor := some { vpnMonitor with
              SourceInterface := .known plan.BindInterface.ValueString } }
      else
        { plan with VpnMonitor := some { vpnMonitor with SourceInterface := .null } }
    else plan
  | none => plan

/-- What the description of `source_interface_auto` asks of the plan handed to
`set`, for a planned block `vpn_monitor`: an unknown `source_interface` has
become the value of `bind_interface` when `source_interface_auto` is true and
`bind_interface` is not null, and null otherwise; a `source_interface` that is
not unknown is kept; nothing else differs from the plan. -/
def sourceInterfaceComputed (plan : securityIpsecVpnData) (vpnMonitor : securityIpsecVpnVpnMonitor)
    (data : securityIpsecVpnData) : Prop :=
  ∃ sourceInterface : TFValue Str,
    data = { plan with VpnMonitor := some { vpnMonitor with SourceInterface := sourceInterface } } ∧
    sourceInterface.IsUnknown = false ∧
    (vpnMonitor.SourceInterface.IsUnknown = false → sourceInterface = vpnMonitor.SourceInterface) ∧
    (vpnMonitor.SourceInterface.IsUnknown = true →
      sourceInterface =
        if vpnMonitor.SourceInterfaceAuto = .known true ∧ plan.BindInterface.IsNull = false then
          .known plan.BindInterface.ValueString
        else .null)

/-! ## `internal/providerfwk/data_source_interfaces_physical_present.go` -/

/-- Go `unicode.IsSpace`: the white space characters of Unicode. -/
def isSpace (r : Char) : Bool :=
  r.toNat ∈ [0x09, 0x0A, 0x0B, 0x0C, 0x0D, 0x20, 0x85, 0xA0, 0x1680, 0x2028, 0x2029, 0x202F,
    0x205F, 0x3000] || (0x2000 ≤ r.toNat && r.toNat ≤ 0x200A)

/-- Go `strings.TrimSpace(s)`. -/
def TrimSpace (s : Str) : Str :=
  ((s.dropWhile isSpace).reverse.dropWhile isSpace).reverse

/-- Go `regexp.MatchString(pattern, s)`, over the function `Compile` of the
package `regexp` (a parameter): the pattern is compiled, a pattern that does
not compile is the error, and the compiled expression is tried on `s`. -/
def MatchString (Compile : Str → Except String (Str → Bool)) (pattern s : Str) :
    Except String Bool :=
  match Compile pattern with
  | .error e => .error e
  | .ok re => .ok (re s)

/-- Modelled from the spec: one element of `InterfaceInfo.PhysicalInterface` in
struct `GetPhysicalInterfaceTerseReply` of `internal/junos`, whose declaration is
not under src/, with the three fields that `read` uses. -/
structure PhysicalInterface where
  Name : Str := []
  AdminStatus : Str := []
  OperStatus : Str := []
  deriving DecidableEq, Repr

/-- Struct `interfacesPhysicalPresentDataSourceConfig`, without the two computed lists. -/
structure interfacesPhysicalPresentDataSourceConfig where
  ID : TFValue Str := .null
  MatchName : TFValue Str := .null
  MatchAdminUp : TFValue Bool := .null
  MatchOperUp : TFValue Bool := .null
  deriving DecidableEq, Repr

/-- Struct `interfacesPhysicalPresentDataSourceBlockInterfaceStatuses`. -/
structure interfacesPhysicalPresentDataSourceBlockInterfaceStatuses where
  Name : TFValue Str := .null
  AdminStatus : TFValue Str := .null
  OperStatus : TFValue Str := .null
  deriving DecidableEq, Repr

/-- Struct `interfacesPhysicalPresentDataSourceData`. -/
structure interfacesPhysicalPresentDataSourceData where
  ID : TFValue Str := .null
  MatchName : TFValue Str := .null
  MatchAdminUp : TFValue Bool := .null
  MatchOperUp : TFValue Bool := .null
  InterfaceNames : List (TFValue Str) := []
  InterfaceStatuses : List interfacesPhysicalPresentDataSourceBlockInterfaceStatuses := []
  deriving DecidableEq, Repr

/-- The `for _, iFace := range iface.InterfaceInfo.PhysicalInterface` loop of
`interfacesPhysicalPresentDataSourceData.read`: the data after the loop, or the
error returned from inside it. -/
def interfacesPhysicalPresentDataSourceData.readLoop
    (Compile : Str → Except String (Str → Bool))
    (config : interfacesPhysicalPresentDataSourceConfig) :
    List PhysicalInterface → interfacesPhysicalPresentDataSourceData →
      Except String interfacesPhysicalPresentDataSourceData
  | [], dscData => .ok dscData
  | iFace :: rest, dscData =>
    let add : interfacesPhysicalPresentDataSourceData :=
      { dscData with
        InterfaceNames := dscData.InterfaceNames ++ [.known (TrimSpace iFace.Name)]
        InterfaceStatuses := dscData.InterfaceStatuses ++
          [{ Name := .known (TrimSpace iFace.Name)
             AdminStatus := .known (TrimSpace iFace.AdminStatus)
             OperStatus := .known (TrimSpace iFace.OperStatus) }] }
    let afterName : Except String interfacesPhysicalPresentDataSourceData :=
      if config.MatchAdminUp.ValueBool && TrimSpace iFace.AdminStatus ≠ "up".toList then
        readLoop Compile config rest dscData
      else if config.MatchOperUp.ValueBool && TrimSpace iFace.OperStatus ≠ "up".toList then
        readLoop Compile config rest dscData
      else readLoop Compile config rest add
    if config.MatchName.ValueString ≠ [] then
      match MatchString Compile config.MatchName.ValueString (TrimSpace iFace.Name) with
      | .error e => .error ("matching with regexp: " ++ e)
      | .ok matched => if !matched then readLoop Compile config rest dscData else afterName
    else afterName

/-- Method `interfacesPhysicalPresentDataSourceData.read` on a zero `dscData`,
given what `junSess.CommandXML` followed by `xml.Unmarshal` produced: the list
`iface.InterfaceInfo.PhysicalInterface`, or the error of one of the two. -/
def interfacesPhysicalPresentDataSourceData.read
    (Compile : Str → Except String (Str → Bool))
    (config : interfacesPhysicalPresentDataSourceConfig)
    (reply : Except String (List PhysicalInterface)) :
    Except String interfacesPhysicalPresentDataSourceData :=
  match reply with
  | .error e => .error e
  | .ok physicalInterface =>
    interfacesPhysicalPresentDataSourceData.readLoop Compile config physicalInterface {}

/-- The filters of the data source on one interface of the reply: the trimmed
name matches `match_name` when it is not empty, the trimmed admin status is `up`
when `match_admin_up` is true, the trimmed oper status is `up` when
`match_oper_up` is true. -/
def passesFilters (Compile : Str → Except String (Str → Bool))
    (config : interfacesPhysicalPresentDataSourceConfig) (iFace : PhysicalInterface) : Bool :=
  (config.MatchName.ValueString = [] ||
    MatchString Compile config.MatchName.ValueString (TrimSpace iFace.Name) = .ok true) &&
  (!config.MatchAdminUp.ValueBool || TrimSpace iFace.AdminStatus = "up".toList) &&
  (!config.MatchOperUp.ValueBool || TrimSpace iFace.OperStatus = "up".toList)

/-- The triple (trimmed name, trimmed admin status, trimmed oper status) of an interface. -/
def trimmedStatuses (iFace : PhysicalInterface) :
    interfacesPhysicalPresentDataSourceBlockInterfaceStatuses :=
  { Name := .known (TrimSpace iFace.Name)
    AdminStatus := .known (TrimSpace iFace.AdminStatus)
    OperStatus := .known (TrimSpace iFace.OperStatus) }

/-! ## `internal/junos/client_session.go` and the calls made on a session

The functions below return, next to their result, the calls they make on the
device session and on the global mutex, in order, as a list of `Event`. -/

/-- Modelled from the spec: struct `Session` of `internal/junos`, whose
declaration is not under src/, with the one field that `StartNewSession` reads,
`SystemInformation.HardwareModel`. -/
structure Session where
  HardwareModel : Str := []
  deriving DecidableEq, Repr

/-- A call on the device session or on the global mutex. `netconfNewSession`
stands for a NETCONF connect that succeeded (a session was established),
`Close` for `junSess.Close()` / `sess.closeSession(jnprSess)`, `Command` for
`junSess.Command(...)` / `sess.command(...)`. -/
inductive Event where
  | netconfNewSession
  | Close
  | MutexLock
  | MutexUnlock
  | Command
  | ConfigLock
  | checkRoutingInstanceExists
  | ConfigSet (configSet : List Str)
  | CommitConf
  | ConfigClear
  deriving DecidableEq, Repr

/-- Severity of a `diag.Diagnostic`. -/
inductive Severity where
  | Error
  | Warning
  deriving DecidableEq, Repr

/-- A `diag.Diagnostic` of the plugin SDK: severity and summary. -/
structure Diagnostic where
  Severity : Severity
  Summary : String
  deriving DecidableEq, Repr

/-- Function `diag.FromErr(err)` of the plugin SDK: one error diagnostic. -/
def FromErr (err : String) : List Diagnostic := [{ Severity := .Error, Summary := err }]

/-- Function `appendDiagWarns` of `internal/providersdk/func_common.go`. -/
def appendDiagWarns (diags : List Diagnostic) (warns : List String) : List Diagnostic :=
  diags ++ warns.map (fun w => { Severity := .Warning, Summary := w })

/-- The events `evs` followed by what `r` does. -/
def emit (evs : List Event) (r : List Event × List Diagnostic) : List Event × List Diagnostic :=
  (evs ++ r.1, r.2)

/-- Method `Client.StartNewSession`, given what `netconfNewSession` returned:
the session pointer returned (`none` for nil) and the error returned. -/
def StartNewSession (netconfNewSession : Except String Session) : Option Session × Option String :=
  match netconfNewSession with
  | .error err => (none, some err)
  | .ok sess =>
    if sess.HardwareModel = [] then
      (some sess, some "can't read model of device with <get-system-information/> netconf command")
    else (some sess, none)

/-- The events of `Client.StartNewSession`: a session is established when
`netconfNewSession` returns no error, and `StartNewSession` closes nothing. -/
def StartNewSession.events (netconfNewSession : Except String Session) : List Event :=
  match netconfNewSession with
  | .error _ => []
  | .ok _ => [.netconfNewSession]

/-! ## `internal/providersdk/resource_generate_route.go`: create and read -/

/-- Function `checkGenerateRouteExists`, given what its `junSess.Command`
answered (each of its four branches sends one command). -/
def checkGenerateRouteExists (answer : CommandResult) : Except String Bool :=
  match answer with
  | .error err => .error err
  | .ok showConfig => if showConfig = EmptyW then .ok false else .ok true

/-- Function `resourceGenerateRouteReadWJunSess`, given what the command of
`readGenerateRoute` answered: the events and the diagnostics returned (the
writes to `d` are left out). -/
def resourceGenerateRouteReadWJunSess (d : generateRouteResourceData) (answer : CommandResult) :
    List Event × List Diagnostic :=
  emit [.MutexLock] <|
  emit [.Command] <|
  match readGenerateRoute d.destination d.routing_instance answer with
  | (_, err) =>
    emit [.MutexUnlock] <|
    match err with
    | some err => ([], FromErr err)
    | none => ([], [])

/-- Function `resourceGenerateRouteRead`, given what `netconfNewSession` returned
and what the command of `readGenerateRoute` answers. The deferred
`junSess.Close()` runs when the function returns, once the `defer` statement
has been reached. -/
def resourceGenerateRouteRead (d : generateRouteResourceData)
    (netconfNewSession : Except String Session) (answer : CommandResult) :
    List Event × List Diagnostic :=
  emit (StartNewSession.events netconfNewSession) <|
  match StartNewSession netconfNewSession with
  | (_, some err) => ([], FromErr err)
  | (_, none) =>
    let r := resourceGenerateRouteReadWJunSess d answer
    (r.1 ++ [.Close], r.2)

/-- What the device and the functions that are not under src/ answer to the
calls of `resourceGenerateRouteCreate`, in the order of the calls. -/
structure generateRouteCreateAnswers where
  netconfNewSession : Except String Session
  ConfigLock : Option String := none
  checkRoutingInstanceExists : Except String Bool := .ok true
  checkGenerateRouteExists : CommandResult := .ok EmptyW
  ConfigSet : Option String := none
  CommitConf : List String × Option String := ([], none)
  ConfigClear : List String := []
  checkGenerateRouteExistsAfterCommit : CommandResult := .ok []
  readGenerateRoute : CommandResult := .ok []

/-- Function `resourceGenerateRouteCreate` when `clt.FakeCreateSetFile()` is
false: the events and the diagnostics returned (the writes to `d` are left
out). `checkRoutingInstanceExists` is not under src/ and is the event of its
name; `setGenerateRoute` ends with `junSess.ConfigSet(configSet)`. -/
def resourceGenerateRouteCreate (d : generateRouteResourceData) (w : generateRouteCreateAnswers) :
    List Event × List Diagnostic :=
  emit (StartNewSession.events w.netconfNewSession) <|
  match StartNewSession w.netconfNewSession with
  | (_, some err) => ([], FromErr err)
  | (_, none) =>
    let body : List Event × List Diagnostic :=
      emit [.ConfigLock] <|
      match w.ConfigLock with
      | some err => ([], FromErr err)
      | none =>
        let diagWarns : List Diagnostic := []
        let afterInstance : List Event × List Diagnostic :=
          emit [.Command] <|
          match checkGenerateRouteExists w.checkGenerateRouteExists with
          | .error err =>
            emit [.ConfigClear] ([], appendDiagWarns diagWarns w.ConfigClear ++ FromErr err)
          | .ok generateRouteExists =>
            if generateRouteExists then
              emit [.ConfigClear] ([], appendDiagWarns diagWarns w.ConfigClear ++
                FromErr ("generate route " ++ String.mk d.destination ++
                  " already exists on table " ++ String.mk d.routing_instance))
            else
              emit [.ConfigSet (setGenerateRoute d)] <|
              match w.ConfigSet with
              | some err =>
                emit [.ConfigClear] ([], appendDiagWarns diagWarns w.ConfigClear ++ FromErr err)
              | none =>
                emit [.CommitConf] <|
                let diagWarns := appendDiagWarns diagWarns w.CommitConf.1
                match w.CommitConf.2 with
                | some err =>
                  emit [.ConfigClear] ([], appendDiagWarns diagWarns w.ConfigClear ++ FromErr err)
                | none =>
                  emit [.Command] <|
                  match checkGenerateRouteExists w.checkGenerateRouteExistsAfterCommit with
                  | .error err => ([], diagWarns ++ FromErr err)
                  | .ok generateRouteExists =>
                    if generateRouteExists then
                      let r := resourceGenerateRouteReadWJunSess d w.readGenerateRoute
                      (r.1, diagWarns ++ r.2)
                    else
                      ([], diagWarns ++ FromErr ("generate route " ++ String.mk d.destination ++
                        " not exists in routing_instance " ++ String.mk d.routing_instance ++
                        " after commit => check your config"))
        if d.routing_instance ≠ DefaultW then
          emit [.checkRoutingInstanceExists] <|
          match w.checkRoutingInstanceExists with
          | .error err =>
            emit [.ConfigClear] ([], appendDiagWarns diagWarns w.ConfigClear ++ FromErr err)
          | .ok instanceExists =>
            if !instanceExists then
              emit [.ConfigClear] ([], appendDiagWarns diagWarns w.ConfigClear ++
                FromErr ("routing instance " ++ String.mk d.routing_instance ++ " doesn't exist"))
            else afterInstance
        else afterInstance
    (body.1 ++ [.Close], body.2)

/-- A step of `resourceGenerateRouteCreate` before the commit fails: the
routing-instance check returns an error or finds no instance, the existence
check returns an error or finds the route, or the set returns an error. -/
def failsBeforeCommit (d : generateRouteResourceData) (w : generateRouteCreateAnswers) : Bool :=
  (d.routing_instance ≠ DefaultW && w.checkRoutingInstanceExists ≠ .ok true) ||
  checkGenerateRouteExists w.checkGenerateRouteExists ≠ .ok false ||
  w.ConfigSet.isSome

/-- A step of `resourceGenerateRouteCreate` up to and including the commit fails. -/
def failsUpToCommit (d : generateRouteResourceData) (w : generateRouteCreateAnswers) : Bool :=
  failsBeforeCommit d w || w.CommitConf.2.isSome

/-! ## `junos/resource_policyoptions_community.go`: read -/

/-- Function `resourcePolicyoptionsCommunityRead`, given what
`sess.startNewSession()` (not under src/) returned, an error or a session, and
what the command of `readPolicyoptionsCommunity` answers: the events and the
diagnostics returned (the writes to `d` are left out). -/
def resourcePolicyoptionsCommunityRead (d : policyoptionsCommunityResourceData)
    (startNewSession : Option String) (answer : CommandResult) : List Event × List Diagnostic :=
  emit [.MutexLock] <|
  match startNewSession with
  | some err => emit [.MutexUnlock] ([], FromErr err)
  | none =>
    let body : List Event × List Diagnostic :=
      emit [.netconfNewSession, .Command] <|
      match readPolicyoptionsCommunity d.name answer with
      | .error err => emit [.MutexUnlock] ([], FromErr err)
      | .ok _ => emit [.MutexUnlock] ([], [])
    (body.1 ++ [.Close], body.2)

/-- The calls on the global mutex among the events. -/
def mutexEvents (evs : List Event) : List Event :=
  evs.filter (fun e => e = .MutexLock || e = .MutexUnlock)

/-! ## `internal/providerfwk/resource_bgp_neighbor.go`: create, set and read -/

/-- Method `bgpNeighbor.Create`, from the decoded plan to the call of
`defaultResourceCreate`, which hands the plan to `set`: the plan after the
computed attributes are resolved, or the summary of the error diagnostic added
before returning. Each of the three `if plan.X.IsUnknown()` blocks assigns the
one attribute `X` and reads attributes that no block assigns. -/
def bgpNeighbor.Create (plan : bgpNeighborData) : Except String bgpNeighborData :=
  if plan.IP.ValueString = [] then .error "Empty ip"
  else if plan.Group.ValueString = [] then .error "Empty group"
  else
    .ok { plan with
      AdvertiseExternal :=
        if plan.AdvertiseExternal.IsUnknown then
          let v : TFValue Bool := .null
          let v := if plan.AdvertiseExternalConditional.ValueBool then .known true else v
          v
        else plan.AdvertiseExternal
      MetricOutIgp :=
        if plan.MetricOutIgp.IsUnknown then
          let v : TFValue Bool := .null
          let v := if plan.MetricOutIgpDelayMedUpdate.ValueBool then .known true else v
          let v := if !plan.MetricOutIgpOffset.IsNull then .known true else v
          v
        else plan.MetricOutIgp
      MetricOutMinimumIgp :=
        if plan.MetricOutMinimumIgp.IsUnknown then
          let v : TFValue Bool := .null
          let v := if !plan.MetricOutMinimumIgpOffset.IsNull then .known true else v
          v
        else plan.MetricOutMinimumIgp }

/-- The `setPrefix` of `bgpNeighborData.set`. -/
def bgpNeighborData.setPrefix (rscData : bgpNeighborData) : Str :=
  if rscData.RoutingInstance.ValueString ≠ [] ∧ rscData.RoutingInstance.ValueString ≠ DefaultW then
    SetRoutingInstances ++ rscData.RoutingInstance.ValueString ++
      " protocols bgp group \"".toList ++ rscData.Group.ValueString ++ "\"".toList ++
      " neighbor ".toList ++ rscData.IP.ValueString ++ " ".toList
  else
    "set protocols bgp group \"".toList ++ rscData.Group.ValueString ++ "\"".toList ++
      " neighbor ".toList ++ rscData.IP.ValueString ++ " ".toList

/-- The line appended by `if cond { configSet = append(configSet, line) }`. -/
def lineIf (cond : Bool) (line : Str) : List Str := if cond then [line] else []

/-- The `configSet` that `bgpNeighborData.set` builds once `setPrefix` is
computed, for data whose blocks are nil or empty (no line is appended for them
and no error is returned). -/
def bgpNeighborData.configSet (setPrefix : Str) (rscData : bgpNeighborData) : List Str :=
  [setPrefix] ++
  lineIf rscData.AcceptRemoteNexthop.ValueBool (setPrefix ++ "accept-remote-nexthop".toList) ++
  lineIf rscData.AdvertiseExternal.ValueBool (setPrefix ++ "advertise-external".toList) ++
  lineIf rscData.AdvertiseExternalConditional.ValueBool
    (setPrefix ++ "advertise-external conditional".toList) ++
  lineIf rscData.AdvertiseInactive.ValueBool (setPrefix ++ "advertise-inactive".toList) ++
  lineIf rscData.AdvertisePeerAS.ValueBool (setPrefix ++ "advertise-peer-as".toList) ++
  lineIf rscData.NoAdvertisePeerAS.ValueBool (setPrefix ++ "no-advertise-peer-as".toList) ++
  lineIf rscData.ASOverride.ValueBool (setPrefix ++ "as-override".toList) ++
  lineIf (rscData.AuthenticationAlgorithm.ValueString != [])
    (setPrefix ++ "authentication-algorithm ".toList ++ rscData.AuthenticationAlgorithm.ValueString) ++
  lineIf (rscData.AuthenticationKey.ValueString != [])
    (setPrefix ++ "authentication-key \"".toList ++ rscData.AuthenticationKey.ValueString ++
      "\"".toList) ++
  lineIf (rscData.AuthenticationKeyChain.ValueString != [])
    (setPrefix ++ "authentication-key-chain \"".toList ++
      rscData.AuthenticationKeyChain.ValueString ++ "\"".toList) ++
  lineIf (rscData.Cluster.ValueString != []) (setPrefix ++ "cluster ".toList ++ rscData.Cluster.ValueString) ++
  lineIf rscData.Damping.ValueBool (setPrefix ++ "damping".toList) ++
  lineIf (rscData.Description.ValueString != [])
    (setPrefix ++ "description \"".toList ++ rscData.Description.ValueString ++ "\"".toList) ++
  rscData.Export.map (fun v => setPrefix ++ "export ".toList ++ v.ValueString) ++
  lineIf (!rscData.HoldTime.IsNull)
    (setPrefix ++ "hold-time ".toList ++ ConvI64toa rscData.HoldTime.ValueInt64) ++
  rscData.Import.map (fun v => setPrefix ++ "import ".toList ++ v.ValueString) ++
  lineIf rscData.KeepAll.ValueBool (setPrefix ++ "keep all".toList) ++
  lineIf rscData.KeepNone.ValueBool (setPrefix ++ "keep none".toList) ++
  lineIf (rscData.LocalAddress.ValueString != [])
    (setPrefix ++ "local-address ".toList ++ rscData.LocalAddress.ValueString) ++
  lineIf (rscData.LocalAS.ValueString != [])
    (setPrefix ++ "local-as ".toList ++ rscData.LocalAS.ValueString) ++
  lineIf rscData.LocalASAlias.ValueBool (setPrefix ++ "local-as alias".toList) ++
  lineIf (!rscData.LocalASLoops.IsNull)
    (setPrefix ++ "local-as loops ".toList ++ ConvI64toa rscData.LocalASLoops.ValueInt64) ++
  lineIf rscData.LocalASNoPrependGlobalAS.ValueBool
    (setPrefix ++ "local-as no-prepend-global-as".toList) ++
  lineIf rscData.LocalASPrivate.ValueBool (setPrefix ++ "local-as private".toList) ++
  lineIf (rscData.LocalInterface.ValueString != [])
    (setPrefix ++ "local-interface ".toList ++ rscData.LocalInterface.ValueString) ++
  lineIf (!rscData.LocalPreference.IsNull)
    (setPrefix ++ "local-preference ".toList ++ ConvI64toa rscData.LocalPreference.ValueInt64) ++
  lineIf rscData.LogUpdown.ValueBool (setPrefix ++ "log-updown".toList) ++
  lineIf (!rscData.MetricOut.IsNull)
    (setPrefix ++ "metric-out ".toList ++ ConvI64toa rscData.MetricOut.ValueInt64) ++
  lineIf rscData.MetricOutIgp.ValueBool (setPrefix ++ "metric-out igp".toList) ++
  lineIf rscData.MetricOutIgpDelayMedUpdate.ValueBool
    (setPrefix ++ "metric-out igp delay-med-update".toList) ++
  lineIf (!rscData.MetricOutIgpOffset.IsNull)
    (setPrefix ++ "metric-out igp ".toList ++ ConvI64toa rscData.MetricOutIgpOffset.ValueInt64) ++
  lineIf rscData.MetricOutMinimumIgp.ValueBool (setPrefix ++ "metric-out minimum-igp".toList) ++
  lineIf (!rscData.MetricOutMinimumIgpOffset.IsNull)
    (setPrefix ++ "metric-out minimum-igp ".toList ++
      ConvI64toa rscData.MetricOutMinimumIgpOffset.ValueInt64) ++
  lineIf rscData.MtuDiscovery.ValueBool (setPrefix ++ "mtu-discovery".toList) ++
  lineIf rscData.Multihop.ValueBool (setPrefix ++ "multihop".toList) ++
  lineIf rscData.NoClientReflect.ValueBool (setPrefix ++ "no-client-reflect".toList) ++
  lineIf (!rscData.OutDelay.IsNull)
    (setPrefix ++ "out-delay ".toList ++ ConvI64toa rscData.OutDelay.ValueInt64) ++
  lineIf rscData.Passive.ValueBool (setPrefix ++ "passive".toList) ++
  lineIf (rscData.PeerAS.ValueString != []) (setPrefix ++ "peer-as ".toList ++ rscData.PeerAS.ValueString) ++
  lineIf (!rscData.Preference.IsNull)
    (setPrefix ++ "preference ".toList ++ ConvI64toa rscData.Preference.ValueInt64) ++
  lineIf rscData.RemovePrivate.ValueBool (setPrefix ++ "remove-private".toList) ++
  lineIf rscData.TCPAggressiveTransmission.ValueBool
    (setPrefix ++ "tcp-aggressive-transmission".toList)

/-- Method `bgpNeighborData.set` on data whose blocks are nil or empty: the
`configSet` lines handed to `junSess.ConfigSet`. -/
def bgpNeighborData.set (rscData : bgpNeighborData) : List Str :=
  rscData.configSet rscData.setPrefix

/-- The inner switch of the `local-as ` case of `bgpNeighborData.read`;
`itemTrim` is the line after `local-as `. -/
def bgpNeighborData.readLocalAS (itemTrim : Str) (rscData : bgpNeighborData) :
    bgpNeighborData × Option String :=
  if itemTrim = "private".toList then ({ rscData with LocalASPrivate := .known true }, none)
  else if itemTrim = "alias".toList then ({ rscData with LocalASAlias := .known true }, none)
  else if itemTrim = "no-prepend-global-as".toList then
    ({ rscData with LocalASNoPrependGlobalAS := .known true }, none)
  else
    match CutPrefixInString itemTrim "loops ".toList with
    | some v =>
      match ConvAtoi64Value v with
      | .ok n => ({ rscData with LocalASLoops := n }, none)
      | .error e => ({ rscData with LocalASLoops := .null }, some e)
    | none => ({ rscData with LocalAS := .known itemTrim }, none)

/-- The inner switch of the `metric-out ` case of `bgpNeighborData.read`;
`itemTrim` is the line after `metric-out `. -/
def bgpNeighborData.readMetricOut (itemTrim : Str) (rscData : bgpNeighborData) :
    bgpNeighborData × Option String :=
  match CutPrefixInString itemTrim "igp".toList with
  | some itemTrim =>
    let rscData := { rscData with MetricOutIgp := .known true }
    if itemTrim = " delay-med-update".toList then
      ({ rscData with MetricOutIgpDelayMedUpdate := .known true }, none)
    else
      match CutPrefixInString itemTrim " ".toList with
      | some v =>
        match ConvAtoi64Value v with
        | .ok n => ({ rscData with MetricOutIgpOffset := n }, none)
        | .error e => ({ rscData with MetricOutIgpOffset := .null }, some e)
      | none => (rscData, none)
  | none =>
    match CutPrefixInString itemTrim "minimum-igp".toList with
    | some itemTrim =>
      let rscData := { rscData with MetricOutMinimumIgp := .known true }
      match CutPrefixInString itemTrim " ".toList with
      | some v =>
        match ConvAtoi64Value v with
        | .ok n => ({ rscData with MetricOutMinimumIgpOffset := n }, none)
        | .error e => ({ rscData with MetricOutMinimumIgpOffset := .null }, some e)
      | none => (rscData, none)
    | none =>
      match ConvAtoi64Value itemTrim with
      | .ok n => ({ rscData with MetricOut := n }, none)
      | .error e => ({ rscData with MetricOut := .null }, some e)

/-- The last cases of the switch of `bgpNeighborData.read`, those of the blocks.
Their `read` methods are not under src/ and write to the blocks only, which are
left out of the data; `blockRead name itemTrim` is the error that the method of
block `name` returns on the rest of the line (`multipath` returns none). -/
def bgpNeighborData.readBlocks (blockRead : String → Str → Option String) (itemTrim : Str)
    (rscData : bgpNeighborData) : bgpNeighborData × Option String :=
  match CutPrefixInString itemTrim "bfd-liveness-detection ".toList with
  | some v => (rscData, blockRead "bfd_liveness_detection" v)
  | none =>
  match CutPrefixInString itemTrim "bgp-error-tolerance".toList with
  | some v => (rscData, blockRead "bgp_error_tolerance" v)
  | none =>
  match CutPrefixInString itemTrim "family evpn ".toList with
  | some v => (rscData, blockRead "family_evpn" v)
  | none =>
  match CutPrefixInString itemTrim "family inet ".toList with
  | some v => (rscData, blockRead "family_inet" v)
  | none =>
  match CutPrefixInString itemTrim "family inet6 ".toList with
  | some v => (rscData, blockRead "family_inet6" v)
  | none =>
  match CutPrefixInString itemTrim "multipath".toList with
  | some _ => (rscData, none)
  | none =>
  match CutPrefixInString itemTrim "graceful-restart".toList with
  | some v => (rscData, blockRead "graceful_restart" v)
  | none => (rscData, none)

/-- The switch of `bgpNeighborData.read` on one line, `itemTrim` being the line
without its leading `set `. The second component is the error returned, if any.
`JunosDecode` stands for the function of that name of `internal/tfdata`, which
is not under src/. -/
def bgpNeighborData.readItem (JunosDecode : Str → Except String (TFValue Str))
    (blockRead : String → Str → Option String) (itemTrim : Str) (rscData : bgpNeighborData) :
    bgpNeighborData × Option String :=
  if itemTrim = "accept-remote-nexthop".toList then
    ({ rscData with AcceptRemoteNexthop := .known true }, none)
  else if itemTrim = "advertise-external".toList then
    ({ rscData with AdvertiseExternal := .known true }, none)
  else if itemTrim = "advertise-external conditional".toList then
    ({ rscData with AdvertiseExternal := .known true,
                    AdvertiseExternalConditional := .known true }, none)
  else if itemTrim = "advertise-inactive".toList then
    ({ rscData with AdvertiseInactive := .known true }, none)
  else if itemTrim = "advertise-peer-as".toList then
    ({ rscData with AdvertisePeerAS := .known true }, none)
  else if itemTrim = "no-advertise-peer-as".toList then
    ({ rscData with NoAdvertisePeerAS := .known true }, none)
  else if itemTrim = "as-override".toList then ({ rscData with ASOverride := .known true }, none)
  else match CutPrefixInString itemTrim "authentication-algorithm ".toList with
  | some v => ({ rscData with AuthenticationAlgorithm := .known v }, none)
  | none =>
  match CutPrefixInString itemTrim "authentication-key ".toList with
  | some v =>
    match JunosDecode (Trim v (Char.ofNat 34)) with
    | .ok key => ({ rscData with AuthenticationKey := key }, none)
    | .error e => ({ rscData with AuthenticationKey := .null }, some e)
  | none =>
  match CutPrefixInString itemTrim "authentication-key-chain ".toList with
  | some v => ({ rscData with AuthenticationKeyChain := .known (Trim v (Char.ofNat 34)) }, none)
  | none =>
  match CutPrefixInString itemTrim "cluster ".toList with
  | some v => ({ rscData with Cluster := .known v }, none)
  | none =>
  if itemTrim = "damping".toList then ({ rscData with Damping := .known true }, none)
  else match CutPrefixInString itemTrim "description ".toList with
  | some v => ({ rscData with Description := .known (Trim v (Char.ofNat 34)) }, none)
  | none =>
  match CutPrefixInString itemTrim "export ".toList with
  | some v => ({ rscData with Export := rscData.Export ++ [.known v] }, none)
  | none =>
  match CutPrefixInString itemTrim "hold-time ".toList with
  | some v =>
    match ConvAtoi64Value v with
    | .ok n => ({ rscData with HoldTime := n }, none)
    | .error e => ({ rscData with HoldTime := .null }, some e)
  | none =>
  match CutPrefixInString itemTrim "import ".toList with
  | some v => ({ rscData with Import := rscData.Import ++ [.known v] }, none)
  | none =>
  if itemTrim = "keep all".toList then ({ rscData with KeepAll := .known true }, none)
  else if itemTrim = "keep none".toList then ({ rscData with KeepNone := .known true }, none)
  else match CutPrefixInString itemTrim "local-address ".toList with
  | some v => ({ rscData with LocalAddress := .known v }, none)
  | none =>
  match CutPrefixInString itemTrim "local-as ".toList with
  | some v => bgpNeighborData.readLocalAS v rscData
  | none =>
  match CutPrefixInString itemTrim "local-interface ".toList with
  | some v => ({ rscData with LocalInterface := .known v }, none)
  | none =>
  match CutPrefixInString itemTrim "local-preference ".toList with
  | some v =>
    match ConvAtoi64Value v with
    | .ok n => ({ rscData with LocalPreference := n }, none)
    | .error e => ({ rscData with LocalPreference := .null }, some e)
  | none =>
  if itemTrim = "log-updown".toList then ({ rscData with LogUpdown := .known true }, none)
  else match CutPrefixInString itemTrim "metric-out ".toList with
  | some v => bgpNeighborData.readMetricOut v rscData
  | none =>
  if itemTrim = "mtu-discovery".toList then ({ rscData with MtuDiscovery := .known true }, none)
  else if itemTrim = "multihop".toList then ({ rscData with Multihop := .known true }, none)
  else if itemTrim = "no-client-reflect".toList then
    ({ rscData with NoClientReflect := .known true }, none)
  else match CutPrefixInString itemTrim "out-delay ".toList with
  | some v =>
    match ConvAtoi64Value v with
    | .ok n => ({ rscData with OutDelay := n }, none)
    | .error e => ({ rscData with OutDelay := .null }, some e)
  | none =>
  if itemTrim = "passive".toList then ({ rscData with Passive := .known true }, none)
  else match CutPrefixInString itemTrim "peer-as ".toList with
  | some v => ({ rscData with PeerAS := .known v }, none)
  | none =>
  match CutPrefixInString itemTrim "preference ".toList with
  | some v =>
    match ConvAtoi64Value v with
    | .ok n => ({ rscData with Preference := n }, none)
    | .error e => ({ rscData with Preference := .null }, some e)
  | none =>
  if itemTrim = "remove-private".toList then ({ rscData with RemovePrivate := .known true }, none)
  else if itemTrim = "tcp-aggressive-transmission".toList then
    ({ rscData with TCPAggressiveTransmission := .known true }, none)
  else bgpNeighborData.readBlocks blockRead itemTrim rscData

/-- Method `bgpNeighborData.read` on a zero `rscData`, given what
`junSess.Command` answered for `show configuration ... protocols bgp group
"<group>" neighbor <ip> | display set relative`: the data after the call and
the error returned, if any. -/
def bgpNeighborData.read (JunosDecode : Str → Except String (TFValue Str))
    (blockRead : String → Str → Option String) (ip routingInstance group : Str)
    (answer : CommandResult) : bgpNeighborData × Option String :=
  match answer with
  | .error e => ({}, some e)
  | .ok showConfig =>
    if showConfig ≠ EmptyW then
      forEachConfigLine (bgpNeighborData.readItem JunosDecode blockRead) (Split showConfig LF)
        (bgpNeighborData.fillID
          { IP := .known ip
            RoutingInstance := if routingInstance = [] then .known DefaultW
                               else .known routingInstance
            Group := .known group })
    else ({}, none)

/-- The lines that `bgpNeighborData.set` appends for metric_out_igp,
metric_out_igp_delay_med_update and metric_out_igp_offset, in its order. -/
def bgpNeighborData.metricOutIgpLines (setPrefix : Str) (rscData : bgpNeighborData) : List Str :=
  lineIf rscData.MetricOutIgp.ValueBool (setPrefix ++ "metric-out igp".toList) ++
  lineIf rscData.MetricOutIgpDelayMedUpdate.ValueBool
    (setPrefix ++ "metric-out igp delay-med-update".toList) ++
  lineIf (!rscData.MetricOutIgpOffset.IsNull)
    (setPrefix ++ "metric-out igp ".toList ++ ConvI64toa rscData.MetricOutIgpOffset.ValueInt64)

/-! ## `internal/providersdk/resource_security_address_book.go` -/

/-- An element of `network_address` or of `wildcard_address`. -/
structure addressBookAddress where
  name : Str := []
  value : Str := []
  description : Str := []
  deriving DecidableEq, Repr

/-- An element of `dns_name`. -/
structure addressBookDnsName where
  name : Str := []
  value : Str := []
  description : Str := []
  ipv4_only : Bool := false
  ipv6_only : Bool := false
  deriving DecidableEq, Repr

/-- An element of `range_address`; `from_` and `to_` are the attributes
`from` and `to`, which are keywords of Lean. -/
structure addressBookRangeAddress where
  name : Str := []
  from_ : Str := []
  to_ : Str := []
  description : Str := []
  deriving DecidableEq, Repr

/-- An element of `address_set`: a Go map with the keys `name`, `address`,
`address_set` and `description`. -/
structure addressBookAddressSet where
  name : Str := []
  address : List Str := []
  address_set : List Str := []
  description : Str := []
  deriving DecidableEq, Repr

/-- The attributes of resource `junos_security_address_book`, as `d.Get` returns
them; each set is the list that `(*schema.Set).List()` returns. -/
structure securityAddressBookResourceData where
  name : Str := "global".toList
  description : Str := []
  attach_zone : List Str := []
  network_address : List addressBookAddress := []
  wildcard_address : List addressBookAddress := []
  dns_name : List addressBookDnsName := []
  range_address : List addressBookRangeAddress := []
  address_set : List addressBookAddressSet := []
  deriving DecidableEq, Repr

/-- Function `sortSetOfString` of `func_common.go`: `sort.Strings`, the
lexicographic order of the strings. -/
def sortSetOfString (list : List Str) : List Str :=
  list.insertionSort (fun a b => a ≤ b)

/-- The loop of `setSecurityAddressBook` over `attach_zone`: the `configSet`
after the loop, or the error returned from inside it. -/
def setSecurityAddressBook.attachZone (name setPrefix : Str) :
    List Str → List Str → Except String (List Str)
  | [], configSet => .ok configSet
  | attachZone :: rest, configSet =>
    if name = "global".toList then .error "cannot attach global address book to a zone"
    else
      setSecurityAddressBook.attachZone name setPrefix rest
        (configSet ++ [setPrefix ++ " attach zone ".toList ++ attachZone])

/-- One of the four loops of `setSecurityAddressBook` over a kind of address
(network_address, wildcard_address, dns_name, range_address), which differ only
in the lines appended for an element (`lines`, given `setPrefixAddr`): the pair
of `configSet` and `addressNameList` after the loop, or the error returned from
inside it. -/
def setSecurityAddressBook.addresses {α : Type} (nameOf : α → Str) (lines : Str → α → List Str)
    (setPrefix : Str) : List α → List Str × List Str → Except String (List Str × List Str)
  | [], st => .ok st
  | address :: rest, (configSet, addressNameList) =>
    if nameOf address ∈ addressNameList then
      .error ("multiple addresses with the same name " ++ String.mk (nameOf address))
    else
      setSecurityAddressBook.addresses nameOf lines setPrefix rest
        (configSet ++ lines (setPrefix ++ " address ".toList ++ nameOf address ++ " ".toList) address,
          addressNameList ++ [nameOf address])

/-- The line of the description of an address or address set, when it is not empty. -/
def setSecurityAddressBook.descriptionLine (setPrefixAddr description : Str) : List Str :=
  lineIf (description != []) (setPrefixAddr ++ "description \"".toList ++ description ++ "\"".toList)

/-- The lines appended for an element of `network_address`. -/
def setSecurityAddressBook.networkAddress (setPrefixAddr : Str) (address : addressBookAddress) :
    List Str :=
  [setPrefixAddr ++ address.value] ++
  setSecurityAddressBook.descriptionLine setPrefixAddr address.description

/-- The lines appended for an element of `wildcard_address`. -/
def setSecurityAddressBook.wildcardAddress (setPrefixAddr : Str) (address : addressBookAddress) :
    List Str :=
  [setPrefixAddr ++ "wildcard-address ".toList ++ address.value] ++
  setSecurityAddressBook.descriptionLine setPrefixAddr address.description

/-- The lines appended for an element of `dns_name`. -/
def setSecurityAddressBook.dnsName (setPrefixAddr : Str) (address : addressBookDnsName) :
    List Str :=
  [setPrefixAddr ++ "dns-name ".toList ++ address.value] ++
  lineIf address.ipv4_only
    (setPrefixAddr ++ "dns-name ".toList ++ address.value ++ " ipv4-only".toList) ++
  lineIf address.ipv6_only
    (setPrefixAddr ++ "dns-name ".toList ++ address.value ++ " ipv6-only".toList) ++
  setSecurityAddressBook.descriptionLine setPrefixAddr address.description

/-- The lines appended for an element of `range_address`. -/
def setSecurityAddressBook.rangeAddress (setPrefixAddr : Str) (address : addressBookRangeAddress) :
    List Str :=
  [setPrefixAddr ++ "range-address ".toList ++ address.from_ ++ " to ".toList ++ address.to_] ++
  setSecurityAddressBook.descriptionLine setPrefixAddr address.description

/-- The loop of `setSecurityAddressBook` over `address_set`: the pair of
`configSet` and `addressNameList` after the loop, or the error returned from
inside it. -/
def setSecurityAddressBook.addressSets (setPrefix : Str) :
    List addressBookAddressSet → List Str × List Str → Except String (List Str × List Str)
  | [], st => .ok st
  | addressSet :: rest, (configSet, addressNameList) =>
    if addressSet.name ∈ addressNameList then
      .error ("multiple addresses or address-sets with the same name " ++
        String.mk addressSet.name)
    else if addressSet.address.length = 0 ∧ addressSet.address_set.length = 0 then
      .error ("at least one of address or address_set is required in address_set " ++
        String.mk addressSet.name)
    else
      let setPrefixAddrSet := setPrefix ++ " address-set ".toList ++ addressSet.name ++ " ".toList
      setSecurityAddressBook.addressSets setPrefix rest
        (configSet ++
          (sortSetOfString addressSet.address).map
            (fun addr => setPrefixAddrSet ++ "address ".toList ++ addr) ++
          (sortSetOfString addressSet.address_set).map
            (fun addrSet => setPrefixAddrSet ++ "address-set ".toList ++ addrSet) ++
          setSecurityAddressBook.descriptionLine setPrefixAddrSet addressSet.description,
          addressNameList ++ [addressSet.name])

/-- Function `setSecurityAddressBook`: `.ok configSet` when it reaches its last
statement, `return junSess.ConfigSet(configSet)`, with the lines handed to
`ConfigSet`, and `.error` with the error returned before that statement, in
which case `ConfigSet` is not called. -/
def setSecurityAddressBook (d : securityAddressBookResourceData) : Except String (List Str) :=
  let setPrefix := "set security address-book ".toList ++ d.name
  let configSet :=
    lineIf (d.description != [])
      (setPrefix ++ " description \"".toList ++ d.description ++ "\"".toList)
  match setSecurityAddressBook.attachZone d.name setPrefix d.attach_zone configSet with
  | .error err => .error err
  | .ok configSet =>
  match setSecurityAddressBook.addresses (fun a => a.name) setSecurityAddressBook.networkAddress
      setPrefix d.network_address (configSet, []) with
  | .error err => .error err
  | .ok st =>
  match setSecurityAddressBook.addresses (fun a => a.name) setSecurityAddressBook.wildcardAddress
      setPrefix d.wildcard_address st with
  | .error err => .error err
  | .ok st =>
  match setSecurityAddressBook.addresses (fun a => a.name) setSecurityAddressBook.dnsName
      setPrefix d.dns_name st with
  | .error err => .error err
  | .ok st =>
  match setSecurityAddressBook.addresses (fun a => a.name) setSecurityAddressBook.rangeAddress
      setPrefix d.range_address st with
  | .error err => .error err
  | .ok st =>
  match setSecurityAddressBook.addressSets setPrefix d.address_set st with
  | .error err => .error err
  | .ok st => .ok st.1

/-- The names of the entries of network_address, wildcard_address, dns_name,
range_address and address_set, in the order in which `setSecurityAddressBook`
meets them. -/
def securityAddressBookResourceData.entryNames (d : securityAddressBookResourceData) : List Str :=
  d.network_address.map (fun a => a.name) ++ d.wildcard_address.map (fun a => a.name) ++
  d.dns_name.map (fun a => a.name) ++ d.range_address.map (fun a => a.name) ++
  d.address_set.map (fun a => a.name)

/-- The text of one of the two errors for a name that is met twice. -/
def multipleSameName (err : String) : Prop :=
  ∃ name : Str, err = "multiple addresses with the same name " ++ String.mk name ∨
    err = "multiple addresses or address-sets with the same name " ++ String.mk name

/-- Function `CutSuffixInString` of the library `go-utils/basicalter`: when `s`
has the suffix, the string is replaced by what stands before it (`some`),
otherwise it is left alone (`none`). -/
def CutSuffixInString (s suf : Str) : Option Str :=
  if suf.isSuffixOf s then some (s.take (s.length - suf.length)) else none

/-- Struct `addressBookOptions`; the Go maps of its lists have the keys of the
elements of the resource data. -/
structure addressBookOptions where
  name : Str := []
  description : Str := []
  attachZone : List Str := []
  networkAddress : List addressBookAddress := []
  wildcardAddress : List addressBookAddress := []
  dnsName : List addressBookDnsName := []
  rangeAddress : List addressBookRangeAddress := []
  addressSet : List addressBookAddressSet := []
  deriving DecidableEq, Repr

/-- The Go map `descMap` of `readSecurityAddressBook`, as the list of its
writes, the latest first. -/
abbrev descMapT := List (Str × Str)

/-- Reading `descMap[name]`: the latest value written, or the empty string. -/
def descMapGet (descMap : descMapT) (name : Str) : Str := (descMap.lookup name).getD []

/-- Function `copyAndRemoveItemMapList` of `func_common.go` for the identifier
`name` and the maps of `address_set`: the first element of the list with the
name of `m` is removed from the list and all its keys are copied into `m`. The
result is `m` after the call and the list returned. -/
def copyAndRemoveItemMapList (m : addressBookAddressSet) :
    List addressBookAddressSet → addressBookAddressSet × List addressBookAddressSet
  | [] => (m, [])
  | element :: rest =>
    if element.name = m.name then (element, rest)
    else ((copyAndRemoveItemMapList m rest).1, element :: (copyAndRemoveItemMapList m rest).2)

/-- Function `copySecurityAddressBookAddressDescriptions`, for a list of maps
whose name is read with `nameOf` and whose description is written with
`setDescription`. -/
def copySecurityAddressBookAddressDescriptions {α : Type} (nameOf : α → Str)
    (setDescription : α → Str → α) (descMap : descMapT) (addrList : List α) : List α :=
  addrList.map (fun ele => setDescription ele (descMapGet descMap (nameOf ele)))

/-- The `address ` case of the switch of `readSecurityAddressBook`; `itemTrim` is
the line after `address `. -/
def readSecurityAddressBook.address (itemTrim : Str) (confRead : addressBookOptions)
    (descMap : descMapT) : (addressBookOptions × descMapT) × Option String :=
  let itemTrimFields := Split itemTrim " ".toList
  let name := itemTrimFields.headD []
  let itemTrim := (CutPrefixInString itemTrim (name ++ " ".toList)).getD itemTrim
  match CutPrefixInString itemTrim "description ".toList with
  | some v => ((confRead, (name, Trim v (Char.ofNat 34)) :: descMap), none)
  | none =>
  match CutPrefixInString itemTrim "wildcard-address ".toList with
  | some v =>
    (({ confRead with wildcardAddress := confRead.wildcardAddress ++
          [{ name := name, value := v, description := descMapGet descMap name }] }, descMap), none)
  | none =>
  match CutPrefixInString itemTrim "range-address ".toList with
  | some v =>
    match Split v " ".toList with
    | f0 :: _ :: f2 :: _ =>
      (({ confRead with rangeAddress := confRead.rangeAddress ++
            [{ name := name, from_ := f0, to_ := f2, description := descMapGet descMap name }] },
        descMap), none)
    | _ => ((confRead, descMap), some "can't read values for range-address (not enough fields)")
  | none =>
  match CutPrefixInString itemTrim "dns-name ".toList with
  | some v =>
    match CutSuffixInString v " ipv4-only".toList with
    | some v4 =>
      (({ confRead with dnsName := confRead.dnsName ++
            [{ name := name, value := v4, description := descMapGet descMap name,
               ipv4_only := true, ipv6_only := false }] }, descMap), none)
    | none =>
    match CutSuffixInString v " ipv6-only".toList with
    | some v6 =>
      (({ confRead with dnsName := confRead.dnsName ++
            [{ name := name, value := v6, description := descMapGet descMap name,
               ipv4_only := false, ipv6_only := true }] }, descMap), none)
    | none =>
      (({ confRead with dnsName := confRead.dnsName ++
            [{ name := name, value := v, description := descMapGet descMap name,
               ipv4_only := false, ipv6_only := false }] }, descMap), none)
  | none =>
    (({ confRead with networkAddress := confRead.networkAddress ++
          [{ name := name, value := itemTrim, description := descMapGet descMap name }] },
      descMap), none)

/-- The inner switch of the `address-set ` case of `readSecurityAddressBook` on
the map `adSet`; `itemTrim` is the line after `address-set <name> `. -/
def readSecurityAddressBook.adSet (itemTrim : Str) (adSet : addressBookAddressSet) :
    addressBookAddressSet :=
  match CutPrefixInString itemTrim "description ".toList with
  | some v => { adSet with description := Trim v (Char.ofNat 34) }
  | none =>
  match CutPrefixInString itemTrim "address ".toList with
  | some v => { adSet with address := adSet.address ++ [v] }
  | none =>
  match CutPrefixInString itemTrim "address-set ".toList with
  | some v => { adSet with address_set := adSet.address_set ++ [v] }
  | none => adSet

/-- The `address-set ` case of the switch of `readSecurityAddressBook`, on the
list `confRead.addressSet`; `itemTrim` is the line after `address-set `. -/
def readSecurityAddressBook.addressSet (itemTrim : Str)
    (addressSet : List addressBookAddressSet) : List addressBookAddressSet :=
  let itemTrimFields := Split itemTrim " ".toList
  let found := copyAndRemoveItemMapList
    { name := itemTrimFields.headD [], address := [], address_set := [], description := [] }
    addressSet
  let itemTrim := (CutPrefixInString itemTrim (itemTrimFields.headD [] ++ " ".toList)).getD itemTrim
  found.2 ++ [readSecurityAddressBook.adSet itemTrim found.1]

/-- The switch of `readSecurityAddressBook` on one line, `itemTrim` being the
line without its leading `set `, on `confRead` and `descMap`. The second
component is the error returned, if any. -/
def readSecurityAddressBookItem (itemTrim : Str) (st : addressBookOptions × descMapT) :
    (addressBookOptions × descMapT) × Option String :=
  match CutPrefixInString itemTrim "description ".toList with
  | some v => (({ st.1 with description := Trim v (Char.ofNat 34) }, st.2), none)
  | none =>
  match CutPrefixInString itemTrim "address ".toList with
  | some v => readSecurityAddressBook.address v st.1 st.2
  | none =>
  match CutPrefixInString itemTrim "address-set ".toList with
  | some v =>
    (({ st.1 with addressSet := readSecurityAddressBook.addressSet v st.1.addressSet }, st.2), none)
  | none =>
  match CutPrefixInString itemTrim "attach zone ".toList with
  | some v => (({ st.1 with attachZone := st.1.attachZone ++ [v] }, st.2), none)
  | none => (st, none)

/-- Function `readSecurityAddressBook`, given what `junSess.Command` answered for
`show configuration security address-book <addrBook> | display set relative`:
`confRead` and the error returned, if any. An error of the switch returns
`confRead` as it is then, before the descriptions are copied. -/
def readSecurityAddressBook (addrBook : Str) (answer : CommandResult) :
    addressBookOptions × Option String :=
  match answer with
  | .error err => ({}, some err)
  | .ok showConfig =>
    let looped : (addressBookOptions × descMapT) × Option String :=
      if showConfig ≠ EmptyW then
        forEachConfigLine readSecurityAddressBookItem (Split showConfig LF)
          ({ name := addrBook }, [])
      else (({}, []), none)
    match looped with
    | (st, some err) => (st.1, some err)
    | ((confRead, descMap), none) =>
      ({ confRead with
          networkAddress := copySecurityAddressBookAddressDescriptions (fun e => e.name)
            (fun e v => { e with description := v }) descMap confRead.networkAddress
          dnsName := copySecurityAddressBookAddressDescriptions (fun e => e.name)
            (fun e v => { e with description := v }) descMap confRead.dnsName
          rangeAddress := copySecurityAddressBookAddressDescriptions (fun e => e.name)
            (fun e v => { e with description := v }) descMap confRead.rangeAddress
          wildcardAddress := copySecurityAddressBookAddressDescriptions (fun e => e.name)
            (fun e v => { e with description := v }) descMap confRead.wildcardAddress }, none)

/-- The text after `address-set ` of a line of the output, for a line that,
without its leading `set `, starts with `address-set `. -/
def addressSetLine (item : Str) : Option Str :=
  CutPrefixInString (TrimPrefix item SetLS) "address-set ".toList

/-- The name in `address-set <name> ...`: the text up to the first space. -/
def addressSetLineName (rest : Str) : Str := (Split rest " ".toList).headD []

/-- What follows `address-set <name> ` in a line. -/
def addressSetLineTail (rest : Str) : Str :=
  (CutPrefixInString rest (addressSetLineName rest ++ " ".toList)).getD rest

/-- What follows `address-set <name> ` in the lines `address-set <name> ...` of
the output, in the order of the output. -/
def addressSetTails (name : Str) (lines : List Str) : List Str :=
  lines.filterMap (fun item =>
    match addressSetLine item with
    | some rest => if addressSetLineName rest = name then some (addressSetLineTail rest) else none
    | none => none)

/-- The block of the address set `name` that the lines of the output describe:
the `X` of its lines `address X` and the `Y` of its lines `address-set Y`, in
the order of the output, and the unquoted value of its last line
`description ...`, empty when there is none. -/
def addressSetOf (name : Str) (lines : List Str) : addressBookAddressSet :=
  { name := name
    address := (addressSetTails name lines).filterMap
      (fun t => CutPrefixInString t "address ".toList)
    address_set := (addressSetTails name lines).filterMap
      (fun t => CutPrefixInString t "address-set ".toList)
    description := (((addressSetTails name lines).filterMap
      (fun t => CutPrefixInString t "description ".toList)).map
        (fun v => Trim v (Char.ofNat 34))).getLast?.getD [] }

/-- What one line of the output does to the list `confRead.addressSet`. -/
def addressSetStep (addressSet : List addressBookAddressSet) (item : Str) :
    List addressBookAddressSet :=
  match addressSetLine item with
  | some rest => readSecurityAddressBook.addressSet rest addressSet
  | none => addressSet

/-- The list `addressSet` holds one block per name of the lines `address-set
<name> ...` among `lines`, and nothing else: no two elements have the same
name, each element is the block that the lines of its name describe, and each
name of a line has its block. -/
def addressSetsOfLines (lines : List Str) (addressSet : List addressBookAddressSet) : Prop :=
  (addressSet.map (fun e => e.name)).Nodup ∧
  (∀ e ∈ addressSet, addressSetTails e.name lines ≠ [] ∧ e = addressSetOf e.name lines) ∧
  (∀ name, addressSetTails name lines ≠ [] → addressSetOf name lines ∈ addressSet)

/-- The lines of a reply that the loop of a `read` function hands to its switch:
the lines before the first line that holds the end tag and not the start tag,
without the lines that hold the start tag. -/
def linesRead (lines : List Str) : List Str :=
  (lines.takeWhile
    (fun item => Contains item XMLStartTagConfigOut || !Contains item XMLEndTagConfigOut)).filter
    (fun item => !Contains item XMLStartTagConfigOut)

/-! ## Inputs of the witnesses and counterexamples -/

/-- A policer with both blocks. -/
def examplePolicer : firewallPolicerData :=
  { Name := .known "testacc_fwPolic".toList
    FilterSpecific := .known true
    IfExceeding := some { BurstSizeLimit := .known "50k".toList, BandwidthPercent := .known 20 }
    Then := some { ForwardingClass := .known "best-effort".toList,
                   LossPriority := .known "high".toList, OutOfProfile := .known true } }

/-- A generate route with most of its attributes set. -/
def exampleGenerateRoute : generateRouteResourceData :=
  { destination := "192.0.2.0/24".toList
    active := true
    as_path_aggregator_address := "192.0.2.1".toList
    as_path_aggregator_as_number := "65000".toList
    as_path_atomic_aggregate := true
    as_path_origin := "igp".toList
    as_path_path := "65000 65001".toList
    brief := true
    community := ["no-advertise".toList, "no-export".toList]
    metric := 100
    next_table := "testacc.inet.0".toList
    policy := ["testacc_generateRoute".toList]
    preference := 150 }

/-- A generate route with a negative metric, which the schema (`TypeInt`
without validator) accepts. -/
def exampleGenerateRouteNegativeMetric : generateRouteResourceData :=
  { destination := "192.0.2.0/24".toList, active := true, metric := -1 }

/-- The block `vpn_monitor` of `exampleIpsecVpnPlan`. -/
def exampleIpsecVpnMonitor : securityIpsecVpnVpnMonitor :=
  { SourceInterfaceAuto := .known true, DestinationIP := .known "192.0.2.1".toList,
    SourceInterface := .unknown }

/-- A planned IPsec VPN bound to `st0.1` whose monitor computes its source interface. -/
def exampleIpsecVpnPlan : securityIpsecVpnData :=
  { Name := .known "testacc_ipsecvpn".toList, BindInterface := .known "st0.1".toList,
    VpnMonitor := some exampleIpsecVpnMonitor }

/-- A stand-in for `regexp.Compile` on patterns without metacharacters: the
expression matches the strings that contain the pattern, and the pattern `(`
does not compile. -/
def exampleCompile (pattern : Str) : Except String (Str → Bool) :=
  if pattern = "(".toList then .error "missing closing )"
  else .ok (fun s => Contains s pattern)

/-- A configuration of the data source: the name matches `ge-`, admin status up. -/
def exampleInterfacesConfig : interfacesPhysicalPresentDataSourceConfig :=
  { MatchName := .known "ge-".toList, MatchAdminUp := .known true }

/-- A reply of three interfaces, with the line feeds that the device puts around the values. -/
def exampleInterfacesReply : List PhysicalInterface :=
  [{ Name := "\nge-0/0/0\n".toList, AdminStatus := "\nup\n".toList, OperStatus := "\ndown\n".toList },
   { Name := "\nxe-0/0/1\n".toList, AdminStatus := "\nup\n".toList, OperStatus := "\nup\n".toList },
   { Name := "\nge-0/0/2\n".toList, AdminStatus := "\ndown\n".toList, OperStatus := "\nup\n".toList }]

/-- A session whose hardware model was read. -/
def exampleSession : Session := { HardwareModel := "vSRX".toList }

/-- Answers to the calls of `resourceGenerateRouteCreate` in which everything
succeeds up to the commit, which returns an error. -/
def exampleCreateCommitFails : generateRouteCreateAnswers :=
  { netconfNewSession := .ok exampleSession
    CommitConf := (["warning: statement ignored"], some "commit failed")
    ConfigClear := [] }

/-- A BGP neighbor with group `g` and ip `1.2.3.4` in the default routing
instance, with `passive = true`. -/
def exampleBgpPassive : bgpNeighborData :=
  { Group := .known "g".toList, IP := .known "1.2.3.4".toList, Passive := .known true }

/-- The planned BGP neighbor of the acceptance test, for its metric attributes:
`metric_out_igp` is computed, the offset is -10 and the delay is set. -/
def exampleBgpPlan : bgpNeighborData :=
  { Group := .known "testacc_bgpneighbor".toList, IP := .known "192.0.2.4".toList,
    RoutingInstance := .known "testacc_bgpneighbor".toList,
    AdvertiseExternal := .unknown, MetricOutMinimumIgp := .unknown,
    MetricOutIgp := .unknown, MetricOutIgpDelayMedUpdate := .known true,
    MetricOutIgpOffset := .known (-10) }

/-- A stand-in for `tfdata.JunosDecode`: the text is kept as it is. -/
def exampleJunosDecode (s : Str) : Except String (TFValue Str) := .ok (.known s)

/-- A stand-in for the `read` methods of the blocks: no error. -/
def exampleBlockRead (_ : String) (_ : Str) : Option String := none

/-- The address book `global` attached to a zone, with two network addresses of
the same name. -/
def exampleAddressBookGlobalAttached : securityAddressBookResourceData :=
  { name := "global".toList
    attach_zone := ["trust".toList]
    network_address := [{ name := "a".toList, value := "192.0.2.0/25".toList },
                        { name := "a".toList, value := "192.0.2.128/25".toList }] }

/-- An address book with a network address and an address set of the same name. -/
def exampleAddressBookSameName : securityAddressBookResourceData :=
  { name := "testacc".toList
    network_address := [{ name := "a".toList, value := "192.0.2.0/25".toList }]
    address_set := [{ name := "a".toList, address := ["a".toList] }] }

/-- A reply with the lines of two address sets mixed, between the two tags. -/
def exampleAddressBookReply : Str :=
  ("<configuration-output>\n" ++
   "set address-set s1 address a1\n" ++
   "set address-set s2 address a2\n" ++
   "set address-set s1 description \"first set\"\n" ++
   "set address-set s1 address-set s2\n" ++
   "set address-set s1 address a3").toList

/-- A reply in which a line of an address set comes after the end tag. -/
def exampleAddressBookReplyAfterEndTag : Str :=
  ("set address-set s1 address a1\n" ++
   "</configuration-output>\n" ++
   "set address-set s1 address a3").toList

end Junos

/-! # Theorems -/

namespace Junos

/-! ## Splitting a reply into lines -/

theorem splitGo_singleton (c : Char) (s : Str) :
    splitGo [c] 0 s = s.splitOnP (· == c) := by
  induction s with
  | nil => simp [splitGo]
  | cons x xs ih =>
    rw [List.splitOnP_cons, splitGo]
    by_cases h : x = c
    · subst h
      simp [ih]
    · have h2 : ¬ c = x := fun hc => h hc.symm
      simp [h, h2, ih]

theorem Split_Join_LF (ls : List Str) (hne : ls ≠ [])
    (hlf : ∀ l ∈ ls, Char.ofNat 10 ∉ l) : Split (Join ls LF) LF = ls := by
  have h := List.splitOn_intercalate _ (Char.ofNat 10) hlf hne
  simp only [Split, LF, Join, List.isEmpty_cons, Bool.false_eq_true, if_false, splitGo_singleton]
  exact h

/-! ## Tags inside a line -/

theorem isPrefixOf_append_cons_of_not_mem (tag w r : Str) (q : Char) (hq : q ∉ tag) :
    tag.isPrefixOf (w ++ q :: r) = tag.isPrefixOf w := by
  induction tag generalizing w with
  | nil => simp
  | cons a t ih =>
    have haq : ¬ a = q := fun h => hq (by simp [h])
    have ht : q ∉ t := fun h => hq (List.mem_cons_of_mem _ h)
    cases w with
    | nil => simp [List.isPrefixOf, haq]
    | cons b w1 => simp [List.isPrefixOf, ih w1 ht]

theorem Contains_append_cons (s1 s2 tag : Str) (q : Char) (hne : tag ≠ []) (hq : q ∉ tag) :
    Contains (s1 ++ q :: s2) tag = (Contains s1 tag || Contains s2 tag) := by
  induction s1 with
  | nil =>
    cases tag with
    | nil => exact absurd rfl hne
    | cons a t =>
      have haq : ¬ a = q := fun h => hq (by simp [h])
      simp [Contains, List.isPrefixOf, haq]
  | cons x xs ih =>
    have h := isPrefixOf_append_cons_of_not_mem tag (x :: xs) s2 q hq
    simp only [List.cons_append] at h ⊢
    simp [Contains, ih, h, Bool.or_assoc]

theorem Contains_append_left (p s t : Str) (c : Char) (hc : c ∉ p) :
    Contains (p ++ s) (c :: t) = Contains s (c :: t) := by
  induction p with
  | nil => rfl
  | cons x xs ih =>
    have hx : ¬ c = x := fun h => hc (by simp [h])
    have hxs : c ∉ xs := fun h => hc (List.mem_cons_of_mem _ h)
    simp [Contains, List.isPrefixOf, hx, ih hxs]

theorem Contains_of_not_mem (s t : Str) (c : Char) (hc : c ∉ s) :
    Contains s (c :: t) = false := by
  have := Contains_append_left s [] t c hc
  simpa using this

theorem cleanValue_iff (v : Str) :
    cleanValue v = true ↔
      Char.ofNat 10 ∉ v ∧ Contains v XMLStartTagConfigOut = false ∧
        Contains v XMLEndTagConfigOut = false := by
  simp [cleanValue, and_assoc]

/-! ## The loop over the lines of a reply -/

theorem TrimPrefix_SetLS (b : Str) : TrimPrefix (SetLS ++ b) SetLS = b := by
  simp [TrimPrefix, HasPrefix, SetLS]

theorem forEachConfigLine_line {σ : Type} (step : Str → σ → σ × Option String)
    (b : Str) (rest : List Str) (st : σ)
    (hs : Contains b XMLStartTagConfigOut = false) (he : Contains b XMLEndTagConfigOut = false) :
    forEachConfigLine step ((SetLS ++ b) :: rest) st =
      match step b st with
      | (st1, some e) => (st1, some e)
      | (st1, none) => forEachConfigLine step rest st1 := by
  have h1 : Contains (SetLS ++ b) XMLStartTagConfigOut = false := by
    rw [← hs]; exact Contains_append_left SetLS b _ _ (by decide)
  have h2 : Contains (SetLS ++ b) XMLEndTagConfigOut = false := by
    rw [← he]; exact Contains_append_left SetLS b _ _ (by decide)
  rw [forEachConfigLine]
  simp only [h1, h2, Bool.false_eq_true, if_false, TrimPrefix_SetLS]

/-! ## Decimal conversion: `Atoi` reads back what `Itoa` writes -/

theorem digitVal_ofNat (d : Nat) (hd : d < 10) : digitVal (Char.ofNat (48 + d)) = some d := by
  interval_cases d <;> rfl

theorem parseDigits_append (xs ys : Str) (acc : Nat) :
    parseDigits (xs ++ ys) acc = (parseDigits xs acc).bind (fun v => parseDigits ys v) := by
  induction xs generalizing acc with
  | nil => rfl
  | cons x xs ih =>
    simp only [List.cons_append, parseDigits]
    cases digitVal x with
    | none => rfl
    | some d => exact ih _

theorem parseDigits_natDigits (fuel n : Nat) (h : n < fuel) :
    parseDigits (natDigits fuel n) 0 = some n := by
  induction fuel generalizing n with
  | zero => omega
  | succ fuel ih =>
    rw [natDigits]
    by_cases h10 : n < 10
    · simp [h10, parseDigits, digitVal_ofNat n h10]
    · have hdiv : n / 10 < fuel := by omega
      have hmod : n % 10 < 10 := Nat.mod_lt _ (by decide)
      simp only [h10, if_false, parseDigits_append, ih _ hdiv, Option.some_bind, parseDigits,
        digitVal_ofNat _ hmod]
      congr 1
      omega

theorem natDigits_digit (fuel n : Nat) :
    ∀ c ∈ natDigits fuel n, ∃ d, d < 10 ∧ c = Char.ofNat (48 + d) := by
  induction fuel generalizing n with
  | zero => intro c hc; simp [natDigits] at hc
  | succ fuel ih =>
    intro c hc
    rw [natDigits] at hc
    by_cases h10 : n < 10
    · simp only [h10, if_true, List.mem_singleton] at hc
      exact ⟨n, h10, hc⟩
    · simp only [h10, if_false, List.mem_append, List.mem_singleton] at hc
      rcases hc with hc | hc
      · exact ih _ c hc
      · exact ⟨n % 10, Nat.mod_lt _ (by decide), hc⟩

theorem natToStr_cons (n : Nat) :
    ∃ c cs, natToStr n = c :: cs ∧ ∃ d, d < 10 ∧ c = Char.ofNat (48 + d) := by
  have hne : natToStr n ≠ [] := by
    unfold natToStr
    rw [natDigits]
    split <;> simp
  cases h : natToStr n with
  | nil => exact absurd h hne
  | cons c cs =>
    refine ⟨c, cs, rfl, ?_⟩
    have := natDigits_digit (n + 1) n c
    unfold natToStr at h
    rw [h] at this
    exact this (List.mem_cons_self _ _)

theorem Atoi_natToStr (n : Nat) (h : inInt64 (n : Int)) : Atoi (natToStr n) = .ok (n : Int) := by
  obtain ⟨c, cs, hcs, d, hd, hc⟩ := natToStr_cons n
  have hparse : parseDigits (c :: cs) 0 = some n := by
    rw [← hcs]; exact parseDigits_natDigits (n + 1) n (Nat.lt_succ_self n)
  have h45 : c ≠ Char.ofNat 45 := by subst hc; interval_cases d <;> decide
  have h43 : c ≠ Char.ofNat 43 := by subst hc; interval_cases d <;> decide
  rw [hcs]
  simp [Atoi, h45, h43, hparse, h]

theorem Atoi_Itoa (i : Int) (h : inInt64 i) : Atoi (Itoa i) = .ok i := by
  unfold Itoa
  by_cases hneg : i < 0
  · obtain ⟨c, cs, hcs, d, hd, hc⟩ := natToStr_cons i.natAbs
    have hparse : parseDigits (c :: cs) 0 = some i.natAbs := by
      rw [← hcs]; exact parseDigits_natDigits _ _ (Nat.lt_succ_self _)
    have hval : -((i.natAbs : Nat) : Int) = i := by omega
    have habs : -|i| = i := by rw [abs_of_neg hneg, neg_neg]
    simp only [hneg, if_true, hcs, Atoi, hparse]
    simp [habs, h]
  · have hval : ((i.natAbs : Nat) : Int) = i := by omega
    simp only [hneg, if_false]
    have := Atoi_natToStr i.natAbs (by rw [hval]; exact h)
    rw [this, hval]

theorem Itoa_char (i : Int) :
    ∀ c ∈ Itoa i, c = Char.ofNat 45 ∨ ∃ d, d < 10 ∧ c = Char.ofNat (48 + d) := by
  intro c hc
  unfold Itoa at hc
  split at hc
  · rcases List.mem_cons.mp hc with hc | hc
    · exact Or.inl hc
    · exact Or.inr (natDigits_digit _ _ c hc)
  · exact Or.inr (natDigits_digit _ _ c hc)

theorem Itoa_not_mem (i : Int) (q : Char) (hq : q = Char.ofNat 10 ∨ q = Char.ofNat 60) :
    q ∉ Itoa i := by
  intro hmem
  rcases Itoa_char i q hmem with h | ⟨d, hd, h⟩
  · rcases hq with hq | hq <;> (rw [hq] at h; revert h; decide)
  · rcases hq with hq | hq <;> (rw [hq] at h; revert h; interval_cases d <;> decide)

theorem Itoa_clean (i : Int) : cleanValue (Itoa i) = true := by
  rw [cleanValue_iff]
  refine ⟨Itoa_not_mem i _ (Or.inl rfl), ?_, ?_⟩
  · exact Contains_of_not_mem _ _ _ (Itoa_not_mem i _ (Or.inr rfl))
  · exact Contains_of_not_mem _ _ _ (Itoa_not_mem i _ (Or.inr rfl))


/-! ## The reply for a set of lines -/

theorem reply_lines (bodies : List Str) (hne : bodies ≠ [])
    (hlf : ∀ b ∈ bodies, Char.ofNat 10 ∉ b) :
    Join (bodies.map (fun b => SetLS ++ b)) LF ≠ EmptyW ∧
      Split (Join (bodies.map (fun b => SetLS ++ b)) LF) LF =
        bodies.map (fun b => SetLS ++ b) := by
  have hsplit : Split (Join (bodies.map (fun b => SetLS ++ b)) LF) LF =
      bodies.map (fun b => SetLS ++ b) := by
    apply Split_Join_LF
    · simpa using hne
    · intro l hl
      obtain ⟨b, hb, rfl⟩ := List.mem_map.mp hl
      have := hlf b hb
      simp only [SetLS, List.mem_append, not_or]
      exact ⟨by decide, this⟩
  refine ⟨?_, hsplit⟩
  intro h
  rw [h] at hsplit
  have he : Split EmptyW LF = [EmptyW] := by decide
  rw [he] at hsplit
  cases bodies with
  | nil => exact hne rfl
  | cons b bs =>
    simp only [List.map_cons, List.cons.injEq] at hsplit
    have h1 := hsplit.1
    simp [EmptyW, SetLS] at h1

theorem displaySetRelative_map (pre : Str) (bodies : List Str) :
    displaySetRelative pre (bodies.map (fun b => pre ++ b)) =
      Join (bodies.map (fun b => SetLS ++ b)) LF := by
  simp [displaySetRelative, List.map_map, Function.comp_def]

theorem forEachConfigLine_step {σ : Type} (step : Str → σ → σ × Option String)
    (b : Str) (rest : List Str) (st st1 : σ)
    (hclean : Contains b XMLStartTagConfigOut = false ∧ Contains b XMLEndTagConfigOut = false)
    (hstep : step b st = (st1, none)) :
    forEachConfigLine step ((SetLS ++ b) :: rest) st = forEachConfigLine step rest st1 := by
  rw [forEachConfigLine_line step b rest st hclean.1 hclean.2, hstep]

theorem tagFree_literal_append (lit v : Str) (hlit : Char.ofNat 60 ∉ lit)
    (hv : cleanValue v = true) :
    Contains (lit ++ v) XMLStartTagConfigOut = false ∧
      Contains (lit ++ v) XMLEndTagConfigOut = false := by
  have h := (cleanValue_iff v).mp hv
  constructor
  · rw [← h.2.1]; exact Contains_append_left lit v _ _ hlit
  · rw [← h.2.2]; exact Contains_append_left lit v _ _ hlit

theorem lineFeedFree_literal_append (lit v : Str) (hlit : Char.ofNat 10 ∉ lit)
    (hv : cleanValue v = true) : Char.ofNat 10 ∉ lit ++ v := by
  have h := (cleanValue_iff v).mp hv
  simp only [List.mem_append, not_or]
  exact ⟨hlit, h.1⟩

theorem forEachConfigLine_cond {σ : Type} (step : Str → σ → σ × Option String)
    (c : Prop) [Decidable c] (body : Str) (rest : List Str) (st st1 : σ)
    (hclean : c → Contains body XMLStartTagConfigOut = false ∧
      Contains body XMLEndTagConfigOut = false)
    (hstep : c → step body st = (st1, none)) :
    forEachConfigLine step
        (List.map (fun b => SetLS ++ b) (if c then [body] else []) ++ rest) st =
      forEachConfigLine step rest (if c then st1 else st) := by
  by_cases h : c
  · simp only [h, if_true, List.map_cons, List.map_nil, List.cons_append, List.nil_append]
    exact forEachConfigLine_step _ _ _ _ _ (hclean h) (hstep h)
  · simp [h]

theorem forEachConfigLine_flag {σ : Type} (step : Str → σ → σ × Option String)
    (flag : Bool) (body : Str) (rest : List Str) (st st1 : σ)
    (hclean : Contains body XMLStartTagConfigOut = false ∧
      Contains body XMLEndTagConfigOut = false)
    (hstep : step body st = (st1, none)) :
    forEachConfigLine step
        (List.map (fun b => SetLS ++ b) (if flag = true then [body] else []) ++ rest) st =
      forEachConfigLine step rest (if flag = true then st1 else st) :=
  forEachConfigLine_cond step (flag = true) body rest st st1 (fun _ => hclean) (fun _ => hstep)

theorem forEachConfigLine_text {σ : Type} (step : Str → σ → σ × Option String)
    (v lit : Str) (hlit : Char.ofNat 60 ∉ lit) (rest : List Str)
    (st st1 : σ) (hv : v = [] ∨ cleanValue v = true)
    (hstep : step (lit ++ v) st = (st1, none)) :
    forEachConfigLine step
        (List.map (fun b => SetLS ++ b) (if v ≠ [] then [lit ++ v] else []) ++ rest) st =
      forEachConfigLine step rest (if v ≠ [] then st1 else st) :=
  forEachConfigLine_cond step (v ≠ []) (lit ++ v) rest st st1
    (fun h => tagFree_literal_append lit v hlit (hv.resolve_left h)) (fun _ => hstep)

theorem forEachConfigLine_list {σ : Type} (step : Str → σ → σ × Option String)
    (lit : Str) (hlit : Char.ofNat 60 ∉ lit) (upd : σ → Str → σ)
    (hstep : ∀ v st, step (lit ++ v) st = (upd st v, none))
    (vs : List Str) (hclean : ∀ v ∈ vs, cleanValue v = true) (rest : List Str) (st : σ) :
    forEachConfigLine step
        (List.map (fun b => SetLS ++ b) (vs.map (fun v => lit ++ v)) ++ rest) st =
      forEachConfigLine step rest (vs.foldl upd st) := by
  induction vs generalizing st with
  | nil => simp
  | cons v vs ih =>
    have hv := hclean v (List.mem_cons_self _ _)
    have hvs : ∀ x ∈ vs, cleanValue x = true :=
      fun x hx => hclean x (List.mem_cons_of_mem _ hx)
    simp only [List.map_cons, List.cons_append, List.foldl_cons]
    rw [forEachConfigLine_step _ _ _ _ _ (tagFree_literal_append lit v hlit hv) (hstep v st)]
    exact ih hvs _

theorem mem_flag_line {x body : Str} {flag : Bool}
    (h : x ∈ (if flag = true then [body] else [])) : x = body := by
  cases flag
  · simp at h
  · simpa using h

theorem mem_cond_line {x body : Str} {c : Prop} [Decidable c]
    (h : x ∈ (if c then [body] else [])) : c ∧ x = body := by
  by_cases hc : c
  · exact ⟨hc, by simpa [hc] using h⟩
  · simp [hc] at h

theorem mem_text_line {x lit v : Str}
    (h : x ∈ (if v ≠ [] then [lit ++ v] else [])) : v ≠ [] ∧ x = lit ++ v :=
  mem_cond_line h

theorem tagFree_append_left (lit s : Str) (hlit : Char.ofNat 60 ∉ lit)
    (hs : Contains s XMLStartTagConfigOut = false ∧ Contains s XMLEndTagConfigOut = false) :
    Contains (lit ++ s) XMLStartTagConfigOut = false ∧
      Contains (lit ++ s) XMLEndTagConfigOut = false := by
  constructor
  · rw [← hs.1]; exact Contains_append_left lit s _ _ hlit
  · rw [← hs.2]; exact Contains_append_left lit s _ _ hlit

theorem tagFree_append_cons (s1 s2 : Str) (q : Char)
    (hq1 : q ∉ XMLStartTagConfigOut) (hq2 : q ∉ XMLEndTagConfigOut)
    (h1 : Contains s1 XMLStartTagConfigOut = false ∧ Contains s1 XMLEndTagConfigOut = false)
    (h2 : Contains s2 XMLStartTagConfigOut = false ∧ Contains s2 XMLEndTagConfigOut = false) :
    Contains (s1 ++ q :: s2) XMLStartTagConfigOut = false ∧
      Contains (s1 ++ q :: s2) XMLEndTagConfigOut = false := by
  constructor
  · rw [Contains_append_cons s1 s2 _ q (by decide) hq1, h1.1, h2.1]; rfl
  · rw [Contains_append_cons s1 s2 _ q (by decide) hq2, h1.2, h2.2]; rfl


/-! ## Generate route: set then read -/

theorem Split_space_two (n a : Str) (hn : Char.ofNat 32 ∉ n) (ha : Char.ofNat 32 ∉ a) :
    Split (n ++ " ".toList ++ a) " ".toList = [n, a] := by
  have h1 : (n ++ Char.ofNat 32 :: a).splitOnP (· == Char.ofNat 32) =
      n :: a.splitOnP (· == Char.ofNat 32) :=
    List.splitOnP_first _ n (fun x hx hp => hn (by simpa using (beq_iff_eq.mp hp) ▸ hx))
      (Char.ofNat 32) (by simp) a
  have h2 : a.splitOnP (· == Char.ofNat 32) = [a] :=
    List.splitOnP_eq_single _ a (fun x hx hp => ha (by simpa using (beq_iff_eq.mp hp) ▸ hx))
  have hsp : " ".toList = [Char.ofNat 32] := rfl
  rw [hsp]
  simp only [Split, List.isEmpty_cons, Bool.false_eq_true, if_false, splitGo_singleton,
    List.append_assoc, List.singleton_append]
  rw [h1, h2]

theorem Trim_quoted (v : Str) (hhead : v.head? ≠ some (Char.ofNat 34))
    (hlast : v.getLast? ≠ some (Char.ofNat 34)) :
    Trim ("\"".toList ++ v ++ "\"".toList) (Char.ofNat 34) = v := by
  have hq : "\"".toList = [Char.ofNat 34] := rfl
  rw [hq]
  cases v with
  | nil => simp [Trim]
  | cons x xs =>
    have hx : ¬ x = Char.ofNat 34 := fun h => hhead (by simp [h])
    have h1 : List.dropWhile (· == Char.ofNat 34) ([Char.ofNat 34] ++ (x :: xs) ++ [Char.ofNat 34])
        = x :: xs ++ [Char.ofNat 34] := by
      have hxb : (x == Char.ofNat 34) = false := by simp [hx]
      simp [List.dropWhile, hxb]
    rw [Trim, h1]
    have h2 : (x :: xs ++ [Char.ofNat 34]).reverse = Char.ofNat 34 :: (x :: xs).reverse := by
      simp
    rw [h2]
    cases hr : (x :: xs).reverse with
    | nil => simp at hr
    | cons y ys =>
      have hy : ¬ y = Char.ofNat 34 := by
        intro h
        apply hlast
        rw [← List.head?_reverse, hr, h]
        rfl
      have h3 : List.dropWhile (· == Char.ofNat 34) (Char.ofNat 34 :: y :: ys) = y :: ys := by
        have hyb : (y == Char.ofNat 34) = false := by simp [hy]
        simp [List.dropWhile, hyb]
      rw [h3, ← hr, List.reverse_reverse]

theorem readGenerateRouteItem_active (st : generateRouteOptions) :
    readGenerateRouteItem "active".toList st = ({ st with active := true }, none) := by
  simp [readGenerateRouteItem]

theorem readGenerateRouteItem_aggregator (n a : Str) (hn : Char.ofNat 32 ∉ n)
    (ha : Char.ofNat 32 ∉ a) (st : generateRouteOptions) :
    readGenerateRouteItem ("as-path aggregator ".toList ++ n ++ " ".toList ++ a) st =
      ({ st with asPathAggregatorAsNumber := n, asPathAggregatorAddress := a }, none) := by
  have h := Split_space_two n a hn ha
  have hcut : CutPrefixInString ("as-path aggregator ".toList ++ n ++ " ".toList ++ a)
      "as-path aggregator ".toList = some (n ++ " ".toList ++ a) := by
    simp [CutPrefixInString, HasPrefix, TrimPrefix, List.append_assoc]
  have hne : ¬ ("as-path aggregator ".toList ++ n ++ " ".toList ++ a = "active".toList) := by
    simp
  unfold readGenerateRouteItem
  rw [if_neg hne, hcut]
  simp only [h]

theorem readGenerateRouteItem_atomic (st : generateRouteOptions) :
    readGenerateRouteItem "as-path atomic-aggregate".toList st =
      ({ st with asPathAtomicAggregate := true }, none) := by
  simp [readGenerateRouteItem, CutPrefixInString, HasPrefix]

theorem readGenerateRouteItem_origin (v : Str) (st : generateRouteOptions) :
    readGenerateRouteItem ("as-path origin ".toList ++ v) st =
      ({ st with asPathOrigin := v }, none) := by
  simp [readGenerateRouteItem, CutPrefixInString, HasPrefix, TrimPrefix]

theorem readGenerateRouteItem_path (v : Str) (hhead : v.head? ≠ some (Char.ofNat 34))
    (hlast : v.getLast? ≠ some (Char.ofNat 34)) (st : generateRouteOptions) :
    readGenerateRouteItem ("as-path path \"".toList ++ v ++ "\"".toList) st =
      ({ st with asPathPath := v }, none) := by
  have h := Trim_quoted v hhead hlast
  have hq : "\"".toList = [Char.ofNat 34] := rfl
  rw [hq] at h
  simp [readGenerateRouteItem, CutPrefixInString, HasPrefix, TrimPrefix]
  simpa using h

theorem readGenerateRouteItem_brief (st : generateRouteOptions) :
    readGenerateRouteItem "brief".toList st = ({ st with brief := true }, none) := by
  simp [readGenerateRouteItem, CutPrefixInString, HasPrefix]

theorem readGenerateRouteItem_community (v : Str) (st : generateRouteOptions) :
    readGenerateRouteItem ("community ".toList ++ v) st =
      ({ st with community := st.community ++ [v] }, none) := by
  simp [readGenerateRouteItem, CutPrefixInString, HasPrefix, TrimPrefix]

theorem readGenerateRouteItem_discard (st : generateRouteOptions) :
    readGenerateRouteItem "discard".toList st = ({ st with discard := true }, none) := by
  simp [readGenerateRouteItem, CutPrefixInString, HasPrefix, DiscardW]

theorem readGenerateRouteItem_full (st : generateRouteOptions) :
    readGenerateRouteItem "full".toList st = ({ st with full := true }, none) := by
  simp [readGenerateRouteItem, CutPrefixInString, HasPrefix, DiscardW]

theorem readGenerateRouteItem_metric (n : Int) (hn : inInt64 n) (st : generateRouteOptions) :
    readGenerateRouteItem ("metric ".toList ++ Itoa n) st = ({ st with metric := n }, none) := by
  simp [readGenerateRouteItem, CutPrefixInString, HasPrefix, TrimPrefix, DiscardW,
    Atoi_Itoa n hn]

theorem readGenerateRouteItem_next_table (v : Str) (st : generateRouteOptions) :
    readGenerateRouteItem ("next-table ".toList ++ v) st = ({ st with nextTable := v }, none) := by
  simp [readGenerateRouteItem, CutPrefixInString, HasPrefix, TrimPrefix, DiscardW]

theorem readGenerateRouteItem_passive (st : generateRouteOptions) :
    readGenerateRouteItem "passive".toList st = ({ st with passive := true }, none) := by
  simp [readGenerateRouteItem, CutPrefixInString, HasPrefix, DiscardW]

theorem readGenerateRouteItem_policy (v : Str) (st : generateRouteOptions) :
    readGenerateRouteItem ("policy ".toList ++ v) st =
      ({ st with policy := st.policy ++ [v] }, none) := by
  simp [readGenerateRouteItem, CutPrefixInString, HasPrefix, TrimPrefix, DiscardW]

theorem readGenerateRouteItem_preference (n : Int) (hn : inInt64 n)
    (st : generateRouteOptions) :
    readGenerateRouteItem ("preference ".toList ++ Itoa n) st =
      ({ st with preference := n }, none) := by
  simp [readGenerateRouteItem, CutPrefixInString, HasPrefix, TrimPrefix, DiscardW,
    Atoi_Itoa n hn]


theorem generateRouteConfigSet_map (pre : Str) (d : generateRouteResourceData) :
    generateRouteConfigSet pre d = (generateRouteConfigSet [] d).map (fun b => pre ++ b) := by
  simp only [generateRouteConfigSet, List.map_append, List.nil_append,
    apply_ite (List.map (fun b => pre ++ b)), List.map_cons, List.map_nil, List.append_assoc,
    List.map_map, Function.comp_def]

theorem generateRoute_line_active (flag : Bool) (rest : List Str) (st : generateRouteOptions) :
    forEachConfigLine readGenerateRouteItem
        (List.map (fun b => SetLS ++ b) (if flag = true then ["active".toList] else []) ++ rest)
        st =
      forEachConfigLine readGenerateRouteItem rest { st with active := st.active || flag } := by
  rw [forEachConfigLine_flag _ flag _ _ _ _ (by decide) (readGenerateRouteItem_active _)]
  cases flag <;> simp

theorem generateRoute_line_atomic (flag : Bool) (rest : List Str) (st : generateRouteOptions) :
    forEachConfigLine readGenerateRouteItem
        (List.map (fun b => SetLS ++ b)
          (if flag = true then ["as-path atomic-aggregate".toList] else []) ++ rest) st =
      forEachConfigLine readGenerateRouteItem rest
        { st with asPathAtomicAggregate := st.asPathAtomicAggregate || flag } := by
  rw [forEachConfigLine_flag _ flag _ _ _ _ (by decide) (readGenerateRouteItem_atomic _)]
  cases flag <;> simp

theorem generateRoute_line_brief (flag : Bool) (rest : List Str) (st : generateRouteOptions) :
    forEachConfigLine readGenerateRouteItem
        (List.map (fun b => SetLS ++ b) (if flag = true then ["brief".toList] else []) ++ rest)
        st =
      forEachConfigLine readGenerateRouteItem rest { st with brief := st.brief || flag } := by
  rw [forEachConfigLine_flag _ flag _ _ _ _ (by decide) (readGenerateRouteItem_brief _)]
  cases flag <;> simp

theorem generateRoute_line_discard (flag : Bool) (rest : List Str) (st : generateRouteOptions) :
    forEachConfigLine readGenerateRouteItem
        (List.map (fun b => SetLS ++ b) (if flag = true then ["discard".toList] else []) ++ rest)
        st =
      forEachConfigLine readGenerateRouteItem rest { st with discard := st.discard || flag } := by
  rw [forEachConfigLine_flag _ flag _ _ _ _ (by decide) (readGenerateRouteItem_discard _)]
  cases flag <;> simp

theorem generateRoute_line_full (flag : Bool) (rest : List Str) (st : generateRouteOptions) :
    forEachConfigLine readGenerateRouteItem
        (List.map (fun b => SetLS ++ b) (if flag = true then ["full".toList] else []) ++ rest)
        st =
      forEachConfigLine readGenerateRouteItem rest { st with full := st.full || flag } := by
  rw [forEachConfigLine_flag _ flag _ _ _ _ (by decide) (readGenerateRouteItem_full _)]
  cases flag <;> simp

theorem generateRoute_line_passive (flag : Bool) (rest : List Str) (st : generateRouteOptions) :
    forEachConfigLine readGenerateRouteItem
        (List.map (fun b => SetLS ++ b) (if flag = true then ["passive".toList] else []) ++ rest)
        st =
      forEachConfigLine readGenerateRouteItem rest { st with passive := st.passive || flag } := by
  rw [forEachConfigLine_flag _ flag _ _ _ _ (by decide) (readGenerateRouteItem_passive _)]
  cases flag <;> simp

theorem generateRoute_line_origin (v : Str) (hv : cleanValue v = true) (rest : List Str)
    (st : generateRouteOptions) :
    forEachConfigLine readGenerateRouteItem
        (List.map (fun b => SetLS ++ b)
          (if v ≠ [] then ["as-path origin ".toList ++ v] else []) ++ rest) st =
      forEachConfigLine readGenerateRouteItem rest
        { st with asPathOrigin := if v ≠ [] then v else st.asPathOrigin } := by
  rw [forEachConfigLine_text _ v _ (by decide) _ _ _ (Or.inr hv)
    (readGenerateRouteItem_origin _ _)]
  by_cases h : v = [] <;> simp [h]

theorem generateRoute_line_next_table (v : Str) (hv : cleanValue v = true) (rest : List Str)
    (st : generateRouteOptions) :
    forEachConfigLine readGenerateRouteItem
        (List.map (fun b => SetLS ++ b)
          (if v ≠ [] then ["next-table ".toList ++ v] else []) ++ rest) st =
      forEachConfigLine readGenerateRouteItem rest
        { st with nextTable := if v ≠ [] then v else st.nextTable } := by
  rw [forEachConfigLine_text _ v _ (by decide) _ _ _ (Or.inr hv)
    (readGenerateRouteItem_next_table _ _)]
  by_cases h : v = [] <;> simp [h]

theorem generateRoute_line_path (v : Str) (hv : cleanValue v = true)
    (hhead : v.head? ≠ some (Char.ofNat 34)) (hlast : v.getLast? ≠ some (Char.ofNat 34))
    (rest : List Str) (st : generateRouteOptions) :
    forEachConfigLine readGenerateRouteItem
        (List.map (fun b => SetLS ++ b)
          (if v ≠ [] then ["as-path path \"".toList ++ v ++ "\"".toList] else []) ++ rest) st =
      forEachConfigLine readGenerateRouteItem rest
        { st with asPathPath := if v ≠ [] then v else st.asPathPath } := by
  have hc := (cleanValue_iff v).mp hv
  have hclean : Contains ("as-path path \"".toList ++ v ++ "\"".toList) XMLStartTagConfigOut =
      false ∧ Contains ("as-path path \"".toList ++ v ++ "\"".toList) XMLEndTagConfigOut =
      false := by
    rw [List.append_assoc]
    exact tagFree_append_left _ _ (by decide)
      (tagFree_append_cons v [] (Char.ofNat 34) (by decide) (by decide) hc.2 (by decide))
  rw [forEachConfigLine_cond _ (v ≠ []) _ _ _ _ (fun _ => hclean)
    (fun _ => readGenerateRouteItem_path v hhead hlast _)]
  by_cases h : v = [] <;> simp [h]

theorem generateRoute_line_aggregator (n a : Str) (hn : cleanValue n = true)
    (ha : cleanValue a = true) (hns : Char.ofNat 32 ∉ n) (has : Char.ofNat 32 ∉ a)
    (rest : List Str) (st : generateRouteOptions) :
    forEachConfigLine readGenerateRouteItem
        (List.map (fun b => SetLS ++ b)
          (if a ≠ [] ∧ n ≠ [] then ["as-path aggregator ".toList ++ n ++ " ".toList ++ a]
            else []) ++ rest) st =
      forEachConfigLine readGenerateRouteItem rest
        { st with
          asPathAggregatorAsNumber := if a ≠ [] ∧ n ≠ [] then n else st.asPathAggregatorAsNumber
          asPathAggregatorAddress := if a ≠ [] ∧ n ≠ [] then a else st.asPathAggregatorAddress }
      := by
  have hcn := (cleanValue_iff n).mp hn
  have hca := (cleanValue_iff a).mp ha
  have hclean : Contains ("as-path aggregator ".toList ++ n ++ " ".toList ++ a)
      XMLStartTagConfigOut = false ∧
      Contains ("as-path aggregator ".toList ++ n ++ " ".toList ++ a) XMLEndTagConfigOut =
      false := by
    rw [List.append_assoc, List.append_assoc]
    exact tagFree_append_left _ _ (by decide)
      (tagFree_append_cons n a (Char.ofNat 32) (by decide) (by decide) hcn.2 hca.2)
  rw [forEachConfigLine_cond _ (a ≠ [] ∧ n ≠ []) _ _ _ _ (fun _ => hclean)
    (fun _ => readGenerateRouteItem_aggregator n a hns has _)]
  by_cases h : a ≠ [] ∧ n ≠ []
  · rw [if_pos h, if_pos h, if_pos h]
  · rw [if_neg h, if_neg h, if_neg h]

theorem generateRoute_line_metric (m : Int) (hm : inInt64 m) (rest : List Str)
    (st : generateRouteOptions) :
    forEachConfigLine readGenerateRouteItem
        (List.map (fun b => SetLS ++ b) (if m > 0 then ["metric ".toList ++ Itoa m] else []) ++
          rest) st =
      forEachConfigLine readGenerateRouteItem rest
        { st with metric := if m > 0 then m else st.metric } := by
  rw [forEachConfigLine_cond _ (m > 0) _ _ _ _
    (fun _ => tagFree_literal_append _ _ (by decide) (Itoa_clean m))
    (fun _ => readGenerateRouteItem_metric m hm _)]
  by_cases h : m > 0 <;> simp [h]

theorem generateRoute_line_preference (m : Int) (hm : inInt64 m) (rest : List Str)
    (st : generateRouteOptions) :
    forEachConfigLine readGenerateRouteItem
        (List.map (fun b => SetLS ++ b)
          (if m > 0 then ["preference ".toList ++ Itoa m] else []) ++ rest) st =
      forEachConfigLine readGenerateRouteItem rest
        { st with preference := if m > 0 then m else st.preference } := by
  rw [forEachConfigLine_cond _ (m > 0) _ _ _ _
    (fun _ => tagFree_literal_append _ _ (by decide) (Itoa_clean m))
    (fun _ => readGenerateRouteItem_preference m hm _)]
  by_cases h : m > 0 <;> simp [h]

theorem generateRoute_foldl_community (vs : List Str) (st : generateRouteOptions) :
    vs.foldl (fun s v => { s with community := s.community ++ [v] }) st =
      { st with community := st.community ++ vs } := by
  induction vs generalizing st with
  | nil => simp
  | cons v vs ih => simp [ih, List.append_assoc]

theorem generateRoute_foldl_policy (vs : List Str) (st : generateRouteOptions) :
    vs.foldl (fun s v => { s with policy := s.policy ++ [v] }) st =
      { st with policy := st.policy ++ vs } := by
  induction vs generalizing st with
  | nil => simp
  | cons v vs ih => simp [ih, List.append_assoc]

theorem generateRoute_lines_community (vs : List Str) (hvs : ∀ v ∈ vs, cleanValue v = true)
    (rest : List Str) (st : generateRouteOptions) :
    forEachConfigLine readGenerateRouteItem
        (List.map (fun b => SetLS ++ b) (vs.map (fun v => "community ".toList ++ v)) ++ rest)
        st =
      forEachConfigLine readGenerateRouteItem rest
        { st with community := st.community ++ vs } := by
  rw [forEachConfigLine_list readGenerateRouteItem "community ".toList (by decide)
    (fun s v => { s with community := s.community ++ [v] })
    (fun v s => readGenerateRouteItem_community v s) vs hvs, generateRoute_foldl_community]

theorem generateRoute_lines_policy (vs : List Str) (hvs : ∀ v ∈ vs, cleanValue v = true)
    (rest : List Str) (st : generateRouteOptions) :
    forEachConfigLine readGenerateRouteItem
        (List.map (fun b => SetLS ++ b) (vs.map (fun v => "policy ".toList ++ v)) ++ rest)
        st =
      forEachConfigLine readGenerateRouteItem rest { st with policy := st.policy ++ vs } := by
  rw [forEachConfigLine_list readGenerateRouteItem "policy ".toList (by decide)
    (fun s v => { s with policy := s.policy ++ [v] })
    (fun v s => readGenerateRouteItem_policy v s) vs hvs, generateRoute_foldl_policy]


theorem generateRoute_lineFeedFree (d : generateRouteResourceData)
    (hclean : cleanValue d.as_path_aggregator_address = true ∧
      cleanValue d.as_path_aggregator_as_number = true ∧
      cleanValue d.as_path_origin = true ∧ cleanValue d.as_path_path = true ∧
      cleanValue d.next_table = true ∧ (∀ c ∈ d.community, cleanValue c = true) ∧
      ∀ p ∈ d.policy, cleanValue p = true) :
    ∀ x ∈ generateRouteConfigSet [] d, Char.ofNat 10 ∉ x := by
  obtain ⟨ha, hn, ho, hp, ht, hc, hpo⟩ := hclean
  intro x hx
  simp only [generateRouteConfigSet, List.nil_append, List.mem_append, List.mem_map] at hx
  rcases hx with ((((((((((((hx | hx) | hx) | hx) | hx) | hx) | hx) | hx) | hx) | hx) | hx) |
    hx) | hx) | hx
  · rw [mem_flag_line hx]; decide
  · obtain ⟨_, rfl⟩ := mem_cond_line hx
    have h1 := ((cleanValue_iff _).mp hn).1
    have h2 := ((cleanValue_iff _).mp ha).1
    simp only [List.mem_append, not_or]
    exact ⟨⟨⟨by decide, h1⟩, by decide⟩, h2⟩
  · rw [mem_flag_line hx]; decide
  · obtain ⟨_, rfl⟩ := mem_text_line hx
    exact lineFeedFree_literal_append _ _ (by decide) ho
  · obtain ⟨_, rfl⟩ := mem_cond_line hx
    have h1 := ((cleanValue_iff _).mp hp).1
    simp only [List.mem_append, not_or]
    exact ⟨⟨by decide, h1⟩, by decide⟩
  · rw [mem_flag_line hx]; decide
  · obtain ⟨v, hv, rfl⟩ := hx
    exact lineFeedFree_literal_append _ _ (by decide) (hc v hv)
  · rw [mem_flag_line hx]; decide
  · rw [mem_flag_line hx]; decide
  · obtain ⟨_, rfl⟩ := mem_cond_line hx
    exact lineFeedFree_literal_append _ _ (by decide) (Itoa_clean _)
  · obtain ⟨_, rfl⟩ := mem_text_line hx
    exact lineFeedFree_literal_append _ _ (by decide) ht
  · rw [mem_flag_line hx]; decide
  · obtain ⟨v, hv, rfl⟩ := hx
    exact lineFeedFree_literal_append _ _ (by decide) (hpo v hv)
  · obtain ⟨_, rfl⟩ := mem_cond_line hx
    exact lineFeedFree_literal_append _ _ (by decide) (Itoa_clean _)

/-- C1 (amended). For every generate-route configuration that makes
`setGenerateRoute` emit at least one line, whose metric and preference are not
negative (and fit a 64-bit `int`), whose as_path_aggregator_address and
as_path_aggregator_as_number are both empty or both set and hold no space, whose
as_path_path neither starts nor ends with a double quote, and whose string
values hold no line feed and neither of the tags `<configuration-output>`,
`</configuration-output>`: reading the lines that `setGenerateRoute` emitted
returns no error and options equal to the configured attributes. -/
theorem generateRoute_set_read (d : generateRouteResourceData)
    (hlines : setGenerateRoute d ≠ [])
    (hmetric : 0 ≤ d.metric ∧ inInt64 d.metric)
    (hpref : 0 ≤ d.preference ∧ inInt64 d.preference)
    (hagg : (d.as_path_aggregator_address = [] ↔ d.as_path_aggregator_as_number = []) ∧
      Char.ofNat 32 ∉ d.as_path_aggregator_address ∧
      Char.ofNat 32 ∉ d.as_path_aggregator_as_number)
    (hpath : d.as_path_path.head? ≠ some (Char.ofNat 34) ∧
      d.as_path_path.getLast? ≠ some (Char.ofNat 34))
    (hclean : cleanValue d.as_path_aggregator_address = true ∧
      cleanValue d.as_path_aggregator_as_number = true ∧
      cleanValue d.as_path_origin = true ∧ cleanValue d.as_path_path = true ∧
      cleanValue d.next_table = true ∧ (∀ c ∈ d.community, cleanValue c = true) ∧
      ∀ p ∈ d.policy, cleanValue p = true) :
    (readGenerateRoute d.destination d.routing_instance
        (.ok (displaySetRelative (generateRouteSetPrefix d) (setGenerateRoute d)))).2 = none ∧
    fillGenerateRouteData
        (readGenerateRoute d.destination d.routing_instance
          (.ok (displaySetRelative (generateRouteSetPrefix d) (setGenerateRoute d)))).1 = d := by
  have hlf := generateRoute_lineFeedFree d hclean
  have hne : generateRouteConfigSet [] d ≠ [] := by
    intro h
    apply hlines
    rw [setGenerateRoute, generateRouteConfigSet_map, h]
    rfl
  obtain ⟨hnempty, hsplit⟩ := reply_lines _ hne hlf
  obtain ⟨ha, hn, ho, hp, ht, hc, hpo⟩ := hclean
  have hread : readGenerateRoute d.destination d.routing_instance
      (.ok (displaySetRelative (generateRouteSetPrefix d) (setGenerateRoute d))) =
      (({ destination := d.destination, routingInstance := d.routing_instance,
          active := d.active,
          asPathAggregatorAsNumber :=
            if d.as_path_aggregator_address ≠ [] ∧ d.as_path_aggregator_as_number ≠ [] then
              d.as_path_aggregator_as_number else [],
          asPathAggregatorAddress :=
            if d.as_path_aggregator_address ≠ [] ∧ d.as_path_aggregator_as_number ≠ [] then
              d.as_path_aggregator_address else [],
          asPathAtomicAggregate := d.as_path_atomic_aggregate,
          asPathOrigin := if d.as_path_origin ≠ [] then d.as_path_origin else [],
          asPathPath := if d.as_path_path ≠ [] then d.as_path_path else [],
          brief := d.brief,
          community := d.community,
          discard := d.discard,
          full := d.full,
          metric := if d.metric > 0 then d.metric else 0,
          nextTable := if d.next_table ≠ [] then d.next_table else [],
          passive := d.passive,
          policy := d.policy,
          preference := if d.preference > 0 then d.preference else 0 } :
            generateRouteOptions), none) := by
    unfold readGenerateRoute setGenerateRoute
    rw [generateRouteConfigSet_map, displaySetRelative_map]
    dsimp only
    rw [if_pos hnempty, hsplit]
    simp only [generateRouteConfigSet, List.nil_append, List.map_append, List.append_assoc]
    have hl2 := generateRoute_line_aggregator _ _ hn ha hagg.2.2 hagg.2.1
    have hl5 := generateRoute_line_path _ hp hpath.1 hpath.2
    have hl14 := generateRoute_line_preference _ hpref.2 []
    simp only [List.append_assoc] at hl2 hl5
    simp only [List.append_nil] at hl14
    rw [generateRoute_line_active]; dsimp only
    rw [hl2]; dsimp only
    rw [generateRoute_line_atomic]; dsimp only
    rw [generateRoute_line_origin _ ho]; dsimp only
    rw [hl5]; dsimp only
    rw [generateRoute_line_brief]; dsimp only
    rw [generateRoute_lines_community _ hc]; dsimp only
    rw [generateRoute_line_discard]; dsimp only
    rw [generateRoute_line_full]; dsimp only
    rw [generateRoute_line_metric _ hmetric.2]; dsimp only
    rw [generateRoute_line_next_table _ ht]; dsimp only
    rw [generateRoute_line_passive]; dsimp only
    rw [generateRoute_lines_policy _ hpo]; dsimp only
    rw [hl14]; dsimp only
    rw [forEachConfigLine]
    simp
  rw [hread]
  refine ⟨rfl, ?_⟩
  obtain ⟨dest, ri, act, agga, aggn, atom, orig, path, brief, comm, disc, full, metric, nt,
    pass, pol, pref⟩ := d
  simp only at hagg hmetric hpref
  have h1 : (if metric > 0 then metric else 0) = metric := by
    split
    · rfl
    · omega
  have h2 : (if pref > 0 then pref else 0) = pref := by
    split
    · rfl
    · omega
  have h3 : (if agga ≠ [] ∧ aggn ≠ [] then aggn else []) = aggn := by
    by_cases h : aggn = []
    · simp [h]
    · have : agga ≠ [] := fun ha0 => h (hagg.1.mp ha0)
      simp [h, this]
  have h4 : (if agga ≠ [] ∧ aggn ≠ [] then agga else []) = agga := by
    by_cases h : agga = []
    · simp [h]
    · have : aggn ≠ [] := fun hn0 => h (hagg.1.mpr hn0)
      simp [h, this]
  simp only [fillGenerateRouteData, h1, h2, h3, h4]
  simp


/-- Witness of C1 (amended) on a route with most of its attributes set. -/
theorem generateRoute_set_read_witness :
    setGenerateRoute exampleGenerateRoute ≠ [] ∧
    fillGenerateRouteData
        (readGenerateRoute exampleGenerateRoute.destination
          exampleGenerateRoute.routing_instance
          (.ok (displaySetRelative (generateRouteSetPrefix exampleGenerateRoute)
            (setGenerateRoute exampleGenerateRoute)))).1 = exampleGenerateRoute :=
  ⟨by decide,
    (generateRoute_set_read exampleGenerateRoute (by decide) (by decide) (by decide)
      (by decide) (by decide) (by decide)).2⟩

/-- C1 as stated fails: the schema accepts the route `192.0.2.0/24` of the
default routing instance with `active = true` and `metric = -1` (metric is a
`TypeInt` without validator); `setGenerateRoute` emits the line `active` but no
`metric` line for it, and `readGenerateRoute` returns metric 0 instead of -1. -/
theorem generateRoute_set_read_counterexample :
    validateNameObjectJunos [] 64 formatDefault
        exampleGenerateRouteNegativeMetric.routing_instance = [] ∧
    setGenerateRoute exampleGenerateRouteNegativeMetric =
      ["set routing-options generate route 192.0.2.0/24 active".toList] ∧
    (readGenerateRoute exampleGenerateRouteNegativeMetric.destination
        exampleGenerateRouteNegativeMetric.routing_instance
        (.ok (displaySetRelative (generateRouteSetPrefix exampleGenerateRouteNegativeMetric)
          (setGenerateRoute exampleGenerateRouteNegativeMetric)))).1.metric = 0 ∧
    fillGenerateRouteData
        (readGenerateRoute exampleGenerateRouteNegativeMetric.destination
          exampleGenerateRouteNegativeMetric.routing_instance
          (.ok (displaySetRelative (generateRouteSetPrefix exampleGenerateRouteNegativeMetric)
            (setGenerateRoute exampleGenerateRouteNegativeMetric)))).1 ≠
      exampleGenerateRouteNegativeMetric := by
  refine ⟨by decide, by decide, by decide, by decide⟩


/-! ## Firewall policer: set then read -/

theorem firewallPolicerData_configSet_map (pre : Str) (data : firewallPolicerData) :
    data.configSet pre = (data.configSet []).map (fun b => pre ++ b) := by
  obtain ⟨fs, id, nm, ie, th⟩ := data
  cases ie <;> cases th <;>
    simp only [firewallPolicerData.configSet, firewallPolicerBlockIfExceeding.configSet,
      firewallPolicerBlockThen.configSet, List.map_append, List.nil_append,
      apply_ite (List.map (fun b => pre ++ b)), List.map_cons, List.map_nil, List.append_assoc]

theorem readItem_filter_specific (st : firewallPolicerData) :
    firewallPolicerData.readItem "filter-specific".toList st =
      ({ st with FilterSpecific := .known true }, none) := by
  simp [firewallPolicerData.readItem]

theorem readItem_burst_size_limit (v : Str) (st : firewallPolicerData) :
    firewallPolicerData.readItem ("if-exceeding burst-size-limit ".toList ++ v) st =
      ({ st with
          IfExceeding := some { (st.IfExceeding.getD {}) with BurstSizeLimit := .known v } }, none) := by
  simp [firewallPolicerData.readItem, firewallPolicerData.readIfExceeding, CutPrefixInString,
    HasPrefix, TrimPrefix]

theorem readItem_bandwidth_percent (n : Int) (hn : inInt64 n) (st : firewallPolicerData) :
    firewallPolicerData.readItem
        ("if-exceeding bandwidth-percent ".toList ++ ConvI64toa n) st =
      ({ st with
          IfExceeding := some { (st.IfExceeding.getD {}) with BandwidthPercent := .known n } }, none) := by
  simp [firewallPolicerData.readItem, firewallPolicerData.readIfExceeding, CutPrefixInString,
    HasPrefix, TrimPrefix, ConvAtoi64Value, ConvI64toa, Atoi_Itoa n hn]

theorem readItem_bandwidth_limit (v : Str) (st : firewallPolicerData) :
    firewallPolicerData.readItem ("if-exceeding bandwidth-limit ".toList ++ v) st =
      ({ st with
          IfExceeding := some { (st.IfExceeding.getD {}) with BandwidthLimit := .known v } }, none) := by
  simp [firewallPolicerData.readItem, firewallPolicerData.readIfExceeding, CutPrefixInString,
    HasPrefix, TrimPrefix]

theorem readItem_then_discard (st : firewallPolicerData) :
    firewallPolicerData.readItem "then discard".toList st =
      ({ st with Then := some { (st.Then.getD {}) with Discard := .known true } }, none) := by
  simp [firewallPolicerData.readItem, firewallPolicerData.readThen, CutPrefixInString,
    HasPrefix, TrimPrefix]

theorem readItem_then_forwarding_class (v : Str) (st : firewallPolicerData) :
    firewallPolicerData.readItem ("then forwarding-class ".toList ++ v) st =
      ({ st with Then := some { (st.Then.getD {}) with ForwardingClass := .known v } }, none) := by
  simp [firewallPolicerData.readItem, firewallPolicerData.readThen, CutPrefixInString,
    HasPrefix, TrimPrefix]

theorem readItem_then_loss_priority (v : Str) (st : firewallPolicerData) :
    firewallPolicerData.readItem ("then loss-priority ".toList ++ v) st =
      ({ st with Then := some { (st.Then.getD {}) with LossPriority := .known v } }, none) := by
  simp [firewallPolicerData.readItem, firewallPolicerData.readThen, CutPrefixInString,
    HasPrefix, TrimPrefix]

theorem readItem_then_out_of_profile (st : firewallPolicerData) :
    firewallPolicerData.readItem "then out-of-profile".toList st =
      ({ st with Then := some { (st.Then.getD {}) with OutOfProfile := .known true } }, none) := by
  simp [firewallPolicerData.readItem, firewallPolicerData.readThen, CutPrefixInString,
    HasPrefix, TrimPrefix]

theorem firewallPolicer_filter_specific_lines (fs : TFValue Bool) (hfs : fs.nullOrTrue = true)
    (rest : List Str) (st : firewallPolicerData) (hst : st.FilterSpecific = .null) :
    forEachConfigLine firewallPolicerData.readItem
        (List.map (fun b => SetLS ++ b)
          (if fs.ValueBool = true then ["filter-specific".toList] else []) ++ rest) st =
      forEachConfigLine firewallPolicerData.readItem rest { st with FilterSpecific := fs } := by
  obtain ⟨f0, i0, n0, e0, t0⟩ := st
  simp only at hst
  subst hst
  cases fs with
  | null => simp [TFValue.ValueBool]
  | unknown => simp [TFValue.nullOrTrue] at hfs
  | known b =>
    cases b
    · simp [TFValue.nullOrTrue] at hfs
    · simp only [TFValue.ValueBool, if_true, List.map_cons, List.map_nil, List.cons_append,
        List.nil_append]
      rw [forEachConfigLine_step _ _ _ _ _ (by decide) (readItem_filter_specific _)]

theorem firewallPolicer_if_exceeding_lines (block : firewallPolicerBlockIfExceeding)
    (hb : ∃ b, block.BurstSizeLimit = .known b ∧ cleanValue b = true)
    (hp : block.BandwidthPercent.nullOrInt64 = true)
    (hl : block.BandwidthLimit.nullOrCleanText = true)
    (rest : List Str) (st : firewallPolicerData) (hst : st.IfExceeding = none) :
    forEachConfigLine firewallPolicerData.readItem
        (List.map (fun b => SetLS ++ b) (block.configSet []) ++ rest) st =
      forEachConfigLine firewallPolicerData.readItem rest { st with IfExceeding := some block } := by
  obtain ⟨f0, i0, n0, e0, t0⟩ := st
  simp only at hst
  subst hst
  obtain ⟨bsl, bp, bl⟩ := block
  obtain ⟨b, hb1, hbc⟩ := hb
  simp only at hb1
  subst hb1
  have step1 := forEachConfigLine_step firewallPolicerData.readItem
    ("if-exceeding burst-size-limit ".toList ++ b)
  have hc1 := tagFree_literal_append "if-exceeding burst-size-limit ".toList b (by decide) hbc
  cases bp with
  | unknown => simp [TFValue.nullOrInt64] at hp
  | null =>
    cases bl with
    | unknown => simp [TFValue.nullOrCleanText] at hl
    | null =>
      simp only [firewallPolicerBlockIfExceeding.configSet, TFValue.ValueString, TFValue.IsNull,
        TFValue.ValueInt64, List.nil_append, Bool.not_true, Bool.false_eq_true, if_false,
        ne_eq, not_true_eq_false, List.append_nil, List.map_cons, List.map_nil,
        List.singleton_append]
      rw [step1 _ _ _ hc1 (readItem_burst_size_limit _ _)]
      rfl
    | known v =>
      simp only [TFValue.nullOrCleanText, Bool.and_eq_true, Bool.not_eq_true',
        List.isEmpty_eq_false] at hl
      have hv : v ≠ [] := by intro h; simp [h] at hl
      have hc3 := tagFree_literal_append "if-exceeding bandwidth-limit ".toList v (by decide) hl.2
      simp only [firewallPolicerBlockIfExceeding.configSet, TFValue.ValueString, TFValue.IsNull,
        TFValue.ValueInt64, List.nil_append, Bool.not_true, Bool.false_eq_true, if_false,
        ne_eq, hv, not_false_eq_true, if_true, List.append_nil, List.map_cons, List.map_nil,
        List.singleton_append, List.cons_append]
      rw [step1 _ _ _ hc1 (readItem_burst_size_limit _ _),
        forEachConfigLine_step _ _ _ _ _ hc3 (readItem_bandwidth_limit _ _)]
      rfl
  | known n =>
    have hn : inInt64 n := by simpa [TFValue.nullOrInt64] using hp
    have hc2 := tagFree_literal_append "if-exceeding bandwidth-percent ".toList (ConvI64toa n)
      (by decide) (Itoa_clean n)
    cases bl with
    | unknown => simp [TFValue.nullOrCleanText] at hl
    | null =>
      simp only [firewallPolicerBlockIfExceeding.configSet, TFValue.ValueString, TFValue.IsNull,
        TFValue.ValueInt64, List.nil_append, Bool.not_false, if_true,
        ne_eq, not_true_eq_false, if_false, List.append_nil, List.map_cons, List.map_nil,
        List.singleton_append, List.cons_append]
      rw [step1 _ _ _ hc1 (readItem_burst_size_limit _ _),
        forEachConfigLine_step _ _ _ _ _ hc2 (readItem_bandwidth_percent n hn _)]
      rfl
    | known v =>
      simp only [TFValue.nullOrCleanText, Bool.and_eq_true, Bool.not_eq_true',
        List.isEmpty_eq_false] at hl
      have hv : v ≠ [] := by intro h; simp [h] at hl
      have hc3 := tagFree_literal_append "if-exceeding bandwidth-limit ".toList v (by decide) hl.2
      simp only [firewallPolicerBlockIfExceeding.configSet, TFValue.ValueString, TFValue.IsNull,
        TFValue.ValueInt64, List.nil_append, Bool.not_false, if_true,
        ne_eq, hv, not_false_eq_true, List.append_nil, List.map_cons, List.map_nil,
        List.singleton_append, List.cons_append]
      rw [step1 _ _ _ hc1 (readItem_burst_size_limit _ _),
        forEachConfigLine_step _ _ _ _ _ hc2 (readItem_bandwidth_percent n hn _),
        forEachConfigLine_step _ _ _ _ _ hc3 (readItem_bandwidth_limit _ _)]
      rfl


theorem nullOrCleanText_value (t : TFValue Str) (h : t.nullOrCleanText = true) :
    t.ValueString = [] ∨ cleanValue t.ValueString = true := by
  cases t with
  | null => exact Or.inl rfl
  | unknown => exact Or.inl rfl
  | known v =>
    simp only [TFValue.nullOrCleanText, Bool.and_eq_true] at h
    exact Or.inr h.2

theorem nullOrTrue_cases (t : TFValue Bool) (h : t.nullOrTrue = true) :
    t = .null ∨ t = .known true := by
  cases t with
  | null => exact Or.inl rfl
  | unknown => simp [TFValue.nullOrTrue] at h
  | known b =>
    cases b
    · simp [TFValue.nullOrTrue] at h
    · exact Or.inr rfl

theorem nullOrCleanText_cases (t : TFValue Str) (h : t.nullOrCleanText = true) :
    t = .null ∨ ∃ v, t = .known v ∧ v ≠ [] := by
  cases t with
  | null => exact Or.inl rfl
  | unknown => simp [TFValue.nullOrCleanText] at h
  | known v =>
    refine Or.inr ⟨v, rfl, ?_⟩
    intro hv
    simp [TFValue.nullOrCleanText, hv] at h

theorem firewallPolicer_then_lines (block : firewallPolicerBlockThen)
    (hne : block.isEmpty = false)
    (hd : block.Discard.nullOrTrue = true) (ho : block.OutOfProfile.nullOrTrue = true)
    (hf : block.ForwardingClass.nullOrCleanText = true)
    (hl : block.LossPriority.nullOrCleanText = true)
    (rest : List Str) (st : firewallPolicerData) (hst : st.Then = none) :
    forEachConfigLine firewallPolicerData.readItem
        (List.map (fun b => SetLS ++ b) (block.configSet []) ++ rest) st =
      forEachConfigLine firewallPolicerData.readItem rest { st with Then := some block } := by
  obtain ⟨f0, i0, n0, e0, t0⟩ := st
  simp only at hst
  subst hst
  obtain ⟨d, o, f, l⟩ := block
  simp only [firewallPolicerBlockThen.configSet, List.nil_append, List.map_append,
    List.append_assoc]
  rw [forEachConfigLine_flag _ d.ValueBool _ _ _ _ (by decide) (readItem_then_discard _),
    forEachConfigLine_text _ f.ValueString _ (by decide) _ _ _ (nullOrCleanText_value f hf)
      (readItem_then_forwarding_class _ _),
    forEachConfigLine_text _ l.ValueString _ (by decide) _ _ _ (nullOrCleanText_value l hl)
      (readItem_then_loss_priority _ _),
    forEachConfigLine_flag _ o.ValueBool _ _ _ _ (by decide) (readItem_then_out_of_profile _)]
  congr 1
  rcases nullOrTrue_cases d hd with rfl | rfl <;>
    rcases nullOrTrue_cases o ho with rfl | rfl <;>
    rcases nullOrCleanText_cases f hf with rfl | ⟨fv, rfl, hfv⟩ <;>
    rcases nullOrCleanText_cases l hl with rfl | ⟨lv, rfl, hlv⟩ <;>
    first
      | (simp [firewallPolicerBlockThen.isEmpty, TFValue.IsNull] at hne; done)
      | simp [TFValue.ValueBool, TFValue.ValueString, *]


theorem firewallPolicer_if_exceeding_lineFeedFree (block : firewallPolicerBlockIfExceeding)
    (hb : ∃ b, block.BurstSizeLimit = .known b ∧ cleanValue b = true)
    (hl : block.BandwidthLimit.nullOrCleanText = true) :
    ∀ x ∈ block.configSet [], Char.ofNat 10 ∉ x := by
  intro x hx
  obtain ⟨b, hb1, hbc⟩ := hb
  simp only [firewallPolicerBlockIfExceeding.configSet, List.nil_append, List.mem_append,
    List.mem_singleton] at hx
  rcases hx with (hx | hx) | hx
  · subst hx
    rw [hb1]
    exact lineFeedFree_literal_append _ _ (by decide) hbc
  · have := mem_flag_line hx
    subst this
    exact lineFeedFree_literal_append _ _ (by decide) (Itoa_clean _)
  · obtain ⟨hv, rfl⟩ := mem_text_line hx
    exact lineFeedFree_literal_append _ _ (by decide)
      ((nullOrCleanText_value _ hl).resolve_left hv)

theorem firewallPolicer_then_lineFeedFree (block : firewallPolicerBlockThen)
    (hf : block.ForwardingClass.nullOrCleanText = true)
    (hl : block.LossPriority.nullOrCleanText = true) :
    ∀ x ∈ block.configSet [], Char.ofNat 10 ∉ x := by
  intro x hx
  simp only [firewallPolicerBlockThen.configSet, List.nil_append, List.mem_append] at hx
  rcases hx with ((hx | hx) | hx) | hx
  · have := mem_flag_line hx
    subst this; decide
  · obtain ⟨hv, rfl⟩ := mem_text_line hx
    exact lineFeedFree_literal_append _ _ (by decide)
      ((nullOrCleanText_value _ hf).resolve_left hv)
  · obtain ⟨hv, rfl⟩ := mem_text_line hx
    exact lineFeedFree_literal_append _ _ (by decide)
      ((nullOrCleanText_value _ hl).resolve_left hv)
  · have := mem_flag_line hx
    subst this; decide

theorem firewallPolicer_then_lines_ne_nil (block : firewallPolicerBlockThen)
    (hne : block.isEmpty = false)
    (hd : block.Discard.nullOrTrue = true) (ho : block.OutOfProfile.nullOrTrue = true)
    (hf : block.ForwardingClass.nullOrCleanText = true)
    (hl : block.LossPriority.nullOrCleanText = true) :
    block.configSet [] ≠ [] := by
  obtain ⟨d, o, f, l⟩ := block
  rcases nullOrTrue_cases d hd with rfl | rfl <;>
    rcases nullOrTrue_cases o ho with rfl | rfl <;>
    rcases nullOrCleanText_cases f hf with rfl | ⟨fv, rfl, hfv⟩ <;>
    rcases nullOrCleanText_cases l hl with rfl | ⟨lv, rfl, hlv⟩ <;>
    first
      | (simp [firewallPolicerBlockThen.isEmpty, TFValue.IsNull] at hne; done)
      | simp [firewallPolicerBlockThen.configSet, TFValue.ValueBool, TFValue.ValueString, *]

/-- C2. For every `firewallPolicerData` that passes `ValidateConfig`, whose
boolean attributes are null or true and whose string attributes are as the
schema of the resource lets them be, reading the lines that `set` emitted gives
back the same data, with the id filled from the name: same name,
filter_specific, if_exceeding block and then block, each block present exactly
when it was before. The hypotheses on the strings are those that the schema
guarantees: name and burst_size_limit are Required, hence known;
burst_size_limit and bandwidth_limit match `^(\d)+(m|k|g)?$`, forwarding_class
has the default format of names and loss_priority is one of four words, hence
each is null or non-empty and holds no line feed and neither of the tags
`<configuration-output>`, `</configuration-output>`; bandwidth_percent is null
or between 1 and 100, hence an `int64`. -/
theorem firewallPolicerData_set_read (data : firewallPolicerData) (name : Str)
    (hval : firewallPolicer.ValidateConfig data = [])
    (hname : data.Name = .known name)
    (hfs : data.FilterSpecific.nullOrTrue = true)
    (hie : ∀ ie, data.IfExceeding = some ie →
      (∃ b, ie.BurstSizeLimit = .known b ∧ cleanValue b = true) ∧
        ie.BandwidthPercent.nullOrInt64 = true ∧ ie.BandwidthLimit.nullOrCleanText = true)
    (hth : ∀ th, data.Then = some th →
      th.Discard.nullOrTrue = true ∧ th.OutOfProfile.nullOrTrue = true ∧
        th.ForwardingClass.nullOrCleanText = true ∧ th.LossPriority.nullOrCleanText = true) :
    firewallPolicerData.read {} name (.ok (displaySetRelative data.setPrefix data.set)) =
      ({ data with ID := .known name }, none) := by
  obtain ⟨fs, id, nm, ie, th⟩ := data
  simp only at hname hfs hie hth
  subst hname
  cases th with
  | none =>
    simp [firewallPolicer.ValidateConfig, firewallPolicer.validateThen] at hval
  | some th =>
    obtain ⟨hd, ho, hf, hl⟩ := hth th rfl
    have hne : th.isEmpty = false := by
      cases hemp : th.isEmpty
      · rfl
      · simp [firewallPolicer.ValidateConfig, firewallPolicer.validateThen, hemp] at hval
    have hth_ne := firewallPolicer_then_lines_ne_nil th hne hd ho hf hl
    have hth_lf := firewallPolicer_then_lineFeedFree th hf hl
    have hfs_lf : ∀ x ∈ (if fs.ValueBool = true then ["filter-specific".toList] else []),
        Char.ofNat 10 ∉ x := by
      intro x hx
      have := mem_flag_line hx
      subst this; decide
    cases ie with
    | none =>
      have hbodies : firewallPolicerData.configSet []
          ⟨fs, id, .known name, none, some th⟩ =
          (if fs.ValueBool = true then ["filter-specific".toList] else []) ++
            th.configSet [] := by
        simp [firewallPolicerData.configSet]
      have hne_bodies : (if fs.ValueBool = true then ["filter-specific".toList] else []) ++
            th.configSet [] ≠ [] := by
        simp [hth_ne]
      have hlf : ∀ x ∈ (if fs.ValueBool = true then ["filter-specific".toList] else []) ++
            th.configSet [], Char.ofNat 10 ∉ x := by
        intro x hx
        rcases List.mem_append.mp hx with hx | hx
        · exact hfs_lf x hx
        · exact hth_lf x hx
      obtain ⟨hnempty, hsplit⟩ := reply_lines _ hne_bodies hlf
      unfold firewallPolicerData.read firewallPolicerData.set
      rw [firewallPolicerData_configSet_map, displaySetRelative_map, hbodies]
      dsimp only
      rw [if_pos hnempty, hsplit, List.map_append,
        firewallPolicer_filter_specific_lines fs hfs _ _ rfl,
        ← List.append_nil (List.map _ (th.configSet [])),
        firewallPolicer_then_lines th hne hd ho hf hl _ _ rfl]
      simp [forEachConfigLine, firewallPolicerData.fillID, TFValue.ValueString]
    | some ie =>
      obtain ⟨hb, hp, hbl⟩ := hie ie rfl
      have hie_lf := firewallPolicer_if_exceeding_lineFeedFree ie hb hbl
      have hbodies : firewallPolicerData.configSet []
          ⟨fs, id, .known name, some ie, some th⟩ =
          (if fs.ValueBool = true then ["filter-specific".toList] else []) ++
            (ie.configSet [] ++ th.configSet []) := by
        simp [firewallPolicerData.configSet]
      have hne_bodies : (if fs.ValueBool = true then ["filter-specific".toList] else []) ++
            (ie.configSet [] ++ th.configSet []) ≠ [] := by
        simp [hth_ne]
      have hlf : ∀ x ∈ (if fs.ValueBool = true then ["filter-specific".toList] else []) ++
            (ie.configSet [] ++ th.configSet []), Char.ofNat 10 ∉ x := by
        intro x hx
        rcases List.mem_append.mp hx with hx | hx
        · exact hfs_lf x hx
        · rcases List.mem_append.mp hx with hx | hx
          · exact hie_lf x hx
          · exact hth_lf x hx
      obtain ⟨hnempty, hsplit⟩ := reply_lines _ hne_bodies hlf
      unfold firewallPolicerData.read firewallPolicerData.set
      rw [firewallPolicerData_configSet_map, displaySetRelative_map, hbodies]
      dsimp only
      rw [if_pos hnempty, hsplit, List.map_append, List.map_append,
        firewallPolicer_filter_specific_lines fs hfs _ _ rfl,
        firewallPolicer_if_exceeding_lines ie hb hp hbl _ _ rfl,
        ← List.append_nil (List.map _ (th.configSet [])),
        firewallPolicer_then_lines th hne hd ho hf hl _ _ rfl]
      simp [forEachConfigLine, firewallPolicerData.fillID, TFValue.ValueString]


/-- C2, at a policer with both blocks. -/
theorem firewallPolicerData_set_read_witness :
    firewallPolicer.ValidateConfig examplePolicer = [] ∧
    firewallPolicerData.read {} "testacc_fwPolic".toList
        (.ok (displaySetRelative examplePolicer.setPrefix examplePolicer.set)) =
      ({ examplePolicer with ID := .known "testacc_fwPolic".toList }, none) :=
  ⟨by decide,
    firewallPolicerData_set_read examplePolicer "testacc_fwPolic".toList (by decide) rfl
      (by decide)
      (fun ie h => by
        cases h
        exact ⟨⟨"50k".toList, rfl, by decide⟩, by decide, by decide⟩)
      (fun th h => by
        cases h
        exact ⟨by decide, by decide, by decide, by decide⟩)⟩

/-! ## Policy-options community: set then read -/

theorem policyoptionsCommunityConfigSet_map (pre : Str)
    (d : policyoptionsCommunityResourceData) :
    policyoptionsCommunityConfigSet pre d =
      (policyoptionsCommunityConfigSet [] d).map (fun b => pre ++ b) := by
  simp only [policyoptionsCommunityConfigSet, List.map_append, List.nil_append,
    apply_ite (List.map (fun b => pre ++ b)), List.map_cons, List.map_nil, List.append_assoc,
    List.map_map, Function.comp_def]

theorem readPolicyoptionsCommunity_members (ms : List Str) (rest : List Str)
    (c : communityOptions) (hclean : ∀ m ∈ ms, cleanValue m = true) :
    forEachConfigLine readPolicyoptionsCommunityItem
        ((ms.map (fun m => "members ".toList ++ m)).map (fun b => SetLS ++ b) ++ rest) c =
      forEachConfigLine readPolicyoptionsCommunityItem rest
        { c with members := c.members ++ ms } := by
  induction ms generalizing c with
  | nil => simp
  | cons m ms ih =>
    have hm := (cleanValue_iff m).mp (hclean m (List.mem_cons_self _ _))
    have hms : ∀ x ∈ ms, cleanValue x = true :=
      fun x hx => hclean x (List.mem_cons_of_mem _ hx)
    simp only [List.map_cons, List.cons_append]
    rw [forEachConfigLine_line]
    · have hstep : readPolicyoptionsCommunityItem ("members ".toList ++ m) c =
          ({ c with members := c.members ++ [m] }, none) := by
        simp [readPolicyoptionsCommunityItem, HasPrefix, TrimPrefix]
      rw [hstep]
      simp only
      rw [ih _ hms]
      simp [List.append_assoc]
    · rw [← hm.2.1]; exact Contains_append_left _ m _ _ (by decide)
    · rw [← hm.2.2]; exact Contains_append_left _ m _ _ (by decide)

/-- C3 (amended). For every name, every non-empty list of members that hold no
line feed and neither of the tags `<configuration-output>`,
`</configuration-output>`, and every invert_match, reading the lines that
`setPolicyoptionsCommunity` emitted gives back the same name, members (in
order) and invert_match. -/
theorem policyoptionsCommunity_set_read (d : policyoptionsCommunityResourceData)
    (hne : d.members ≠ []) (hclean : ∀ m ∈ d.members, cleanValue m = true) :
    readPolicyoptionsCommunity d.name
        (.ok (displaySetRelative (policyoptionsCommunitySetPrefix d)
          (setPolicyoptionsCommunity d))) =
      .ok { name := d.name, members := d.members, invertMatch := d.invert_match } ∧
    fillPolicyoptionsCommunityData
        { name := d.name, members := d.members, invertMatch := d.invert_match } = d := by
  refine ⟨?_, rfl⟩
  have hbodies : policyoptionsCommunityConfigSet [] d =
      d.members.map (fun m => "members ".toList ++ m) ++
        (if d.invert_match = true then ["invert-match".toList] else []) := by
    simp only [policyoptionsCommunityConfigSet, List.nil_append]
  have hbodies_ne : policyoptionsCommunityConfigSet [] d ≠ [] := by
    rw [hbodies]
    cases hm : d.members with
    | nil => exact absurd hm hne
    | cons m ms => simp
  have hlf : ∀ b ∈ policyoptionsCommunityConfigSet [] d, Char.ofNat 10 ∉ b := by
    intro b hb
    rw [hbodies] at hb
    rcases List.mem_append.mp hb with hb | hb
    · obtain ⟨m, hm, rfl⟩ := List.mem_map.mp hb
      exact lineFeedFree_literal_append _ _ (by decide) (hclean m hm)
    · rw [mem_flag_line hb]; decide
  obtain ⟨hnempty, hsplit⟩ := reply_lines _ hbodies_ne hlf
  unfold readPolicyoptionsCommunity setPolicyoptionsCommunity
  rw [policyoptionsCommunityConfigSet_map, displaySetRelative_map]
  dsimp only
  rw [if_pos hnempty, hsplit, hbodies, List.map_append,
    readPolicyoptionsCommunity_members _ _ _ hclean]
  have hinv := forEachConfigLine_flag readPolicyoptionsCommunityItem d.invert_match
    "invert-match".toList []
    ({ name := d.name, members := [] ++ d.members } : communityOptions)
    { name := d.name, members := [] ++ d.members, invertMatch := true }
    (by decide) (by simp [readPolicyoptionsCommunityItem, HasPrefix])
  simp only [List.append_nil, List.nil_append] at hinv ⊢
  rw [hinv]
  cases d.invert_match <;> simp [forEachConfigLine]

/-- Witness of C3 (amended) on the members `65000:200` with invert_match, as in
the acceptance test. -/
theorem policyoptionsCommunity_set_read_witness :
    readPolicyoptionsCommunity "testacc_policyOpts".toList
        (.ok (displaySetRelative
          (policyoptionsCommunitySetPrefix
            { name := "testacc_policyOpts".toList, members := ["65000:200".toList],
              invert_match := true })
          (setPolicyoptionsCommunity
            { name := "testacc_policyOpts".toList, members := ["65000:200".toList],
              invert_match := true }))) =
      .ok { name := "testacc_policyOpts".toList, members := ["65000:200".toList],
            invertMatch := true } :=
  (policyoptionsCommunity_set_read
    { name := "testacc_policyOpts".toList, members := ["65000:200".toList],
      invert_match := true } (by decide) (by decide)).1

/-- C3 as stated fails: the member `<configuration-output>` holds no line feed,
yet its line is skipped by the loop of `readPolicyoptionsCommunity`, so the
members read back are empty instead of the configured list. -/
theorem policyoptionsCommunity_set_read_counterexample :
    (["<configuration-output>".toList] : List Str) ≠ [] ∧
    (∀ m ∈ (["<configuration-output>".toList] : List Str), Char.ofNat 10 ∉ m) ∧
    readPolicyoptionsCommunity "c".toList
        (.ok (displaySetRelative
          (policyoptionsCommunitySetPrefix
            { name := "c".toList, members := ["<configuration-output>".toList] })
          (setPolicyoptionsCommunity
            { name := "c".toList, members := ["<configuration-output>".toList] }))) =
      .ok { name := "c".toList, members := [], invertMatch := false } ∧
    readPolicyoptionsCommunity "c".toList
        (.ok (displaySetRelative
          (policyoptionsCommunitySetPrefix
            { name := "c".toList, members := ["<configuration-output>".toList] })
          (setPolicyoptionsCommunity
            { name := "c".toList, members := ["<configuration-output>".toList] }))) ≠
      .ok { name := "c".toList, members := ["<configuration-output>".toList],
            invertMatch := false } := by
  refine ⟨by decide, by decide, by decide, by decide⟩


/-! ## Generate route: the identifier -/

theorem splitGo_of_not_Contains (sep s : Str)
    (h : Contains s sep = false) : splitGo sep 0 s = [s] := by
  induction s with
  | nil => rfl
  | cons c cs ih =>
    simp only [Contains, Bool.or_eq_false_iff] at h
    rw [splitGo, if_neg (by simp [h.1]), ih h.2]
    rfl

theorem splitGo_IDSeparator_first (dest r : Str) (hdest : Char.ofNat 95 ∉ dest) :
    splitGo IDSeparator 0 (dest ++ IDSeparator ++ r) = dest :: splitGo IDSeparator 0 r := by
  induction dest with
  | nil =>
    have h : IDSeparator = [Char.ofNat 95, Char.ofNat 45, Char.ofNat 95] := rfl
    rw [h]
    simp [splitGo]
  | cons c cs ih =>
    have hc : ¬ Char.ofNat 95 = c := fun h => hdest (List.mem_cons.mpr (Or.inl h))
    have hcs : Char.ofNat 95 ∉ cs := fun h => hdest (List.mem_cons_of_mem _ h)
    have hpre : IDSeparator.isPrefixOf (c :: (cs ++ IDSeparator ++ r)) = false := by
      have h : IDSeparator = [Char.ofNat 95, Char.ofNat 45, Char.ofNat 95] := rfl
      rw [h]
      simp [List.isPrefixOf, hc]
    simp only [List.cons_append, List.append_assoc] at hpre ⊢
    rw [splitGo, if_neg (by simp [hpre])]
    have := ih hcs
    simp only [List.append_assoc] at this
    rw [this]
    rfl

/-- C6 (amended). For every destination that holds no underscore (as every
CIDR network) and every routing_instance that does not contain the separator
`_-_`, splitting the identifier `destination_-_routing_instance` that Create
assigns on `_-_`, as Import does, yields destination as the first field and
routing_instance as the second. -/
theorem generateRoute_id_import (d : generateRouteResourceData)
    (hdest : Char.ofNat 95 ∉ d.destination)
    (hinst : Contains d.routing_instance IDSeparator = false) :
    generateRouteImportFields (generateRouteID d) = .ok (d.destination, d.routing_instance) := by
  have h1 := splitGo_IDSeparator_first d.destination d.routing_instance hdest
  have h2 := splitGo_of_not_Contains IDSeparator d.routing_instance hinst
  have hsplit : Split (d.destination ++ IDSeparator ++ d.routing_instance) IDSeparator =
      [d.destination, d.routing_instance] := by
    have he : IDSeparator.isEmpty = false := by decide
    simp only [Split, he, Bool.false_eq_true, if_false]
    rw [h1, h2]
  simp only [generateRouteImportFields, generateRouteID, hsplit]

/-- Witness of C6 (amended) on the route `192.0.2.0/24` of the routing instance `prod_vr`. -/
theorem generateRoute_id_import_witness :
    generateRouteImportFields
        (generateRouteID
          { destination := "192.0.2.0/24".toList, routing_instance := "prod_vr".toList }) =
      .ok ("192.0.2.0/24".toList, "prod_vr".toList) :=
  generateRoute_id_import
    { destination := "192.0.2.0/24".toList, routing_instance := "prod_vr".toList }
    (by decide) (by decide)

/-- C6 as stated fails: the routing instance name `a_-_b` passes
`validateNameObjectJunos([]string{}, 64, formatDefault)`, and the identifier of
the route `192.0.2.0/24` in it splits into `192.0.2.0/24` and `a`, not `a_-_b`. -/
theorem generateRoute_id_import_counterexample :
    validateNameObjectJunos [] 64 formatDefault "a_-_b".toList = [] ∧
    generateRouteImportFields
        (generateRouteID
          { destination := "192.0.2.0/24".toList, routing_instance := "a_-_b".toList }) =
      .ok ("192.0.2.0/24".toList, "a".toList) ∧
    "a".toList ≠ "a_-_b".toList := by
  refine ⟨by decide, by decide, by decide⟩


/-! ## Firewall policer: `ValidateConfig` and the identifier -/

/-- C9. `firewallPolicer.ValidateConfig` adds no error exactly when the `then`
block is present, at least one of its four attributes is non-null, `discard` is
not combined with any of the other three, and `bandwidth_percent` and
`bandwidth_limit` are not both non-null in an `if_exceeding` block. -/
theorem firewallPolicer_ValidateConfig_no_error_iff (config : firewallPolicerData) :
    firewallPolicer.ValidateConfig config = [] ↔
      (∃ th, config.Then = some th ∧
        (th.Discard.IsNull = false ∨ th.ForwardingClass.IsNull = false ∨
          th.LossPriority.IsNull = false ∨ th.OutOfProfile.IsNull = false) ∧
        (th.Discard.IsNull = false →
          th.ForwardingClass.IsNull = true ∧ th.LossPriority.IsNull = true ∧
            th.OutOfProfile.IsNull = true)) ∧
      (∀ ie, config.IfExceeding = some ie →
        ¬ (ie.BandwidthPercent.IsNull = false ∧ ie.BandwidthLimit.IsNull = false)) := by
  obtain ⟨fs, id, nm, ie, th⟩ := config
  cases ie with
  | none =>
    cases th with
    | none => simp [firewallPolicer.ValidateConfig, firewallPolicer.validateIfExceeding,
        firewallPolicer.validateThen]
    | some t =>
      obtain ⟨d, o, f, l⟩ := t
      cases hd : d.IsNull <;> cases ho : o.IsNull <;> cases hf : f.IsNull <;>
        cases hl : l.IsNull <;>
        simp [firewallPolicer.ValidateConfig, firewallPolicer.validateIfExceeding,
          firewallPolicer.validateThen, firewallPolicerBlockThen.isEmpty, hd, ho, hf, hl]
  | some i =>
    obtain ⟨b, bp, bl⟩ := i
    cases th with
    | none => simp [firewallPolicer.ValidateConfig, firewallPolicer.validateIfExceeding,
        firewallPolicer.validateThen]
    | some t =>
      obtain ⟨d, o, f, l⟩ := t
      cases hd : d.IsNull <;> cases ho : o.IsNull <;> cases hf : f.IsNull <;>
        cases hl : l.IsNull <;> cases hbp : bp.IsNull <;> cases hbl : bl.IsNull <;>
        simp [firewallPolicer.ValidateConfig, firewallPolicer.validateIfExceeding,
          firewallPolicer.validateThen, firewallPolicerBlockThen.isEmpty, hd, ho, hf, hl, hbp, hbl]

theorem firewallPolicerData_readItem_keeps (itemTrim : Str) (d : firewallPolicerData) :
    (firewallPolicerData.readItem itemTrim d).1.ID = d.ID ∧
      (firewallPolicerData.readItem itemTrim d).1.Name = d.Name := by
  unfold firewallPolicerData.readItem firewallPolicerData.readIfExceeding
    firewallPolicerData.readThen
  repeat' split
  all_goals simp

theorem firewallPolicerData_readLoop_keeps (items : List Str) (d : firewallPolicerData) :
    (forEachConfigLine firewallPolicerData.readItem items d).1.ID = d.ID ∧
      (forEachConfigLine firewallPolicerData.readItem items d).1.Name = d.Name := by
  induction items generalizing d with
  | nil => simp [forEachConfigLine]
  | cons item rest ih =>
    unfold forEachConfigLine
    split
    · exact ih d
    · split
      · simp
      · have hk := firewallPolicerData_readItem_keeps (TrimPrefix item SetLS) d
        split
        next d1 e heq => rw [heq] at hk; simpa using hk
        next d1 heq =>
          rw [heq] at hk
          have := ih d1
          simp at hk
          rw [this.1, this.2]; exact hk

/-- C8. Starting from empty data, when `read(name)` returns without error the
id is null exactly when the device answered `empty`; otherwise id and name are
both the queried name; and an `empty` answer leaves any data unchanged. -/
theorem firewallPolicerData_read_id (name : Str) (answer : CommandResult)
    (d : firewallPolicerData)
    (h : firewallPolicerData.read {} name answer = (d, none)) :
    (d.nullID = true ↔ answer = .ok EmptyW) ∧
      (answer ≠ .ok EmptyW → d.ID = .known name ∧ d.Name = .known name) ∧
      (∀ d0 : firewallPolicerData,
        firewallPolicerData.read d0 name (.ok EmptyW) = (d0, none)) := by
  have hempty : ∀ d0 : firewallPolicerData,
      firewallPolicerData.read d0 name (.ok EmptyW) = (d0, none) := by
    intro d0; simp [firewallPolicerData.read]
  refine ⟨?_, ?_, hempty⟩
  · cases answer with
    | error e => simp [firewallPolicerData.read] at h
    | ok showConfig =>
      by_cases hs : showConfig = EmptyW
      · subst hs
        rw [hempty] at h
        simp at h
        subst h
        simp [firewallPolicerData.nullID, TFValue.IsNull]
      · simp only [firewallPolicerData.read, ne_eq, hs, not_false_eq_true, if_true] at h
        have hk := firewallPolicerData_readLoop_keeps (Split showConfig LF)
          ({ ({} : firewallPolicerData) with Name := .known name }).fillID
        rw [h] at hk
        simp [firewallPolicerData.fillID, TFValue.ValueString] at hk
        simp [firewallPolicerData.nullID, hk.1, TFValue.IsNull, hs]
  · intro hne
    cases answer with
    | error e => simp [firewallPolicerData.read] at h
    | ok showConfig =>
      have hs : showConfig ≠ EmptyW := fun hc => hne (by rw [hc])
      simp only [firewallPolicerData.read, ne_eq, hs, not_false_eq_true, if_true] at h
      have hk := firewallPolicerData_readLoop_keeps (Split showConfig LF)
        ({ ({} : firewallPolicerData) with Name := .known name }).fillID
      rw [h] at hk
      simpa [firewallPolicerData.fillID, TFValue.ValueString] using hk

/-- Witness of C8 on the reply `set then discard` for the policer `p`. -/
theorem firewallPolicerData_read_id_witness :
    firewallPolicerData.read {} "p".toList (.ok "set then discard".toList) =
        ({ ID := .known "p".toList, Name := .known "p".toList,
           Then := some { Discard := .known true } }, none) ∧
      (({ ID := .known "p".toList, Name := .known "p".toList,
          Then := some { Discard := .known true } } : firewallPolicerData).nullID = true ↔
        (.ok "set then discard".toList : CommandResult) = .ok EmptyW) :=
  ⟨by decide, (firewallPolicerData_read_id "p".toList (.ok "set then discard".toList) _
    (by decide)).1⟩



/-! ## BGP neighbor: identifier and metric checks -/

/-- C7. `bgpNeighborData.fillID` sets the id to
`<ip>_-_<r>_-_<group>` where `r` is the routing instance when it is not empty
and `default` otherwise; `r` is never empty. -/
theorem bgpNeighborData_fillID_id (rscData : bgpNeighborData) :
    ∃ r : Str,
      r = (if rscData.RoutingInstance.ValueString ≠ [] then rscData.RoutingInstance.ValueString
            else "default".toList) ∧
      r ≠ [] ∧
      rscData.fillID.ID =
        .known (rscData.IP.ValueString ++ "_-_".toList ++ r ++ "_-_".toList ++
          rscData.Group.ValueString) := by
  by_cases h : rscData.RoutingInstance.ValueString = []
  · refine ⟨"default".toList, ?_, by decide, ?_⟩
    · simp [h]
    · simp [bgpNeighborData.fillID, h, IDSeparator, DefaultW]
  · refine ⟨rscData.RoutingInstance.ValueString, ?_, h, ?_⟩
    · simp [h]
    · simp [bgpNeighborData.fillID, h, IDSeparator]

theorem mem_conflictIf {e : AttributeError} {c : Bool} {p d : String}
    (h : e ∈ conflictIf c p d) : e.path = p ∧ e.summary = .ConflictConfigErrSummary := by
  unfold conflictIf at h
  split at h
  · simp only [List.mem_singleton] at h
    subst h
    exact ⟨rfl, rfl⟩
  · exact absurd h (List.not_mem_nil _)

/-- C10. `bgpNeighbor.ValidateConfig` reports no error on a metric attribute
exactly when the non-null metric attributes all lie in one of the three groups
{metric_out}, {metric_out_igp, metric_out_igp_delay_med_update,
metric_out_igp_offset}, {metric_out_minimum_igp, metric_out_minimum_igp_offset},
that is when no two of the groups both hold a non-null attribute; and every
error it reports on a metric attribute is a conflict error. -/
theorem bgpNeighbor_ValidateConfig_metric_exclusive (config : bgpNeighborConfig) :
    ((∀ e ∈ bgpNeighbor.ValidateConfig config, e.path ∉ metricAttributes) ↔
      (let g1 := !config.MetricOut.IsNull
       let g2 := !config.MetricOutIgp.IsNull || !config.MetricOutIgpDelayMedUpdate.IsNull ||
         !config.MetricOutIgpOffset.IsNull
       let g3 := !config.MetricOutMinimumIgp.IsNull || !config.MetricOutMinimumIgpOffset.IsNull
       ¬ (g1 = true ∧ g2 = true) ∧ ¬ (g1 = true ∧ g3 = true) ∧ ¬ (g2 = true ∧ g3 = true))) ∧
    (∀ e ∈ bgpNeighbor.ValidateConfig config, e.path ∈ metricAttributes →
      e.summary = .ConflictConfigErrSummary) := by
  have hhead : ∀ e ∈ bgpNeighbor.validateConfigHead config, e.path ∉ metricAttributes := by
    intro e he
    have key : ∀ c p d, e ∈ conflictIf c p d → p ∉ metricAttributes →
        e.path ∉ metricAttributes := fun c p d h hp => (mem_conflictIf h).1 ▸ hp
    unfold bgpNeighbor.validateConfigHead at he
    simp only [List.mem_append] at he
    repeat' first
      | (rcases he with he | he)
      | (split at he)
      | (rw [List.mem_append] at he)
    all_goals first
      | exact absurd he (List.not_mem_nil _)
      | exact key _ _ _ he (by decide)
  have hmet : ∀ e ∈ bgpNeighbor.validateConfigMetric config,
      e.path ∈ metricAttributes ∧ e.summary = .ConflictConfigErrSummary := by
    intro e he
    have key : ∀ c p d, e ∈ conflictIf c p d → p ∈ metricAttributes →
        e.path ∈ metricAttributes ∧ e.summary = .ConflictConfigErrSummary :=
      fun c p d h hp => ⟨(mem_conflictIf h).1 ▸ hp, (mem_conflictIf h).2⟩
    unfold bgpNeighbor.validateConfigMetric at he
    simp only [List.mem_append] at he
    repeat' first
      | (rcases he with he | he)
      | (split at he)
      | (rw [List.mem_append] at he)
    all_goals first
      | exact absurd he (List.not_mem_nil _)
      | exact key _ _ _ he (by decide)
  constructor
  · have hiff : (∀ e ∈ bgpNeighbor.ValidateConfig config, e.path ∉ metricAttributes) ↔
        bgpNeighbor.validateConfigMetric config = [] := by
      constructor
      · intro h
        apply List.eq_nil_iff_forall_not_mem.mpr
        intro e he
        exact h e (by simp [bgpNeighbor.ValidateConfig, he]) (hmet e he).1
      · intro h e he
        simp only [bgpNeighbor.ValidateConfig, h, List.append_nil] at he
        exact hhead e he
    rw [hiff]
    cases h1 : config.MetricOut.IsNull <;> cases h2 : config.MetricOutIgp.IsNull <;>
      cases h3 : config.MetricOutIgpDelayMedUpdate.IsNull <;>
      cases h4 : config.MetricOutIgpOffset.IsNull <;>
      cases h5 : config.MetricOutMinimumIgp.IsNull <;>
      cases h6 : config.MetricOutMinimumIgpOffset.IsNull <;>
      simp [bgpNeighbor.validateConfigMetric, conflictIf, h1, h2, h3, h4, h5, h6]
  · intro e he hp
    simp only [bgpNeighbor.ValidateConfig, List.mem_append] at he
    rcases he with he | he
    · exact absurd hp (hhead e he)
    · exact (hmet e he).2



/-! ## Physical interface: state upgrade from version 0 to version 1 -/

theorem addrOfFirst_eq_head {α : Type} (xs : List α) : addrOfFirst xs = xs.head? := by
  cases xs <;> simp [addrOfFirst]

/-- C4. The upgrade of a version 0 state (a stored state holds no unknown
value) keeps id, name, description, disable, mtu, trunk, vlan_members,
vlan_native and vlan_tagging, and keeps no_disable_on_destroy except that
`false` becomes null. -/
theorem upgradeInterfacePhysicalV0toV1_top_level (dataV0 : modelV0)
    (hstate : dataV0.NoDisableOnDestroy.IsUnknown = false) :
    (upgradeInterfacePhysicalV0toV1 dataV0).ID = dataV0.ID ∧
    (upgradeInterfacePhysicalV0toV1 dataV0).Name = dataV0.Name ∧
    (upgradeInterfacePhysicalV0toV1 dataV0).Description = dataV0.Description ∧
    (upgradeInterfacePhysicalV0toV1 dataV0).Disable = dataV0.Disable ∧
    (upgradeInterfacePhysicalV0toV1 dataV0).Mtu = dataV0.Mtu ∧
    (upgradeInterfacePhysicalV0toV1 dataV0).Trunk = dataV0.Trunk ∧
    (upgradeInterfacePhysicalV0toV1 dataV0).VlanMembers = dataV0.VlanMembers ∧
    (upgradeInterfacePhysicalV0toV1 dataV0).VlanNative = dataV0.VlanNative ∧
    (upgradeInterfacePhysicalV0toV1 dataV0).VlanTagging = dataV0.VlanTagging ∧
    (upgradeInterfacePhysicalV0toV1 dataV0).NoDisableOnDestroy =
      (if dataV0.NoDisableOnDestroy = .known false then .null
       else dataV0.NoDisableOnDestroy) := by
  refine ⟨rfl, rfl, rfl, rfl, rfl, rfl, rfl, rfl, rfl, ?_⟩
  cases hv : dataV0.NoDisableOnDestroy with
  | null => simp [upgradeInterfacePhysicalV0toV1, hv, TFValue.IsNull]
  | unknown => simp [hv, TFValue.IsUnknown] at hstate
  | known b => cases b <;> simp [upgradeInterfacePhysicalV0toV1, hv, TFValue.IsNull, TFValue.ValueBool]

/-- Witness of C4 on a state with `vlan_tagging = true` and
`no_disable_on_destroy = false`. -/
theorem upgradeInterfacePhysicalV0toV1_top_level_witness :
    (upgradeInterfacePhysicalV0toV1
        { Name := .known "ge-0/0/3".toList, VlanTagging := .known true,
          NoDisableOnDestroy := .known false }).VlanTagging = .known true ∧
    (upgradeInterfacePhysicalV0toV1
        { Name := .known "ge-0/0/3".toList, VlanTagging := .known true,
          NoDisableOnDestroy := .known false }).NoDisableOnDestroy = .null :=
  have h := upgradeInterfacePhysicalV0toV1_top_level
    { Name := .known "ge-0/0/3".toList, VlanTagging := .known true,
      NoDisableOnDestroy := .known false } (by decide)
  ⟨h.2.2.2.2.2.2.2.2.1, h.2.2.2.2.2.2.2.2.2⟩

/-- C5. The upgrade turns each of the lists esi, ether_opts, gigether_opts and
parent_ether_opts into a single block that is present exactly when the list is
not empty and is then its first element; for parent_ether_opts the ten
attributes are copied and bfd_liveness_detection and lacp are the first
elements of their lists, absent when the lists are empty. -/
theorem upgradeInterfacePhysicalV0toV1_blocks (dataV0 : modelV0) :
    (upgradeInterfacePhysicalV0toV1 dataV0).ESI = dataV0.ESI.head? ∧
    (upgradeInterfacePhysicalV0toV1 dataV0).EtherOpts = dataV0.EtherOpts.head? ∧
    (upgradeInterfacePhysicalV0toV1 dataV0).GigetherOpts = dataV0.GigetherOpts.head? ∧
    ((upgradeInterfacePhysicalV0toV1 dataV0).ParentEtherOpts.isSome = true ↔
      dataV0.ParentEtherOpts ≠ []) ∧
    (∀ p rest, dataV0.ParentEtherOpts = p :: rest →
      (upgradeInterfacePhysicalV0toV1 dataV0).ParentEtherOpts =
        some
          { FlowControl := p.FlowControl
            NoFlowControl := p.NoFlowControl
            Loopback := p.Loopback
            NoLoopback := p.NoLoopback
            LinkSpeed := p.LinkSpeed
            MinimumBandwidth := p.MinimumBandwidth
            MinimumLinks := p.MinimumLinks
            RedundancyGroup := p.RedundancyGroup
            SourceAddressFilter := p.SourceAddressFilter
            SourceFiltering := p.SourceFiltering
            BFDLivenessDetection := p.BFDLivenessDetection.head?
            Lacp := p.Lacp.head? }) := by
  refine ⟨addrOfFirst_eq_head _, addrOfFirst_eq_head _, addrOfFirst_eq_head _, ?_, ?_⟩
  · cases hp : dataV0.ParentEtherOpts <;>
      simp [upgradeInterfacePhysicalV0toV1, hp, addrOfFirst_eq_head]
  · intro p rest hp
    simp [upgradeInterfacePhysicalV0toV1, hp, addrOfFirst_eq_head]


/-! ## IPsec VPN: the computed `source_interface` of `vpn_monitor` -/

/-- C11: for a plan with a block `vpn_monitor`, the plan that `Create` (when the
name is not empty, the only case in which it calls `set`) and `Update` hand to
`set` is the plan with `vpn_monitor.source_interface` computed: an unknown
value has become the value of `bind_interface` when `source_interface_auto` is
true and `bind_interface` is not null, and null otherwise, a value that is not
unknown is unchanged, and the result is never unknown. `Create` with an empty
name stops with an error before `set`. -/
theorem securityIpsecVpn_source_interface_computed (plan : securityIpsecVpnData)
    (vpnMonitor : securityIpsecVpnVpnMonitor) (h : plan.VpnMonitor = some vpnMonitor) :
    (plan.Name.ValueString = [] → securityIpsecVpn.Create plan = .error "Empty Name") ∧
    (plan.Name.ValueString ≠ [] →
      ∃ data, securityIpsecVpn.Create plan = .ok data ∧
        sourceInterfaceComputed plan vpnMonitor data) ∧
    sourceInterfaceComputed plan vpnMonitor (securityIpsecVpn.Update plan) := by
  obtain ⟨c, i, n, b, d, e, v⟩ := plan
  obtain ⟨o, a, dip, si⟩ := vpnMonitor
  simp only at h
  subst h
  refine ⟨fun hn => by simp [securityIpsecVpn.Create, hn], fun hn => ?_, ?_⟩
  · simp only [securityIpsecVpn.Create, hn, if_false]
    cases si <;> cases a with
      | null => cases b <;> simp [sourceInterfaceComputed, TFValue.IsUnknown, TFValue.ValueBool, TFValue.IsNull]
      | unknown => cases b <;> simp [sourceInterfaceComputed, TFValue.IsUnknown, TFValue.ValueBool, TFValue.IsNull]
      | known x => cases x <;> cases b <;>
          simp [sourceInterfaceComputed, TFValue.IsUnknown, TFValue.ValueBool, TFValue.IsNull]
  · simp only [securityIpsecVpn.Update]
    cases si <;> cases a with
      | null => cases b <;> simp [sourceInterfaceComputed, TFValue.IsUnknown, TFValue.ValueBool, TFValue.IsNull]
      | unknown => cases b <;> simp [sourceInterfaceComputed, TFValue.IsUnknown, TFValue.ValueBool, TFValue.IsNull]
      | known x => cases x <;> cases b <;>
          simp [sourceInterfaceComputed, TFValue.IsUnknown, TFValue.ValueBool, TFValue.IsNull]

/-- C11, at a plan with `source_interface_auto = true`, `bind_interface = st0.1`
and an unknown `source_interface`, which `Create` resolves to `st0.1`. -/
theorem securityIpsecVpn_source_interface_computed_witness :
    exampleIpsecVpnPlan.VpnMonitor = some exampleIpsecVpnMonitor ∧
    (securityIpsecVpn.Create exampleIpsecVpnPlan).toOption.map
      (fun data => data.VpnMonitor.map (fun m => m.SourceInterface)) =
        some (some (.known "st0.1".toList)) ∧
    sourceInterfaceComputed exampleIpsecVpnPlan exampleIpsecVpnMonitor
      (securityIpsecVpn.Update exampleIpsecVpnPlan) :=
  ⟨rfl, by decide,
    (securityIpsecVpn_source_interface_computed exampleIpsecVpnPlan exampleIpsecVpnMonitor rfl).2.2⟩

/-! ## Physical interfaces present: the filters -/

theorem interfacesPhysicalPresent_readLoop
    (Compile : Str → Except String (Str → Bool))
    (config : interfacesPhysicalPresentDataSourceConfig)
    (hc : config.MatchName.ValueString = [] ∨
      ∃ re, Compile config.MatchName.ValueString = .ok re)
    (physicalInterface : List PhysicalInterface)
    (dscData : interfacesPhysicalPresentDataSourceData) :
    interfacesPhysicalPresentDataSourceData.readLoop Compile config physicalInterface dscData =
      .ok { dscData with
        InterfaceNames := dscData.InterfaceNames ++
          ((physicalInterface.filter (passesFilters Compile config)).map trimmedStatuses).map
            (fun s => s.Name)
        InterfaceStatuses := dscData.InterfaceStatuses ++
          (physicalInterface.filter (passesFilters Compile config)).map trimmedStatuses } := by
  induction physicalInterface generalizing dscData with
  | nil => simp [interfacesPhysicalPresentDataSourceData.readLoop]
  | cons iFace rest ih =>
    simp only [interfacesPhysicalPresentDataSourceData.readLoop, ih, List.filter_cons]
    by_cases ha : config.MatchAdminUp.ValueBool = true <;>
    by_cases ho : config.MatchOperUp.ValueBool = true <;>
    by_cases h1 : TrimSpace iFace.AdminStatus = ['u', 'p'] <;>
    by_cases h2 : TrimSpace iFace.OperStatus = ['u', 'p'] <;>
    rcases hc with hc | ⟨re, hc⟩ <;>
    first
    | (simp [hc, ha, ho, h1, h2, passesFilters, MatchString, trimmedStatuses]; done)
    | (by_cases hn : config.MatchName.ValueString = [] <;>
       cases hre : re (TrimSpace iFace.Name) <;>
       simp [hc, hn, hre, ha, ho, h1, h2, passesFilters, MatchString, trimmedStatuses])

/-- C12: when `match_name` is empty or compiles as a regular expression, `read`
succeeds and `interface_statuses` is, in the order of the reply, the list of
(trimmed name, trimmed admin status, trimmed oper status) of the interfaces that
pass the filters; `interface_names` has the same length and its element `i` is
the name of element `i` of `interface_statuses`. -/
theorem interfacesPhysicalPresent_read_filters
    (Compile : Str → Except String (Str → Bool))
    (config : interfacesPhysicalPresentDataSourceConfig)
    (physicalInterface : List PhysicalInterface)
    (hc : config.MatchName.ValueString = [] ∨
      ∃ re, Compile config.MatchName.ValueString = .ok re) :
    ∃ data, interfacesPhysicalPresentDataSourceData.read Compile config (.ok physicalInterface) =
        .ok data ∧
      data.InterfaceStatuses =
        (physicalInterface.filter (passesFilters Compile config)).map trimmedStatuses ∧
      data.InterfaceNames.length = data.InterfaceStatuses.length ∧
      ∀ i : Nat, data.InterfaceNames[i]? = (data.InterfaceStatuses[i]?).map (fun s => s.Name) := by
  refine ⟨_, interfacesPhysicalPresent_readLoop Compile config hc physicalInterface {}, ?_, ?_, ?_⟩
  · simp
  · simp
  · intro i
    simp [List.getElem?_map]

/-- C12, on a reply of three interfaces filtered on the name `ge-` and on the
admin status: only the first one is returned, trimmed. -/
theorem interfacesPhysicalPresent_read_filters_witness :
    (exampleInterfacesConfig.MatchName.ValueString = [] ∨
      ∃ re, exampleCompile exampleInterfacesConfig.MatchName.ValueString = .ok re) ∧
    (∃ data, interfacesPhysicalPresentDataSourceData.read exampleCompile exampleInterfacesConfig
        (.ok exampleInterfacesReply) = .ok data ∧
      data.InterfaceStatuses =
        (exampleInterfacesReply.filter (passesFilters exampleCompile exampleInterfacesConfig)).map
          trimmedStatuses ∧
      data.InterfaceNames.length = data.InterfaceStatuses.length ∧
      ∀ i : Nat, data.InterfaceNames[i]? = (data.InterfaceStatuses[i]?).map (fun s => s.Name)) ∧
    (exampleInterfacesReply.filter (passesFilters exampleCompile exampleInterfacesConfig)).map
        trimmedStatuses =
      [{ Name := .known "ge-0/0/0".toList, AdminStatus := .known "up".toList,
         OperStatus := .known "down".toList }] :=
  ⟨.inr ⟨_, rfl⟩,
    interfacesPhysicalPresent_read_filters exampleCompile exampleInterfacesConfig
      exampleInterfacesReply (.inr ⟨_, rfl⟩),
    by decide⟩

/-! ## `validateNameObjectJunos`: the length check -/

/-- C16, counterexample: with length 64, as used for routing_instance, a name of
64 characters gets the error `invalid name (too long)`. -/
theorem validateNameObjectJunos_length_counterexample :
    validateNameObjectJunos [] 64 formatDefault (List.replicate 64 'a') =
      [List.replicate 64 'a' ++ " invalid name (too long)".toList] := by
  decide

/-- C16, amended: `validateNameObjectJunos(exclude, length, format)` adds the
error `invalid name (too long)` exactly when the name has at least `length`
characters, so it accepts names of up to `length - 1` characters. -/
theorem validateNameObjectJunos_too_long_iff (exclude : List Str) (length : Nat)
    (format : formatName) (v : Str) :
    (v ++ " invalid name (too long)".toList) ∈ validateNameObjectJunos exclude length format v ↔
      length ≤ v.length := by
  have hbad : v ++ " invalid name (too long)".toList ≠ v ++ " invalid name (bad character)".toList := by
    intro h
    have := List.append_cancel_left h
    revert this
    decide
  have hint : v ++ " invalid name (too long)".toList ≠
      "internal error: validateNameObjectJunos function called with a bad argument".toList := by
    intro h
    have h2 := congrArg (fun l => l.getLast?) h
    have a1 : " invalid name (too long)".toList.getLast? = some ')' := by decide
    have a2 : "internal error: validateNameObjectJunos function called with a bad argument".toList.getLast? =
        some 't' := by decide
    simp [List.getLast?_append, a1, a2] at h2
  have hexp : v ++ " invalid name (too long)".toList ≠
      "expected value to not be one of [".toList ++
        Join (exclude.map (fun e => "\"".toList ++ e ++ "\"".toList)) " ".toList ++
        "], got ".toList ++ v := by
    intro h
    have h2 := congrArg List.length h
    simp only [List.length_append] at h2
    have a1 : " invalid name (too long)".toList.length = 24 := by decide
    have a2 : "expected value to not be one of [".toList.length = 33 := by decide
    have a3 : "], got ".toList.length = 7 := by decide
    omega
  unfold validateNameObjectJunos
  simp only [List.mem_append]
  constructor
  · rintro ((h | h) | h)
    · split at h
      · omega
      · simp at h
    · repeat' split at h
      all_goals first
        | (simp only [List.mem_singleton] at h; first | exact absurd h hbad | exact absurd h hint)
        | simp at h
    · split at h
      · simp only [List.mem_singleton] at h; exact absurd h hexp
      · simp at h
  · intro h
    left; left
    rw [if_pos (by omega)]
    simp

/-- C16, amended, at length 64: a name of 63 characters is accepted, and names
of 64 and 65 characters are rejected. -/
theorem validateNameObjectJunos_too_long_iff_witness :
    validateNameObjectJunos [] 64 formatDefault (List.replicate 63 'a') = [] ∧
    ((List.replicate 65 'a' ++ " invalid name (too long)".toList) ∈
        validateNameObjectJunos [] 64 formatDefault (List.replicate 65 'a') ↔
      64 ≤ (List.replicate 65 'a').length) :=
  ⟨by decide, validateNameObjectJunos_too_long_iff [DefaultW] 64 formatDefault _⟩

/-! ## Sessions, the global mutex and the candidate configuration -/

/-- C13: `resourceGenerateRouteRead` closes the session that the NETCONF
connect established exactly when `StartNewSession` found a hardware model. When
the model of the device could not be read (`HardwareModel` empty),
`StartNewSession` returns the session together with an error, the function
returns before its `defer junSess.Close()`, and the trace is the connect alone:
the session is established and never closed. -/
theorem resourceGenerateRouteRead_session_close (d : generateRouteResourceData)
    (netconfNewSession : Except String Session) (answer : CommandResult) :
    (Event.netconfNewSession ∈ (resourceGenerateRouteRead d netconfNewSession answer).1 ↔
      ∃ sess, netconfNewSession = .ok sess) ∧
    (Event.Close ∈ (resourceGenerateRouteRead d netconfNewSession answer).1 ↔
      ∃ sess, netconfNewSession = .ok sess ∧ sess.HardwareModel ≠ []) ∧
    (resourceGenerateRouteRead d (.ok { HardwareModel := [] }) answer).1 =
      [Event.netconfNewSession] := by
  refine ⟨?_, ?_, ?_⟩
  · cases netconfNewSession with
    | error e =>
      simp [resourceGenerateRouteRead, StartNewSession, StartNewSession.events, emit, FromErr]
    | ok sess =>
      by_cases hm : sess.HardwareModel = [] <;>
      simp [resourceGenerateRouteRead, StartNewSession, StartNewSession.events, emit, FromErr, hm]
  · cases netconfNewSession with
    | error e =>
      simp [resourceGenerateRouteRead, StartNewSession, StartNewSession.events, emit, FromErr]
    | ok sess =>
      by_cases hm : sess.HardwareModel = [] <;>
      simp [resourceGenerateRouteRead, StartNewSession, StartNewSession.events, emit, FromErr, hm]
  · simp [resourceGenerateRouteRead, StartNewSession, StartNewSession.events, emit, FromErr]

theorem resourceGenerateRouteReadWJunSess_events (d : generateRouteResourceData)
    (answer : CommandResult) :
    (resourceGenerateRouteReadWJunSess d answer).1 =
      [Event.MutexLock, Event.Command, Event.MutexUnlock] := by
  unfold resourceGenerateRouteReadWJunSess
  rcases readGenerateRoute d.destination d.routing_instance answer with ⟨o, _ | e⟩ <;>
    simp [emit]

/-- C19: on every path of `resourceGenerateRouteReadWJunSess` and of
`resourcePolicyoptionsCommunityRead`, whatever the session and the device
answer, the calls on the global mutex are one lock followed by one unlock. -/
theorem read_mutex_lock_unlock (d : generateRouteResourceData)
    (c : policyoptionsCommunityResourceData) (startNewSession : Option String)
    (answer : CommandResult) :
    mutexEvents (resourceGenerateRouteReadWJunSess d answer).1 =
      [Event.MutexLock, Event.MutexUnlock] ∧
    mutexEvents (resourcePolicyoptionsCommunityRead c startNewSession answer).1 =
      [Event.MutexLock, Event.MutexUnlock] := by
  constructor
  · rw [resourceGenerateRouteReadWJunSess_events]
    decide
  · unfold resourcePolicyoptionsCommunityRead
    cases startNewSession with
    | some err => simp [emit, mutexEvents, List.filter]
    | none =>
      cases readPolicyoptionsCommunity c.name answer <;>
        simp [emit, mutexEvents, List.filter]

/-- C14: in `resourceGenerateRouteCreate`, once the session is started and
`ConfigLock` has succeeded: when a step up to and including the commit fails,
`ConfigClear` is called exactly once, the last two calls are `ConfigClear` and
the deferred `Close`, and the last diagnostic returned is an error; when the
failing step comes before the commit, `CommitConf` is never called, and when it
is the commit, `CommitConf` was called once; when no step up to the commit
fails, `ConfigClear` is never called and `CommitConf` is called once. -/
theorem resourceGenerateRouteCreate_config_clear (d : generateRouteResourceData)
    (w : generateRouteCreateAnswers) (sess : Session)
    (hs : w.netconfNewSession = .ok sess) (hm : sess.HardwareModel ≠ [])
    (hl : w.ConfigLock = none) :
    (failsUpToCommit d w = true →
      (resourceGenerateRouteCreate d w).1.count Event.ConfigClear = 1 ∧
      (resourceGenerateRouteCreate d w).1.reverse.take 2 = [Event.Close, Event.ConfigClear] ∧
      (resourceGenerateRouteCreate d w).2.getLast?.map (fun g => g.Severity) =
        some Severity.Error ∧
      (resourceGenerateRouteCreate d w).1.count Event.CommitConf =
        if failsBeforeCommit d w then 0 else 1) ∧
    (failsUpToCommit d w = false →
      (resourceGenerateRouteCreate d w).1.count Event.ConfigClear = 0 ∧
      (resourceGenerateRouteCreate d w).1.count Event.CommitConf = 1) := by
  obtain ⟨ncs, lock, cri, cge, cs, ⟨cw, ce⟩, cc, cga, rg⟩ := w
  simp only at hs hl
  subst hs hl
  have hrd := resourceGenerateRouteReadWJunSess_events d rg
  by_cases hri : d.routing_instance = DefaultW
  · rcases cge with e2 | s2
    · simp [resourceGenerateRouteCreate, failsUpToCommit, failsBeforeCommit,
        StartNewSession, StartNewSession.events, checkGenerateRouteExists, emit, FromErr,
        appendDiagWarns, hm, hri, hrd]
    · by_cases h2 : s2 = EmptyW
      · rcases cs with _ | e3
        · rcases ce with _ | e4
          · rcases cga with e5 | s5
            · simp [resourceGenerateRouteCreate, failsUpToCommit, failsBeforeCommit,
                StartNewSession, StartNewSession.events, checkGenerateRouteExists, emit, FromErr,
                appendDiagWarns, hm, hri, hrd, h2]
            · by_cases h5 : s5 = EmptyW <;>
                simp [resourceGenerateRouteCreate, failsUpToCommit, failsBeforeCommit,
                  StartNewSession, StartNewSession.events, checkGenerateRouteExists, emit, FromErr,
                  appendDiagWarns, hm, hri, hrd, h2, h5]
          · simp [resourceGenerateRouteCreate, failsUpToCommit, failsBeforeCommit,
              StartNewSession, StartNewSession.events, checkGenerateRouteExists, emit, FromErr,
              appendDiagWarns, hm, hri, hrd, h2]
        · simp [resourceGenerateRouteCreate, failsUpToCommit, failsBeforeCommit,
            StartNewSession, StartNewSession.events, checkGenerateRouteExists, emit, FromErr,
            appendDiagWarns, hm, hri, hrd, h2]
      · simp [resourceGenerateRouteCreate, failsUpToCommit, failsBeforeCommit,
          StartNewSession, StartNewSession.events, checkGenerateRouteExists, emit, FromErr,
          appendDiagWarns, hm, hri, hrd, h2]
  · rcases cri with e1 | _ | _
    · simp [resourceGenerateRouteCreate, failsUpToCommit, failsBeforeCommit,
        StartNewSession, StartNewSession.events, checkGenerateRouteExists, emit, FromErr,
        appendDiagWarns, hm, hri, hrd]
    · simp [resourceGenerateRouteCreate, failsUpToCommit, failsBeforeCommit,
        StartNewSession, StartNewSession.events, checkGenerateRouteExists, emit, FromErr,
        appendDiagWarns, hm, hri, hrd]
    · rcases cge with e2 | s2
      · simp [resourceGenerateRouteCreate, failsUpToCommit, failsBeforeCommit,
          StartNewSession, StartNewSession.events, checkGenerateRouteExists, emit, FromErr,
          appendDiagWarns, hm, hri, hrd]
      · by_cases h2 : s2 = EmptyW
        · rcases cs with _ | e3
          · rcases ce with _ | e4
            · rcases cga with e5 | s5
              · simp [resourceGenerateRouteCreate, failsUpToCommit, failsBeforeCommit,
                  StartNewSession, StartNewSession.events, checkGenerateRouteExists, emit, FromErr,
                  appendDiagWarns, hm, hri, hrd, h2]
              · by_cases h5 : s5 = EmptyW <;>
                  simp [resourceGenerateRouteCreate, failsUpToCommit, failsBeforeCommit,
                    StartNewSession, StartNewSession.events, checkGenerateRouteExists, emit, FromErr,
                    appendDiagWarns, hm, hri, hrd, h2, h5]
            · simp [resourceGenerateRouteCreate, failsUpToCommit, failsBeforeCommit,
                StartNewSession, StartNewSession.events, checkGenerateRouteExists, emit, FromErr,
                appendDiagWarns, hm, hri, hrd, h2]
          · simp [resourceGenerateRouteCreate, failsUpToCommit, failsBeforeCommit,
              StartNewSession, StartNewSession.events, checkGenerateRouteExists, emit, FromErr,
              appendDiagWarns, hm, hri, hrd, h2]
        · simp [resourceGenerateRouteCreate, failsUpToCommit, failsBeforeCommit,
            StartNewSession, StartNewSession.events, checkGenerateRouteExists, emit, FromErr,
            appendDiagWarns, hm, hri, hrd, h2]

/-- C14, at answers in which the commit returns an error after a warning: the
calls are connect, lock, existence check, set, commit, clear, close. -/
theorem resourceGenerateRouteCreate_config_clear_witness :
    exampleCreateCommitFails.netconfNewSession = .ok exampleSession ∧
    exampleSession.HardwareModel ≠ [] ∧
    exampleCreateCommitFails.ConfigLock = none ∧
    failsUpToCommit exampleGenerateRoute exampleCreateCommitFails = true ∧
    (resourceGenerateRouteCreate exampleGenerateRoute exampleCreateCommitFails).1 =
      [Event.netconfNewSession, Event.ConfigLock, Event.Command,
        Event.ConfigSet (setGenerateRoute exampleGenerateRoute), Event.CommitConf,
        Event.ConfigClear, Event.Close] ∧
    (resourceGenerateRouteCreate exampleGenerateRoute exampleCreateCommitFails).1.count
      Event.ConfigClear = 1 :=
  ⟨rfl, by decide, rfl, by decide, by decide,
    ((resourceGenerateRouteCreate_config_clear exampleGenerateRoute exampleCreateCommitFails
      exampleSession rfl (by decide) rfl).1 (by decide)).1⟩

/-! ## BGP neighbor: the lines of `set` and the computed `metric_out_igp` -/

/-- C15, counterexample: for group `g`, ip `1.2.3.4`, the default routing
instance and `passive = true`, `set` sends two lines, the bare statement and the
`passive` line, both with the group name between double quotes; the line
`set protocols bgp group g neighbor 1.2.3.4 passive` is not among them. -/
theorem bgpNeighborData_set_passive_counterexample :
    exampleBgpPassive.set =
      ["set protocols bgp group \"g\" neighbor 1.2.3.4 ".toList,
       "set protocols bgp group \"g\" neighbor 1.2.3.4 passive".toList] ∧
    "set protocols bgp group g neighbor 1.2.3.4 passive".toList ∉ exampleBgpPassive.set := by
  decide

/-- C15, amended: for a BGP neighbor in the default routing instance (the
attribute null, empty or `default`) with `passive = true`, `set` sends the line
`set protocols bgp group "<group>" neighbor <ip> passive`, the group name
between double quotes. -/
theorem bgpNeighborData_set_passive (rscData : bgpNeighborData)
    (hri : rscData.RoutingInstance.ValueString = [] ∨
      rscData.RoutingInstance.ValueString = DefaultW)
    (hp : rscData.Passive = .known true) :
    ("set protocols bgp group \"".toList ++ rscData.Group.ValueString ++
      "\" neighbor ".toList ++ rscData.IP.ValueString ++ " passive".toList) ∈ rscData.set := by
  have hpre : rscData.setPrefix = "set protocols bgp group \"".toList ++
      rscData.Group.ValueString ++ "\"".toList ++ " neighbor ".toList ++
      rscData.IP.ValueString ++ " ".toList := by
    unfold bgpNeighborData.setPrefix
    rw [if_neg]
    intro h
    rcases hri with h1 | h1
    · exact h.1 h1
    · exact h.2 h1
  have hline : rscData.setPrefix ++ "passive".toList ∈ rscData.set := by
    unfold bgpNeighborData.set bgpNeighborData.configSet
    simp [lineIf, hp, TFValue.ValueBool]
  rw [hpre] at hline
  simpa [List.append_assoc] using hline

/-- C15, amended, at group `g` and ip `1.2.3.4`. -/
theorem bgpNeighborData_set_passive_witness :
    (exampleBgpPassive.RoutingInstance.ValueString = [] ∨
      exampleBgpPassive.RoutingInstance.ValueString = DefaultW) ∧
    exampleBgpPassive.Passive = .known true ∧
    "set protocols bgp group \"g\" neighbor 1.2.3.4 passive".toList ∈ exampleBgpPassive.set :=
  ⟨.inl rfl, rfl, bgpNeighborData_set_passive exampleBgpPassive (.inl rfl) rfl⟩

theorem bgpNeighbor_Create_eq (plan : bgpNeighborData) (hip : plan.IP.ValueString ≠ [])
    (hg : plan.Group.ValueString ≠ []) :
    bgpNeighbor.Create plan = .ok
      { plan with
        AdvertiseExternal :=
          if plan.AdvertiseExternal.IsUnknown then
            (if plan.AdvertiseExternalConditional.ValueBool then .known true else .null)
          else plan.AdvertiseExternal
        MetricOutIgp :=
          if plan.MetricOutIgp.IsUnknown then
            (if !plan.MetricOutIgpOffset.IsNull then .known true
             else if plan.MetricOutIgpDelayMedUpdate.ValueBool then .known true else .null)
          else plan.MetricOutIgp
        MetricOutMinimumIgp :=
          if plan.MetricOutMinimumIgp.IsUnknown then
            (if !plan.MetricOutMinimumIgpOffset.IsNull then .known true else .null)
          else plan.MetricOutMinimumIgp } := by
  simp only [bgpNeighbor.Create, hip, hg, if_false]

theorem Itoa_ne_delay_med_update (n : Int) :
    Itoa n ≠ ['d', 'e', 'l', 'a', 'y', '-', 'm', 'e', 'd', '-', 'u', 'p', 'd', 'a', 't', 'e'] := by
  intro h
  have hc := Itoa_char n 'd' (by rw [h]; decide)
  rcases hc with h1 | ⟨d, hd, h2⟩
  · exact absurd h1 (by decide)
  · interval_cases d <;> exact absurd h2 (by decide)

theorem bgpNeighborData_readItem_nil (JunosDecode : Str → Except String (TFValue Str))
    (blockRead : String → Str → Option String) (st : bgpNeighborData) :
    bgpNeighborData.readItem JunosDecode blockRead [] st = (st, none) := by
  simp [bgpNeighborData.readItem, bgpNeighborData.readBlocks, CutPrefixInString, HasPrefix]

theorem bgpNeighborData_readItem_igp (JunosDecode : Str → Except String (TFValue Str))
    (blockRead : String → Str → Option String) (st : bgpNeighborData) :
    bgpNeighborData.readItem JunosDecode blockRead "metric-out igp".toList st =
      ({ st with MetricOutIgp := .known true }, none) := by
  simp [bgpNeighborData.readItem, bgpNeighborData.readMetricOut, CutPrefixInString, HasPrefix,
    TrimPrefix]

theorem bgpNeighborData_readItem_igp_delay (JunosDecode : Str → Except String (TFValue Str))
    (blockRead : String → Str → Option String) (st : bgpNeighborData) :
    bgpNeighborData.readItem JunosDecode blockRead "metric-out igp delay-med-update".toList st =
      ({ st with MetricOutIgp := .known true, MetricOutIgpDelayMedUpdate := .known true },
        none) := by
  simp [bgpNeighborData.readItem, bgpNeighborData.readMetricOut, CutPrefixInString, HasPrefix,
    TrimPrefix]

theorem bgpNeighborData_readItem_igp_offset (JunosDecode : Str → Except String (TFValue Str))
    (blockRead : String → Str → Option String) (n : Int) (hn : inInt64 n)
    (st : bgpNeighborData) :
    bgpNeighborData.readItem JunosDecode blockRead
        ("metric-out igp ".toList ++ ConvI64toa n) st =
      ({ st with MetricOutIgp := .known true, MetricOutIgpOffset := .known n }, none) := by
  simp [bgpNeighborData.readItem, bgpNeighborData.readMetricOut, CutPrefixInString, HasPrefix,
    TrimPrefix, ConvAtoi64Value, ConvI64toa, Atoi_Itoa n hn, Itoa_ne_delay_med_update]

theorem bgpNeighborData_metricOutIgpLines_map (pre : Str) (data : bgpNeighborData) :
    data.metricOutIgpLines pre = (data.metricOutIgpLines []).map (fun b => pre ++ b) := by
  simp only [bgpNeighborData.metricOutIgpLines, lineIf, List.nil_append, List.map_append,
    apply_ite (List.map (fun b => pre ++ b)), List.map_cons, List.map_nil, List.append_assoc]

theorem bgpNeighborData_metricOutIgpLines_mem (data : bgpNeighborData) :
    ∀ l ∈ data.metricOutIgpLines data.setPrefix, l ∈ data.set := by
  intro l hl
  simp only [bgpNeighborData.metricOutIgpLines, List.mem_append] at hl
  unfold bgpNeighborData.set bgpNeighborData.configSet
  simp only [List.mem_append]
  rcases hl with (hl | hl) | hl
  · left; left; left; left; left; left; left; left; left; left; left; left; left; right
    exact hl
  · left; left; left; left; left; left; left; left; left; left; left; left; right
    exact hl
  · left; left; left; left; left; left; left; left; left; left; left; right
    exact hl

theorem bgpNeighborData_readLoop_metricOutIgp (JunosDecode : Str → Except String (TFValue Str))
    (blockRead : String → Str → Option String) (data st : bgpNeighborData)
    (higp : data.MetricOutIgp =
      if data.MetricOutIgpDelayMedUpdate = .known true ∨ data.MetricOutIgpOffset.IsNull = false
      then .known true else .null)
    (hd : data.MetricOutIgpDelayMedUpdate.nullOrTrue = true)
    (ho : data.MetricOutIgpOffset.nullOrInt64 = true)
    (h1 : st.MetricOutIgp = .null) (h2 : st.MetricOutIgpDelayMedUpdate = .null)
    (h3 : st.MetricOutIgpOffset = .null) :
    displaySetRelative data.setPrefix (data.metricOutIgpLines data.setPrefix) ≠ EmptyW ∧
    ∃ rd, forEachConfigLine (bgpNeighborData.readItem JunosDecode blockRead)
        (Split (displaySetRelative data.setPrefix (data.metricOutIgpLines data.setPrefix)) LF)
        st = (rd, none) ∧
      rd.MetricOutIgp = data.MetricOutIgp ∧
      rd.MetricOutIgpDelayMedUpdate = data.MetricOutIgpDelayMedUpdate ∧
      rd.MetricOutIgpOffset = data.MetricOutIgpOffset := by
  rw [bgpNeighborData_metricOutIgpLines_map, displaySetRelative_map]
  have hcI : Contains "metric-out igp".toList XMLStartTagConfigOut = false ∧
      Contains "metric-out igp".toList XMLEndTagConfigOut = false := by decide
  have hcD : Contains "metric-out igp delay-med-update".toList XMLStartTagConfigOut = false ∧
      Contains "metric-out igp delay-med-update".toList XMLEndTagConfigOut = false := by decide
  cases hD : data.MetricOutIgpDelayMedUpdate with
  | unknown => simp [hD, TFValue.nullOrTrue] at hd
  | null =>
    cases hO : data.MetricOutIgpOffset with
    | unknown => simp [hO, TFValue.nullOrInt64] at ho
    | null =>
      have hI : data.MetricOutIgp = .null := by simpa [hD, hO, TFValue.IsNull] using higp
      have hb : data.metricOutIgpLines [] = [] := by
        simp [bgpNeighborData.metricOutIgpLines, lineIf, hI, hD, hO, TFValue.ValueBool,
          TFValue.IsNull]
      rw [hb]
      refine ⟨by decide, st, ?_, by rw [h1, hI], by rw [h2], by rw [h3]⟩
      have hs : Split (Join (List.map (fun b => SetLS ++ b) []) LF) LF = [[]] := by decide
      rw [hs, forEachConfigLine]
      have e1 : Contains [] XMLStartTagConfigOut = false := by decide
      have e2 : Contains [] XMLEndTagConfigOut = false := by decide
      have e3 : TrimPrefix [] SetLS = [] := by decide
      simp only [e1, e2, e3, Bool.false_eq_true, if_false, bgpNeighborData_readItem_nil]
      rfl
    | known n =>
      have hn : inInt64 n := by simpa [hO, TFValue.nullOrInt64] using ho
      have hI : data.MetricOutIgp = .known true := by simpa [hD, hO, TFValue.IsNull] using higp
      have hb : data.metricOutIgpLines [] =
          ["metric-out igp".toList, "metric-out igp ".toList ++ ConvI64toa n] := by
        simp [bgpNeighborData.metricOutIgpLines, lineIf, hI, hD, hO, TFValue.ValueBool,
          TFValue.IsNull, TFValue.ValueInt64]
      have hcO := tagFree_literal_append "metric-out igp ".toList (ConvI64toa n) (by decide)
        (Itoa_clean n)
      have hl := reply_lines (data.metricOutIgpLines []) (by rw [hb]; simp) (by
        rw [hb]
        intro b hbm
        simp only [List.mem_cons, List.mem_singleton, List.not_mem_nil, or_false] at hbm
        rcases hbm with rfl | rfl
        · decide
        · exact lineFeedFree_literal_append _ _ (by decide) (Itoa_clean n))
      refine ⟨hl.1, ?_⟩
      rw [hl.2, hb]
      simp only [List.map_cons, List.map_nil]
      rw [forEachConfigLine_step _ _ _ _ _ hcI (bgpNeighborData_readItem_igp _ _ _),
        forEachConfigLine_step _ _ _ _ _ hcO (bgpNeighborData_readItem_igp_offset _ _ n hn _)]
      exact ⟨_, rfl, by rw [hI], by rw [h2], rfl⟩
  | known b =>
    cases b with
    | false => simp [hD, TFValue.nullOrTrue] at hd
    | true =>
      have hI : data.MetricOutIgp = .known true := by simpa [hD] using higp
      cases hO : data.MetricOutIgpOffset with
      | unknown => simp [hO, TFValue.nullOrInt64] at ho
      | null =>
        have hb : data.metricOutIgpLines [] =
            ["metric-out igp".toList, "metric-out igp delay-med-update".toList] := by
          simp [bgpNeighborData.metricOutIgpLines, lineIf, hI, hD, hO, TFValue.ValueBool,
            TFValue.IsNull]
        have hl := reply_lines (data.metricOutIgpLines []) (by rw [hb]; simp) (by
          rw [hb]; decide)
        refine ⟨hl.1, ?_⟩
        rw [hl.2, hb]
        simp only [List.map_cons, List.map_nil]
        rw [forEachConfigLine_step _ _ _ _ _ hcI (bgpNeighborData_readItem_igp _ _ _),
          forEachConfigLine_step _ _ _ _ _ hcD (bgpNeighborData_readItem_igp_delay _ _ _)]
        exact ⟨_, rfl, by rw [hI], rfl, by rw [h3]⟩
      | known n =>
        have hn : inInt64 n := by simpa [hO, TFValue.nullOrInt64] using ho
        have hb : data.metricOutIgpLines [] =
            ["metric-out igp".toList, "metric-out igp delay-med-update".toList,
              "metric-out igp ".toList ++ ConvI64toa n] := by
          simp [bgpNeighborData.metricOutIgpLines, lineIf, hI, hD, hO, TFValue.ValueBool,
            TFValue.IsNull, TFValue.ValueInt64]
        have hcO := tagFree_literal_append "metric-out igp ".toList (ConvI64toa n) (by decide)
          (Itoa_clean n)
        have hl := reply_lines (data.metricOutIgpLines []) (by rw [hb]; simp) (by
          rw [hb]
          intro b hbm
          simp only [List.mem_cons, List.mem_singleton, List.not_mem_nil, or_false] at hbm
          rcases hbm with rfl | rfl | rfl
          · decide
          · decide
          · exact lineFeedFree_literal_append _ _ (by decide) (Itoa_clean n))
        refine ⟨hl.1, ?_⟩
        rw [hl.2, hb]
        simp only [List.map_cons, List.map_nil]
        rw [forEachConfigLine_step _ _ _ _ _ hcI (bgpNeighborData_readItem_igp _ _ _),
          forEachConfigLine_step _ _ _ _ _ hcD (bgpNeighborData_readItem_igp_delay _ _ _),
          forEachConfigLine_step _ _ _ _ _ hcO (bgpNeighborData_readItem_igp_offset _ _ n hn _)]
        exact ⟨_, rfl, by rw [hI], rfl, rfl⟩

theorem bgpNeighborData_fillID_metric (rscData : bgpNeighborData) :
    rscData.fillID.MetricOutIgp = rscData.MetricOutIgp ∧
    rscData.fillID.MetricOutIgpDelayMedUpdate = rscData.MetricOutIgpDelayMedUpdate ∧
    rscData.fillID.MetricOutIgpOffset = rscData.MetricOutIgpOffset := by
  unfold bgpNeighborData.fillID
  split <;> exact ⟨rfl, rfl, rfl⟩

/-- C18: for every plan with a non-empty ip and group whose `metric_out_igp` is
unknown, `bgpNeighbor.Create` hands to `set` a plan in which `metric_out_igp` is
true when `metric_out_igp_delay_med_update` is true or `metric_out_igp_offset`
is not null, and null otherwise, the two other attributes being unchanged; the
lines `metric-out igp`, `metric-out igp delay-med-update` and
`metric-out igp <n>` written for these attributes are lines of `set`; and when
the delay attribute is null or true and the offset is null or an `int64` (the
validators of the schema), `read` on the reply made of these lines returns no
error and the same three attributes, negative offsets included. -/
theorem bgpNeighbor_metric_out_igp_computed
    (JunosDecode : Str → Except String (TFValue Str))
    (blockRead : String → Str → Option String) (plan : bgpNeighborData)
    (hip : plan.IP.ValueString ≠ []) (hg : plan.Group.ValueString ≠ [])
    (hu : plan.MetricOutIgp = .unknown) :
    ∃ data, bgpNeighbor.Create plan = .ok data ∧
      data.MetricOutIgp =
        (if plan.MetricOutIgpDelayMedUpdate = .known true ∨
            plan.MetricOutIgpOffset.IsNull = false then .known true else .null) ∧
      data.MetricOutIgpDelayMedUpdate = plan.MetricOutIgpDelayMedUpdate ∧
      data.MetricOutIgpOffset = plan.MetricOutIgpOffset ∧
      (∀ l ∈ data.metricOutIgpLines data.setPrefix, l ∈ data.set) ∧
      (plan.MetricOutIgpDelayMedUpdate.nullOrTrue = true →
        plan.MetricOutIgpOffset.nullOrInt64 = true →
        ∃ rd, bgpNeighborData.read JunosDecode blockRead plan.IP.ValueString
            plan.RoutingInstance.ValueString plan.Group.ValueString
            (.ok (displaySetRelative data.setPrefix (data.metricOutIgpLines data.setPrefix))) =
              (rd, none) ∧
          rd.MetricOutIgp = data.MetricOutIgp ∧
          rd.MetricOutIgpDelayMedUpdate = data.MetricOutIgpDelayMedUpdate ∧
          rd.MetricOutIgpOffset = data.MetricOutIgpOffset) := by
  cases hcr : bgpNeighbor.Create plan with
  | error e =>
    rw [bgpNeighbor_Create_eq plan hip hg] at hcr
    cases hcr
  | ok data =>
    rw [bgpNeighbor_Create_eq plan hip hg] at hcr
    have hdata := Except.ok.inj hcr
    have p1 : data.MetricOutIgp =
        (if plan.MetricOutIgp.IsUnknown then
          (if !plan.MetricOutIgpOffset.IsNull then TFValue.known true
           else if plan.MetricOutIgpDelayMedUpdate.ValueBool then TFValue.known true
           else TFValue.null)
        else plan.MetricOutIgp) := by rw [← hdata]
    have p2 : data.MetricOutIgpDelayMedUpdate = plan.MetricOutIgpDelayMedUpdate := by
      rw [← hdata]
    have p3 : data.MetricOutIgpOffset = plan.MetricOutIgpOffset := by rw [← hdata]
    have ha : data.MetricOutIgp =
        (if plan.MetricOutIgpDelayMedUpdate = .known true ∨
            plan.MetricOutIgpOffset.IsNull = false then .known true else .null) := by
      rw [p1, hu]
      cases hO : plan.MetricOutIgpOffset.IsNull <;>
        rcases hD : plan.MetricOutIgpDelayMedUpdate with _ | _ | _ | _ <;>
        simp [TFValue.IsUnknown, TFValue.ValueBool]
    refine ⟨data, rfl, ha, p2, p3, bgpNeighborData_metricOutIgpLines_mem data, ?_⟩
    intro hd ho
    obtain ⟨hne, rd, hrd, r1, r2, r3⟩ :=
      bgpNeighborData_readLoop_metricOutIgp JunosDecode blockRead data
        (bgpNeighborData.fillID
          { IP := .known plan.IP.ValueString
            RoutingInstance := if plan.RoutingInstance.ValueString = [] then .known DefaultW
                               else .known plan.RoutingInstance.ValueString
            Group := .known plan.Group.ValueString })
        (by rw [p2, p3]; exact ha) (by rw [p2]; exact hd) (by rw [p3]; exact ho)
        (bgpNeighborData_fillID_metric _).1 (bgpNeighborData_fillID_metric _).2.1
        (bgpNeighborData_fillID_metric _).2.2
    refine ⟨rd, ?_, r1, r2, r3⟩
    unfold bgpNeighborData.read
    simp only [ne_eq, hne, not_false_eq_true, if_true]
    exact hrd

/-- C18, at the plan of the acceptance test (delay set, offset -10): `Create`
resolves `metric_out_igp` to true, and the three lines are read back. -/
theorem bgpNeighbor_metric_out_igp_computed_witness :
    exampleBgpPlan.IP.ValueString ≠ [] ∧ exampleBgpPlan.Group.ValueString ≠ [] ∧
    exampleBgpPlan.MetricOutIgp = .unknown ∧
    exampleBgpPlan.MetricOutIgpDelayMedUpdate.nullOrTrue = true ∧
    exampleBgpPlan.MetricOutIgpOffset.nullOrInt64 = true ∧
    (∃ data, bgpNeighbor.Create exampleBgpPlan = .ok data ∧
      data.MetricOutIgp = .known true ∧
      data.metricOutIgpLines [] =
        ["metric-out igp".toList, "metric-out igp delay-med-update".toList,
          "metric-out igp -10".toList] ∧
      ∃ rd, bgpNeighborData.read exampleJunosDecode exampleBlockRead
          exampleBgpPlan.IP.ValueString exampleBgpPlan.RoutingInstance.ValueString
          exampleBgpPlan.Group.ValueString
          (.ok (displaySetRelative data.setPrefix (data.metricOutIgpLines data.setPrefix))) =
            (rd, none) ∧
        rd.MetricOutIgp = .known true ∧
        rd.MetricOutIgpDelayMedUpdate = .known true ∧
        rd.MetricOutIgpOffset = .known (-10)) := by
  refine ⟨by decide, by decide, rfl, rfl, by decide, ?_⟩
  obtain ⟨data, hc, h1, h2, h3, _, h5⟩ :=
    bgpNeighbor_metric_out_igp_computed exampleJunosDecode exampleBlockRead exampleBgpPlan
      (by decide) (by decide) rfl
  obtain ⟨rd, hr, r1, r2, r3⟩ := h5 rfl (by decide)
  have e1 : data.MetricOutIgp = .known true := by rw [h1]; decide
  have e2 : data.MetricOutIgpDelayMedUpdate = .known true := by rw [h2]; rfl
  have e3 : data.MetricOutIgpOffset = .known (-10) := by rw [h3]; rfl
  refine ⟨data, hc, e1, ?_, rd, hr, by rw [r1, e1], by rw [r2, e2], by rw [r3, e3]⟩
  simp only [bgpNeighborData.metricOutIgpLines, e1, e2, e3]
  decide

/-! ## Security address book: what `setSecurityAddressBook` rejects -/

theorem setSecurityAddressBook_attachZone_eq (name setPrefix : Str) (zones configSet : List Str) :
    setSecurityAddressBook.attachZone name setPrefix zones configSet =
      if name = "global".toList ∧ zones ≠ [] then
        .error "cannot attach global address book to a zone"
      else .ok (configSet ++ zones.map (fun z => setPrefix ++ " attach zone ".toList ++ z)) := by
  induction zones generalizing configSet with
  | nil => simp [setSecurityAddressBook.attachZone]
  | cons z rest ih =>
    by_cases hn : name = "global".toList
    · rw [setSecurityAddressBook.attachZone, if_pos hn, if_pos ⟨hn, List.cons_ne_nil _ _⟩]
    · rw [setSecurityAddressBook.attachZone, if_neg hn, ih, if_neg (fun h => hn h.1),
        if_neg (fun h => hn h.1)]
      simp

theorem setSecurityAddressBook_addresses_spec {α : Type} (nameOf : α → Str)
    (lines : Str → α → List Str) (setPrefix : Str) (xs : List α) (configSet names : List Str)
    (hnames : names.Nodup) :
    ((names ++ xs.map nameOf).Nodup ∧
      ∃ configSet1, setSecurityAddressBook.addresses nameOf lines setPrefix xs (configSet, names) =
        .ok (configSet1, names ++ xs.map nameOf)) ∨
    (¬(names ++ xs.map nameOf).Nodup ∧
      ∃ err, multipleSameName err ∧
        setSecurityAddressBook.addresses nameOf lines setPrefix xs (configSet, names) =
          .error err) := by
  induction xs generalizing configSet names with
  | nil =>
    left
    simpa [setSecurityAddressBook.addresses] using hnames
  | cons x rest ih =>
    by_cases hx : nameOf x ∈ names
    · right
      refine ⟨?_, "multiple addresses with the same name " ++ String.mk (nameOf x),
        ⟨nameOf x, .inl rfl⟩, by rw [setSecurityAddressBook.addresses, if_pos hx]⟩
      intro hnd
      rw [List.map_cons, List.nodup_append] at hnd
      exact hnd.2.2 hx (List.mem_cons_self _ _)
    · have hnames1 : (names ++ [nameOf x]).Nodup := by
        rw [List.nodup_append]
        refine ⟨hnames, List.nodup_singleton _, ?_⟩
        intro a ha hb
        rw [List.mem_singleton] at hb
        exact hx (hb ▸ ha)
      have heq : names ++ (x :: rest).map nameOf = (names ++ [nameOf x]) ++ rest.map nameOf := by
        simp
      rw [heq]
      rw [setSecurityAddressBook.addresses, if_neg hx]
      exact ih _ _ hnames1

theorem setSecurityAddressBook_addressSets_spec (setPrefix : Str)
    (xs : List addressBookAddressSet) (configSet names : List Str) (hnames : names.Nodup) :
    ((names ++ xs.map (fun s => s.name)).Nodup ∧
      (∀ s ∈ xs, ¬(s.address.length = 0 ∧ s.address_set.length = 0)) ∧
      ∃ configSet1, setSecurityAddressBook.addressSets setPrefix xs (configSet, names) =
        .ok (configSet1, names ++ xs.map (fun s => s.name))) ∨
    (¬((names ++ xs.map (fun s => s.name)).Nodup ∧
        ∀ s ∈ xs, ¬(s.address.length = 0 ∧ s.address_set.length = 0)) ∧
      ∃ err, setSecurityAddressBook.addressSets setPrefix xs (configSet, names) = .error err ∧
        ((∀ s ∈ xs, ¬(s.address.length = 0 ∧ s.address_set.length = 0)) →
          multipleSameName err)) := by
  induction xs generalizing configSet names with
  | nil =>
    left
    simpa [setSecurityAddressBook.addressSets] using hnames
  | cons x rest ih =>
    by_cases hx : x.name ∈ names
    · right
      refine ⟨?_, "multiple addresses or address-sets with the same name " ++ String.mk x.name,
        by rw [setSecurityAddressBook.addressSets, if_pos hx], fun _ => ⟨x.name, .inr rfl⟩⟩
      intro hnd
      have h1 := hnd.1
      rw [List.map_cons, List.nodup_append] at h1
      exact h1.2.2 hx (List.mem_cons_self _ _)
    · by_cases he : x.address.length = 0 ∧ x.address_set.length = 0
      · right
        refine ⟨?_, "at least one of address or address_set is required in address_set " ++
          String.mk x.name,
          by rw [setSecurityAddressBook.addressSets, if_neg hx, if_pos he], ?_⟩
        · intro hnd
          exact hnd.2 x (List.mem_cons_self _ _) he
        · intro hall
          exact absurd he (hall x (List.mem_cons_self _ _))
      · have hnames1 : (names ++ [x.name]).Nodup := by
          rw [List.nodup_append]
          refine ⟨hnames, List.nodup_singleton _, ?_⟩
          intro a ha hb
          rw [List.mem_singleton] at hb
          exact hx (hb ▸ ha)
        have heq : names ++ (x :: rest).map (fun s => s.name) =
            (names ++ [x.name]) ++ rest.map (fun s => s.name) := by simp
        rw [heq]
        rw [setSecurityAddressBook.addressSets, if_neg hx, if_neg he]
        rcases ih (configSet ++
            (sortSetOfString x.address).map
              (fun addr => setPrefix ++ " address-set ".toList ++ x.name ++ " ".toList ++
                "address ".toList ++ addr) ++
            (sortSetOfString x.address_set).map
              (fun addrSet => setPrefix ++ " address-set ".toList ++ x.name ++ " ".toList ++
                "address-set ".toList ++ addrSet) ++
            setSecurityAddressBook.descriptionLine
              (setPrefix ++ " address-set ".toList ++ x.name ++ " ".toList) x.description)
          (names ++ [x.name]) hnames1 with ⟨h1, h2, h3⟩ | ⟨h1, err, h2, h3⟩
        · left
          refine ⟨h1, ?_, h3⟩
          intro s hs
          rcases List.mem_cons.1 hs with rfl | hs
          · exact he
          · exact h2 s hs
        · right
          refine ⟨?_, err, h2, ?_⟩
          · intro hnd
            exact h1 ⟨hnd.1, fun s hs => hnd.2 s (List.mem_cons_of_mem _ hs)⟩
          · intro hall
            exact h3 (fun s hs => hall s (List.mem_cons_of_mem _ hs))

theorem setSecurityAddressBook_spec (d : securityAddressBookResourceData)
    (hga : ¬(d.name = "global".toList ∧ d.attach_zone ≠ [])) :
    (d.entryNames.Nodup ∧
      (∀ s ∈ d.address_set, ¬(s.address.length = 0 ∧ s.address_set.length = 0)) ∧
      ∃ configSet, setSecurityAddressBook d = .ok configSet) ∨
    (¬(d.entryNames.Nodup ∧
        ∀ s ∈ d.address_set, ¬(s.address.length = 0 ∧ s.address_set.length = 0)) ∧
      ∃ err, setSecurityAddressBook d = .error err ∧
        ((∀ s ∈ d.address_set, ¬(s.address.length = 0 ∧ s.address_set.length = 0)) →
          multipleSameName err)) := by
  have hE : d.entryNames =
      ((((([] ++ d.network_address.map (fun a => a.name)) ++
        d.wildcard_address.map (fun a => a.name)) ++ d.dns_name.map (fun a => a.name)) ++
        d.range_address.map (fun a => a.name)) ++ d.address_set.map (fun a => a.name)) := by
    simp [securityAddressBookResourceData.entryNames]
  rw [hE]
  unfold setSecurityAddressBook
  simp only [setSecurityAddressBook_attachZone_eq, if_neg hga]
  rcases setSecurityAddressBook_addresses_spec (fun a : addressBookAddress => a.name)
    setSecurityAddressBook.networkAddress ("set security address-book ".toList ++ d.name)
    d.network_address
    (lineIf (d.description != [])
        ("set security address-book ".toList ++ d.name ++ " description \"".toList ++
          d.description ++ "\"".toList) ++
      d.attach_zone.map
        (fun z => "set security address-book ".toList ++ d.name ++ " attach zone ".toList ++ z))
    [] List.nodup_nil with ⟨n1, c1, h1⟩ | ⟨n1, err, hm, h1⟩
  swap
  · right
    rw [h1]
    exact ⟨fun h => n1 (List.nodup_append.1 (List.nodup_append.1 (List.nodup_append.1
      (List.nodup_append.1 h.1).1).1).1).1, err, rfl, fun _ => hm⟩
  rw [h1]
  rcases setSecurityAddressBook_addresses_spec (fun a : addressBookAddress => a.name)
    setSecurityAddressBook.wildcardAddress ("set security address-book ".toList ++ d.name)
    d.wildcard_address c1 _ n1 with ⟨n2, c2, h2⟩ | ⟨n2, err, hm, h2⟩
  swap
  · right
    simp only [h2]
    exact ⟨fun h => n2 (List.nodup_append.1 (List.nodup_append.1
      (List.nodup_append.1 h.1).1).1).1, err, rfl, fun _ => hm⟩
  simp only [h2]
  rcases setSecurityAddressBook_addresses_spec (fun a : addressBookDnsName => a.name)
    setSecurityAddressBook.dnsName ("set security address-book ".toList ++ d.name)
    d.dns_name c2 _ n2 with ⟨n3, c3, h3⟩ | ⟨n3, err, hm, h3⟩
  swap
  · right
    simp only [h3]
    exact ⟨fun h => n3 (List.nodup_append.1 (List.nodup_append.1 h.1).1).1, err, rfl,
      fun _ => hm⟩
  simp only [h3]
  rcases setSecurityAddressBook_addresses_spec (fun a : addressBookRangeAddress => a.name)
    setSecurityAddressBook.rangeAddress ("set security address-book ".toList ++ d.name)
    d.range_address c3 _ n3 with ⟨n4, c4, h4⟩ | ⟨n4, err, hm, h4⟩
  swap
  · right
    simp only [h4]
    exact ⟨fun h => n4 (List.nodup_append.1 h.1).1, err, rfl, fun _ => hm⟩
  simp only [h4]
  rcases setSecurityAddressBook_addressSets_spec ("set security address-book ".toList ++ d.name)
    d.address_set c4 _ n4 with ⟨n5, m5, c5, h5⟩ | ⟨n5, err, h5, hm⟩
  · left
    simp only [h5]
    exact ⟨n5, m5, c5, rfl⟩
  · right
    simp only [h5]
    exact ⟨n5, err, rfl, hm⟩

/-- C17, counterexample: the book `global` attached to a zone with two network
addresses named `a` is rejected, but with the error of the attached zone, not
with an error `multiple addresses ... with the same name`. -/
theorem setSecurityAddressBook_rejects_counterexample :
    ¬exampleAddressBookGlobalAttached.entryNames.Nodup ∧
    setSecurityAddressBook exampleAddressBookGlobalAttached =
      .error "cannot attach global address book to a zone" ∧
    ¬multipleSameName "cannot attach global address book to a zone" := by
  refine ⟨by decide, by decide, ?_⟩
  rintro ⟨name, h | h⟩
  · have h1 := congrArg String.toList h
    simp at h1
  · have h1 := congrArg String.toList h
    simp at h1

/-- C17, amended: `setSecurityAddressBook` reaches `junSess.ConfigSet` exactly
when the book is not `global` with a non-empty attach_zone, no name occurs
twice among the entries of network_address, wildcard_address, dns_name,
range_address and address_set, and every address_set has an address or
address_set member; otherwise it returns an error before that call. The error
is `cannot attach global address book to a zone` for the book `global` with an
attach_zone, whatever the entries; and when that does not apply, a name occurs
twice and every address_set has a member, it is one of the two errors
`multiple addresses ... with the same name`. -/
theorem setSecurityAddressBook_rejects (d : securityAddressBookResourceData) :
    ((d.name = "global".toList ∧ d.attach_zone ≠ []) →
      setSecurityAddressBook d = .error "cannot attach global address book to a zone") ∧
    (¬(d.name = "global".toList ∧ d.attach_zone ≠ []) → ¬d.entryNames.Nodup →
      (∀ s ∈ d.address_set, ¬(s.address.length = 0 ∧ s.address_set.length = 0)) →
      ∃ err, multipleSameName err ∧ setSecurityAddressBook d = .error err) ∧
    ((∃ configSet, setSecurityAddressBook d = .ok configSet) ↔
      ¬(d.name = "global".toList ∧ d.attach_zone ≠ []) ∧ d.entryNames.Nodup ∧
        ∀ s ∈ d.address_set, ¬(s.address.length = 0 ∧ s.address_set.length = 0)) := by
  have hglobal : (d.name = "global".toList ∧ d.attach_zone ≠ []) →
      setSecurityAddressBook d = .error "cannot attach global address book to a zone" := by
    intro hga
    unfold setSecurityAddressBook
    simp only [setSecurityAddressBook_attachZone_eq, if_pos hga]
  refine ⟨hglobal, ?_, ?_⟩
  · intro hga hnd hall
    rcases setSecurityAddressBook_spec d hga with ⟨h1, _, _⟩ | ⟨_, err, h2, h3⟩
    · exact absurd h1 hnd
    · exact ⟨err, h3 hall, h2⟩
  · constructor
    · rintro ⟨configSet, hok⟩
      by_cases hga : d.name = "global".toList ∧ d.attach_zone ≠ []
      · rw [hglobal hga] at hok
        cases hok
      · rcases setSecurityAddressBook_spec d hga with ⟨h1, h2, _⟩ | ⟨_, err, h2, _⟩
        · exact ⟨hga, h1, h2⟩
        · rw [h2] at hok
          cases hok
    · rintro ⟨hga, hnd, hall⟩
      rcases setSecurityAddressBook_spec d hga with ⟨_, _, h3⟩ | ⟨h1, _⟩
      · exact h3
      · exact absurd ⟨hnd, hall⟩ h1

/-- C17, amended, at an address book with a network address and an address set
both named `a`: it is rejected with an error for the repeated name. -/
theorem setSecurityAddressBook_rejects_witness :
    ¬(exampleAddressBookSameName.name = "global".toList ∧
      exampleAddressBookSameName.attach_zone ≠ []) ∧
    ¬exampleAddressBookSameName.entryNames.Nodup ∧
    (∀ s ∈ exampleAddressBookSameName.address_set,
      ¬(s.address.length = 0 ∧ s.address_set.length = 0)) ∧
    setSecurityAddressBook exampleAddressBookSameName =
      .error "multiple addresses or address-sets with the same name a" ∧
    ∃ err, multipleSameName err ∧ setSecurityAddressBook exampleAddressBookSameName = .error err :=
  ⟨by decide, by decide, by decide, by decide,
    (setSecurityAddressBook_rejects exampleAddressBookSameName).2.1 (by decide) (by decide)
      (by decide)⟩

/-! ## Security address book: the address sets that `readSecurityAddressBook` rebuilds -/

theorem HasPrefix_exclusive (s p1 p2 : Str)
    (h : p1.take (min p1.length p2.length) ≠ p2.take (min p1.length p2.length))
    (h1 : HasPrefix s p1 = true) : HasPrefix s p2 = false := by
  by_contra h2
  rw [Bool.not_eq_false] at h2
  unfold HasPrefix at h1 h2
  rw [List.isPrefixOf_iff_prefix] at h1 h2
  obtain ⟨t1, e1⟩ := h1
  obtain ⟨t2, e2⟩ := h2
  apply h
  have e := congrArg (List.take (min p1.length p2.length)) (e1.trans e2.symm)
  rwa [List.take_append_of_le_length (Nat.min_le_left _ _),
    List.take_append_of_le_length (Nat.min_le_right _ _)] at e

theorem CutPrefixInString_exclusive (s p1 p2 : Str)
    (h : p1.take (min p1.length p2.length) ≠ p2.take (min p1.length p2.length))
    (h1 : (CutPrefixInString s p1).isSome = true) : CutPrefixInString s p2 = none := by
  unfold CutPrefixInString at h1 ⊢
  by_cases hp : HasPrefix s p1 = true
  · rw [if_neg (by rw [HasPrefix_exclusive s p1 p2 h hp]; simp)]
  · rw [if_neg hp] at h1
    cases h1

theorem readSecurityAddressBook_address_addressSet (itemTrim : Str)
    (confRead : addressBookOptions) (descMap : descMapT) :
    (readSecurityAddressBook.address itemTrim confRead descMap).1.1.addressSet =
      confRead.addressSet := by
  unfold readSecurityAddressBook.address
  simp only
  repeat' split
  all_goals rfl

theorem readSecurityAddressBookItem_addressSet (itemTrim : Str)
    (st : addressBookOptions × descMapT) :
    (readSecurityAddressBookItem itemTrim st).1.1.addressSet =
      match CutPrefixInString itemTrim "address-set ".toList with
      | some rest => readSecurityAddressBook.addressSet rest st.1.addressSet
      | none => st.1.addressSet := by
  unfold readSecurityAddressBookItem
  cases h1 : CutPrefixInString itemTrim "description ".toList with
  | some v =>
    rw [CutPrefixInString_exclusive itemTrim "description ".toList "address-set ".toList
      (by decide) (by rw [h1]; rfl)]
  | none =>
    cases h2 : CutPrefixInString itemTrim "address ".toList with
    | some v =>
      rw [CutPrefixInString_exclusive itemTrim "address ".toList "address-set ".toList
        (by decide) (by rw [h2]; rfl)]
      exact readSecurityAddressBook_address_addressSet _ _ _
    | none =>
      cases h3 : CutPrefixInString itemTrim "address-set ".toList with
      | some v => rfl
      | none =>
        cases h4 : CutPrefixInString itemTrim "attach zone ".toList <;> rfl

theorem readSecurityAddressBook_loop_addressSet (lines : List Str)
    (st st1 : addressBookOptions × descMapT)
    (hloop : forEachConfigLine readSecurityAddressBookItem lines st = (st1, none)) :
    st1.1.addressSet = (linesRead lines).foldl addressSetStep st.1.addressSet := by
  induction lines generalizing st with
  | nil =>
    simp only [forEachConfigLine, Prod.mk.injEq, and_true] at hloop
    rw [← hloop]
    rfl
  | cons item rest ih =>
    rw [forEachConfigLine] at hloop
    by_cases hs : Contains item XMLStartTagConfigOut = true
    · rw [if_pos hs] at hloop
      have hl : linesRead (item :: rest) = linesRead rest := by
        simp [linesRead, List.takeWhile_cons, List.filter_cons, hs]
      rw [hl]
      exact ih st hloop
    · rw [if_neg hs] at hloop
      rw [Bool.not_eq_true] at hs
      by_cases he : Contains item XMLEndTagConfigOut = true
      · rw [if_pos he] at hloop
        have hl : linesRead (item :: rest) = [] := by
          simp [linesRead, List.takeWhile_cons, hs, he]
        simp only [Prod.mk.injEq, and_true] at hloop
        rw [hl, ← hloop]
        rfl
      · rw [if_neg he] at hloop
        rw [Bool.not_eq_true] at he
        have hl : linesRead (item :: rest) = item :: linesRead rest := by
          simp [linesRead, List.takeWhile_cons, List.filter_cons, hs, he]
        have hstep := readSecurityAddressBookItem_addressSet (TrimPrefix item SetLS) st
        rcases hr : readSecurityAddressBookItem (TrimPrefix item SetLS) st with ⟨st2, _ | err⟩
        · rw [hr] at hloop hstep
          simp only at hloop
          rw [ih st2 hloop, hl, List.foldl_cons]
          congr 1
        · rw [hr] at hloop
          simp only [Prod.mk.injEq] at hloop
          exact absurd hloop.2 (by simp)

theorem copyAndRemoveItemMapList_list (m : addressBookAddressSet)
    (list : List addressBookAddressSet) (hnd : (list.map (fun e => e.name)).Nodup) :
    (copyAndRemoveItemMapList m list).2 = list.filter (fun e => decide (e.name ≠ m.name)) := by
  induction list with
  | nil => rfl
  | cons x rest ih =>
    rw [List.map_cons, List.nodup_cons] at hnd
    by_cases hx : x.name = m.name
    · rw [copyAndRemoveItemMapList, if_pos hx]
      simp only [List.filter_cons, hx, ne_eq, not_true_eq_false, decide_False,
        Bool.false_eq_true, if_false]
      symm
      rw [List.filter_eq_self]
      intro e he
      have : e.name ≠ x.name := fun h => hnd.1 (h ▸ List.mem_map_of_mem (fun e => e.name) he)
      rw [hx] at this
      simpa using this
    · rw [copyAndRemoveItemMapList, if_neg hx]
      simp only [List.filter_cons, ne_eq, hx, not_false_eq_true, decide_True, if_true]
      rw [ih hnd.2]

theorem copyAndRemoveItemMapList_found (m e : addressBookAddressSet)
    (list : List addressBookAddressSet) (hnd : (list.map (fun e => e.name)).Nodup)
    (he : e ∈ list) (hname : e.name = m.name) : (copyAndRemoveItemMapList m list).1 = e := by
  induction list with
  | nil => cases he
  | cons x rest ih =>
    rw [List.map_cons, List.nodup_cons] at hnd
    by_cases hx : x.name = m.name
    · rw [copyAndRemoveItemMapList, if_pos hx]
      rcases List.mem_cons.1 he with rfl | her
      · rfl
      · exact absurd (List.mem_map_of_mem (fun e => e.name) her) (by
          simp only
          rw [hname, ← hx]
          exact hnd.1)
    · rw [copyAndRemoveItemMapList, if_neg hx]
      rcases List.mem_cons.1 he with rfl | her
      · exact absurd hname hx
      · exact ih hnd.2 her

theorem copyAndRemoveItemMapList_fresh (m : addressBookAddressSet)
    (list : List addressBookAddressSet) (h : ∀ e ∈ list, e.name ≠ m.name) :
    (copyAndRemoveItemMapList m list).1 = m := by
  induction list with
  | nil => rfl
  | cons x rest ih =>
    rw [copyAndRemoveItemMapList, if_neg (h x (List.mem_cons_self _ _))]
    exact ih (fun e he => h e (List.mem_cons_of_mem _ he))

theorem addressSetTails_append (name : Str) (pre : List Str) (item : Str) :
    addressSetTails name (pre ++ [item]) =
      addressSetTails name pre ++
        (match addressSetLine item with
         | some rest =>
           if addressSetLineName rest = name then [addressSetLineTail rest] else []
         | none => []) := by
  unfold addressSetTails
  rw [List.filterMap_append]
  congr 1
  simp only [List.filterMap_cons, List.filterMap_nil]
  cases addressSetLine item with
  | none => rfl
  | some rest =>
    by_cases h : addressSetLineName rest = name
    · simp only [h, if_true]
    · simp only [h, if_false]

theorem addressSetOf_of_tails_eq (name : Str) (l1 l2 : List Str)
    (h : addressSetTails name l1 = addressSetTails name l2) :
    addressSetOf name l1 = addressSetOf name l2 := by
  unfold addressSetOf
  rw [h]

theorem addressSetOf_fresh (name : Str) (lines : List Str)
    (h : addressSetTails name lines = []) :
    addressSetOf name lines =
      { name := name, address := [], address_set := [], description := [] } := by
  unfold addressSetOf
  rw [h]
  rfl

theorem addressSetOf_append_tail (name : Str) (l1 l2 : List Str) (t : Str)
    (h : addressSetTails name l2 = addressSetTails name l1 ++ [t]) :
    addressSetOf name l2 = readSecurityAddressBook.adSet t (addressSetOf name l1) := by
  unfold addressSetOf readSecurityAddressBook.adSet
  rw [h]
  simp only [List.filterMap_append, List.filterMap_cons, List.filterMap_nil]
  cases h1 : CutPrefixInString t "description ".toList with
  | some v =>
    have h2 := CutPrefixInString_exclusive t "description ".toList "address ".toList
      (by decide) (by rw [h1]; rfl)
    have h3 := CutPrefixInString_exclusive t "description ".toList "address-set ".toList
      (by decide) (by rw [h1]; rfl)
    rw [h2, h3]
    simp only [List.append_nil, List.map_append, List.map_cons, List.map_nil,
      List.getLast?_append, List.getLast?_singleton]
    rfl
  | none =>
    cases h2 : CutPrefixInString t "address ".toList with
    | some v =>
      have h3 := CutPrefixInString_exclusive t "address ".toList "address-set ".toList
        (by decide) (by rw [h2]; rfl)
      rw [h3]
      simp only [List.append_nil]
    | none =>
      cases h3 : CutPrefixInString t "address-set ".toList with
      | some v => simp only [List.append_nil]
      | none => simp only [List.append_nil]

theorem addressSetStep_addressSetsOfLines (pre : List Str) (item : Str)
    (addressSet : List addressBookAddressSet) (h : addressSetsOfLines pre addressSet) :
    addressSetsOfLines (pre ++ [item]) (addressSetStep addressSet item) := by
  obtain ⟨hnd, hel, hall⟩ := h
  unfold addressSetStep
  cases hl : addressSetLine item with
  | none =>
    have ht : ∀ n, addressSetTails n (pre ++ [item]) = addressSetTails n pre := by
      intro n
      rw [addressSetTails_append, hl]
      exact List.append_nil _
    refine ⟨hnd, ?_, ?_⟩
    · intro e he
      rw [ht, addressSetOf_of_tails_eq _ _ _ (ht e.name)]
      exact hel e he
    · intro n hn
      rw [ht] at hn
      rw [addressSetOf_of_tails_eq _ _ _ (ht n)]
      exact hall n hn
  | some rest =>
    have ht0 : addressSetTails (addressSetLineName rest) (pre ++ [item]) =
        addressSetTails (addressSetLineName rest) pre ++ [addressSetLineTail rest] := by
      rw [addressSetTails_append, hl]
      simp only [if_true]
    have htn : ∀ n, n ≠ addressSetLineName rest →
        addressSetTails n (pre ++ [item]) = addressSetTails n pre := by
      intro n hn
      rw [addressSetTails_append, hl]
      simp only [Ne.symm hn, if_false]
      exact List.append_nil _
    have hu : readSecurityAddressBook.addressSet rest addressSet =
        (copyAndRemoveItemMapList
          { name := addressSetLineName rest, address := [], address_set := [], description := [] }
          addressSet).2 ++
        [readSecurityAddressBook.adSet (addressSetLineTail rest)
          (copyAndRemoveItemMapList
            { name := addressSetLineName rest, address := [], address_set := [],
              description := [] } addressSet).1] := rfl
    have hfound : (copyAndRemoveItemMapList
          { name := addressSetLineName rest, address := [], address_set := [], description := [] }
          addressSet).1 = addressSetOf (addressSetLineName rest) pre := by
      by_cases hp : addressSetTails (addressSetLineName rest) pre = []
      · rw [addressSetOf_fresh _ _ hp]
        apply copyAndRemoveItemMapList_fresh
        intro e he hne
        have hne1 : e.name = addressSetLineName rest := hne
        exact (hel e he).1 (hne1 ▸ hp)
      · exact copyAndRemoveItemMapList_found _ _ _ hnd (hall _ hp) rfl
    simp only
    rw [hu, copyAndRemoveItemMapList_list _ _ hnd, hfound,
      ← addressSetOf_append_tail _ pre (pre ++ [item]) _ ht0]
    refine ⟨?_, ?_, ?_⟩
    · rw [List.map_append, List.nodup_append]
      refine ⟨hnd.sublist ((List.filter_sublist _).map _), List.nodup_singleton _, ?_⟩
      intro a ha hb
      simp only [List.map_cons, List.map_nil, List.mem_singleton] at hb
      obtain ⟨e, he, rfl⟩ := List.mem_map.1 ha
      have hne := (List.mem_filter.1 he).2
      simp only [ne_eq, decide_not, Bool.not_eq_true', decide_eq_false_iff_not] at hne
      exact hne hb
    · intro e he
      rcases List.mem_append.1 he with he | he
      · have hne := (List.mem_filter.1 he).2
        simp only [ne_eq, decide_not, Bool.not_eq_true', decide_eq_false_iff_not] at hne
        rw [htn e.name hne, addressSetOf_of_tails_eq _ _ _ (htn e.name hne)]
        exact hel e (List.mem_filter.1 he).1
      · rw [List.mem_singleton] at he
        subst he
        refine ⟨?_, rfl⟩
        show addressSetTails (addressSetLineName rest) (pre ++ [item]) ≠ []
        rw [ht0]
        simp
    · intro n hn
      by_cases hnn : n = addressSetLineName rest
      · subst hnn
        exact List.mem_append_right _ (List.mem_singleton_self _)
      · rw [htn n hnn] at hn
        rw [addressSetOf_of_tails_eq _ _ _ (htn n hnn)]
        apply List.mem_append_left
        rw [List.mem_filter]
        refine ⟨hall n hn, ?_⟩
        simp only [ne_eq, decide_not, Bool.not_eq_true', decide_eq_false_iff_not]
        exact hnn

theorem addressSetStep_foldl (lines pre : List Str) (addressSet : List addressBookAddressSet)
    (h : addressSetsOfLines pre addressSet) :
    addressSetsOfLines (pre ++ lines) (lines.foldl addressSetStep addressSet) := by
  induction lines generalizing pre addressSet with
  | nil => simpa using h
  | cons item rest ih =>
    have := ih (pre ++ [item]) _ (addressSetStep_addressSetsOfLines pre item addressSet h)
    simpa using this

theorem addressSetTails_ne_nil_iff (name : Str) (lines : List Str) :
    addressSetTails name lines ≠ [] ↔
      ∃ item ∈ lines, ∃ rest, addressSetLine item = some rest ∧ addressSetLineName rest = name := by
  unfold addressSetTails
  rw [Ne, List.filterMap_eq_nil_iff]
  constructor
  · intro h
    by_contra hc
    apply h
    intro item hi
    cases hl : addressSetLine item with
    | none => rfl
    | some rest =>
      by_cases hn : addressSetLineName rest = name
      · exact absurd ⟨item, hi, rest, hl, hn⟩ hc
      · simp only [hn, if_false]
  · rintro ⟨item, hi, rest, hl, hn⟩ h
    have := h item hi
    rw [hl] at this
    simp only [hn, if_true] at this
    cases this

/-- C20, counterexample: in a reply where a line `address-set s1 address a3`
comes after the line holding the end tag, `readSecurityAddressBook` returns no
error and the block of `s1` holds the address `a1` only, whereas the lines
`address-set s1 address X` of the reply give `a1` and `a3`. -/
theorem readSecurityAddressBook_address_sets_counterexample :
    readSecurityAddressBook "b".toList (.ok exampleAddressBookReplyAfterEndTag) =
      ({ name := "b".toList,
         addressSet := [{ name := "s1".toList, address := ["a1".toList] }] }, none) ∧
    (addressSetOf "s1".toList (Split exampleAddressBookReplyAfterEndTag LF)).address =
      ["a1".toList, "a3".toList] := by
  decide

/-- C20, amended: when `readSecurityAddressBook` returns no error, with
`lines` the lines of the reply that its loop reads (those before the line of the
end tag, without the lines holding the start tag): no two elements of the
returned `addressSet` have the same name; each name of a line
`address-set <name> ...` has its block in the list, whose `address` is the list
of the `X` of the lines `address-set <name> address X` in the order of the reply,
whose `address_set` is the list of the `Y` of the lines
`address-set <name> address-set Y`, and whose `description` is the unquoted
value of the last line `address-set <name> description ...`, empty when there is
none; and each element of the list is the block of the name of such a line. -/
theorem readSecurityAddressBook_address_sets (addrBook showConfig : Str)
    (confRead : addressBookOptions)
    (hread : readSecurityAddressBook addrBook (.ok showConfig) = (confRead, none)) :
    (confRead.addressSet.map (fun e => e.name)).Nodup ∧
    (∀ name,
      (∃ item ∈ linesRead (Split showConfig LF), ∃ rest,
        addressSetLine item = some rest ∧ addressSetLineName rest = name) →
      addressSetOf name (linesRead (Split showConfig LF)) ∈ confRead.addressSet) ∧
    (∀ e ∈ confRead.addressSet,
      e = addressSetOf e.name (linesRead (Split showConfig LF)) ∧
      ∃ item ∈ linesRead (Split showConfig LF), ∃ rest,
        addressSetLine item = some rest ∧ addressSetLineName rest = e.name) := by
  have hinv : addressSetsOfLines (linesRead (Split showConfig LF)) confRead.addressSet := by
    unfold readSecurityAddressBook at hread
    simp only at hread
    by_cases hne : showConfig = EmptyW
    · subst hne
      simp only [ne_eq, not_true_eq_false, if_false, Prod.mk.injEq, and_true] at hread
      rw [← hread]
      have hl : linesRead (Split EmptyW LF) = [EmptyW] := by decide
      have hnone : addressSetLine EmptyW = none := by decide
      have ht : ∀ name, addressSetTails name [EmptyW] = [] := by
        intro name
        unfold addressSetTails
        simp only [List.filterMap_cons, List.filterMap_nil, hnone]
      rw [hl]
      exact ⟨List.nodup_nil, (fun e he => by cases he), (fun name hn => absurd (ht name) hn)⟩
    · rw [if_pos hne] at hread
      rcases hr : forEachConfigLine readSecurityAddressBookItem (Split showConfig LF)
          ({ name := addrBook }, []) with ⟨⟨cr, dm⟩, _ | err⟩
      · rw [hr] at hread
        simp only [Prod.mk.injEq, and_true] at hread
        have hloop := readSecurityAddressBook_loop_addressSet _ _ _ hr
        have hset : confRead.addressSet = cr.addressSet := by rw [← hread]
        rw [hset, hloop]
        have h0 : addressSetsOfLines [] ([] : List addressBookAddressSet) :=
          ⟨List.nodup_nil, (fun e he => by cases he), (fun name hn => absurd rfl hn)⟩
        simpa using addressSetStep_foldl (linesRead (Split showConfig LF)) [] [] h0
      · rw [hr] at hread
        simp only [Prod.mk.injEq] at hread
        exact absurd hread.2 (by simp)
  obtain ⟨hnd, hel, hall⟩ := hinv
  refine ⟨hnd, ?_, ?_⟩
  · intro name hn
    exact hall name ((addressSetTails_ne_nil_iff _ _).2 hn)
  · intro e he
    exact ⟨(hel e he).2, (addressSetTails_ne_nil_iff _ _).1 (hel e he).1⟩

/-- C20, amended, at a reply with the lines of two address sets mixed between
the two tags: the list returned is the block of `s2` followed by the block of
`s1`, with the addresses `a1`, `a3` in the order of the reply. -/
theorem readSecurityAddressBook_address_sets_witness :
    readSecurityAddressBook "b".toList (.ok exampleAddressBookReply) =
      ({ name := "b".toList,
         addressSet :=
          [{ name := "s2".toList, address := ["a2".toList] },
           { name := "s1".toList, address := ["a1".toList, "a3".toList],
             address_set := ["s2".toList], description := "first set".toList }] }, none) ∧
    addressSetOf "s1".toList (linesRead (Split exampleAddressBookReply LF)) =
      { name := "s1".toList, address := ["a1".toList, "a3".toList],
        address_set := ["s2".toList], description := "first set".toList } ∧
    addressSetOf "s1".toList (linesRead (Split exampleAddressBookReply LF)) ∈
      (readSecurityAddressBook "b".toList (.ok exampleAddressBookReply)).1.addressSet :=
  ⟨by decide, by decide,
    (readSecurityAddressBook_address_sets "b".toList exampleAddressBookReply
      (readSecurityAddressBook "b".toList (.ok exampleAddressBookReply)).1 (by decide)).2.1
      "s1".toList (by decide)⟩

end Junos
